import Mathlib

set_option maxRecDepth 40000
set_option maxHeartbeats 2000000

set_option linter.unusedVariables false
set_option linter.unreachableTactic false
set_option linter.unusedTactic false
set_option linter.unnecessarySeqFocus false

/-! Shallow embedding of pkg/crypto/threefish/threefish.go.

Machine words (Go uint64) are modelled as Fin (2 ^ 64): a natural number
together with a proof that it lies below 2 ^ 64.  Addition and subtraction
on this type are exactly addition and subtraction of naturals reduced
modulo 2 ^ 64 (see Word.add_val and Word.sub_val below), which is the
wrap-around semantics of Go's uint64 arithmetic.  Xor, shifts and the
rotation patterns of the source are defined explicitly on the underlying
naturals. -/

abbrev Word : Type := Fin (2 ^ 64)

/-- Word addition is Nat addition reduced modulo 2 ^ 64, as for Go uint64. -/
theorem Word.add_val (a b : Word) : (a + b).val = (a.val + b.val) % 2 ^ 64 := rfl

/-- Word subtraction is wrap-around subtraction modulo 2 ^ 64, as for Go uint64. -/
theorem Word.sub_val (a b : Word) : (a - b).val = (a.val + (2 ^ 64 - b.val)) % 2 ^ 64 := by
  rw [Fin.sub_def]
  simp [Nat.add_comm]

/-- Xor of two words, acting on the underlying naturals (Go uint64 ^). -/
def wxor (a b : Word) : Word :=
  ⟨a.val ^^^ b.val, Nat.xor_lt_two_pow a.isLt b.isLt⟩

theorem wxor_cancel_right (a b : Word) : wxor (wxor a b) b = a := by
  apply Fin.ext
  show (a.val ^^^ b.val) ^^^ b.val = a.val
  exact Nat.xor_cancel_right _ _

theorem shiftRight_lt_word {a : Nat} (h : a < 2 ^ 64) (n : Nat) : a >>> n < 2 ^ 64 :=
  lt_of_le_of_lt (by rw [Nat.shiftRight_eq_div_pow]; exact Nat.div_le_self _ _) h

theorem testBit_ge_64 {a : Nat} (ha : a < 2 ^ 64) {i : Nat} (h : 64 ≤ i) :
    a.testBit i = false :=
  Nat.testBit_lt_two_pow (lt_of_lt_of_le ha (Nat.pow_le_pow_right (by norm_num) h))

theorem lor_lt_word {a b : Nat} (ha : a < 2 ^ 64) (hb : b < 2 ^ 64) :
    a ||| b < 2 ^ 64 := by
  apply Nat.lt_pow_two_of_testBit
  intro i hi
  simp [Nat.testBit_lor, testBit_ge_64 ha hi, testBit_ge_64 hb hi]

/-- Left rotation of a word by n < 64 places, written exactly as in the Go
source: ((x << n) | (x >> (64 - n))), where the left shift wraps modulo
2 ^ 64 because it is a uint64 shift. -/
def rotL64 (x : Word) (n : Fin 64) : Word :=
  ⟨((x.val <<< n.val) % 2 ^ 64) ||| (x.val >>> (64 - n.val)),
    lor_lt_word (Nat.mod_lt _ (by norm_num)) (shiftRight_lt_word x.isLt _)⟩

/-- Right rotation of a word by n < 64 places, written exactly as in the Go
decrypt source: ((x >> n) | (x << (64 - n))). -/
def rotR64 (x : Word) (n : Fin 64) : Word :=
  ⟨(x.val >>> n.val) ||| ((x.val <<< (64 - n.val)) % 2 ^ 64),
    lor_lt_word (shiftRight_lt_word x.isLt _) (Nat.mod_lt _ (by norm_num))⟩

theorem rotL64_val (x : Word) (n : Fin 64) :
    (rotL64 x n).val = ((x.val <<< n.val) % 2 ^ 64) ||| (x.val >>> (64 - n.val)) := rfl

theorem rotR64_val (x : Word) (n : Fin 64) :
    (rotR64 x n).val = (x.val >>> n.val) ||| ((x.val <<< (64 - n.val)) % 2 ^ 64) := rfl

/-- Bit-level description of the rotation pattern ((a << m) % 2^64) | (a >> (64 - m)). -/
theorem rotPat_testBit {a : Nat} (ha : a < 2 ^ 64) {m : Nat} (hm : m ≤ 64) (i : Nat) :
    (((a <<< m) % 2 ^ 64) ||| (a >>> (64 - m))).testBit i =
      if i < 64 then (if m ≤ i then a.testBit (i - m) else a.testBit (64 - m + i))
      else false := by
  simp only [Nat.testBit_lor, Nat.testBit_mod_two_pow, Nat.testBit_shiftLeft,
    Nat.testBit_shiftRight]
  rcases lt_or_ge i 64 with hi | hi
  · rcases le_or_lt m i with h1 | h1
    · have h2 : 64 ≤ 64 - m + i := by omega
      simp [hi, h1, testBit_ge_64 ha h2]
    · have h3 : ¬ m ≤ i := by omega
      simp [hi, h1, h3]
  · have h2 : 64 ≤ 64 - m + i := by omega
    have h3 : ¬ i < 64 := by omega
    simp [h3, testBit_ge_64 ha h2]

/-- Composing the rotation pattern with amount m and then with amount 64 - m
recovers the original word. -/
theorem natRot_cancel {a : Nat} (ha : a < 2 ^ 64) {m : Nat} (hm : m ≤ 64) :
    ((((((a <<< m) % 2 ^ 64) ||| (a >>> (64 - m))) <<< (64 - m)) % 2 ^ 64) |||
      ((((a <<< m) % 2 ^ 64) ||| (a >>> (64 - m))) >>> (64 - (64 - m)))) = a := by
  have hy : (((a <<< m) % 2 ^ 64) ||| (a >>> (64 - m))) < 2 ^ 64 :=
    lor_lt_word (Nat.mod_lt _ (by norm_num)) (shiftRight_lt_word ha _)
  apply Nat.eq_of_testBit_eq
  intro i
  rw [rotPat_testBit hy (by omega) i]
  rcases lt_or_ge i 64 with hi | hi
  · rcases le_or_lt (64 - m) i with h1 | h1
    · rw [if_pos hi, if_pos h1, rotPat_testBit ha hm]
      rw [if_pos (show i - (64 - m) < 64 by omega),
        if_neg (show ¬ m ≤ i - (64 - m) by omega)]
      congr 1
      omega
    · rw [if_pos hi, if_neg (by omega), rotPat_testBit ha hm]
      rw [show 64 - (64 - m) + i = m + i by omega]
      rw [if_pos (by omega), if_pos (by omega)]
      congr 1
      omega
  · rw [if_neg (by omega)]
    exact (testBit_ge_64 ha hi).symm

/-- Reformulation of natRot_cancel with independent shift amounts. -/
theorem natRot_cancel2 {a : Nat} (ha : a < 2 ^ 64) {m k : Nat} (hm : m ≤ 64)
    (hk : k = 64 - m) :
    (((((a <<< m) % 2 ^ 64) ||| (a >>> k)) <<< k) % 2 ^ 64 |||
      ((((a <<< m) % 2 ^ 64) ||| (a >>> k)) >>> m)) = a := by
  subst hk
  have h := natRot_cancel ha hm
  rw [show 64 - (64 - m) = m by omega] at h
  exact h

/-- Variant of rotR64_val with the disjuncts swapped. -/
theorem rotR64_valComm (x : Word) (n : Fin 64) :
    (rotR64 x n).val = ((x.val <<< (64 - n.val)) % 2 ^ 64) ||| (x.val >>> n.val) := by
  rw [rotR64_val, Nat.lor_comm]

/-- Right rotation undoes left rotation by the same amount. -/
theorem rotR_rotL (x : Word) (n : Fin 64) : rotR64 (rotL64 x n) n = x := by
  have hn := n.isLt
  apply Fin.ext
  rw [rotR64_valComm, rotL64_val]
  exact natRot_cancel2 x.isLt (by omega) rfl

/-- Left rotation undoes right rotation by the same amount. -/
theorem rotL_rotR (x : Word) (n : Fin 64) : rotL64 (rotR64 x n) n = x := by
  have hn := n.isLt
  apply Fin.ext
  rw [rotL64_val, rotR64_valComm]
  exact natRot_cancel2 x.isLt (by omega) (by omega)


/-- Go constant KEY_SCHEDULE_CONST = 0x1BD11BDAA9FC1A22. -/
def KEY_SCHEDULE_CONST : Word := 0x1BD11BDAA9FC1A22

/-- Bytes of the byte-oriented interfaces. -/
abbrev Byte : Type := Fin 256

/-- Go helper setTweak(tweak, expTweak): when the tweak slice is non-nil the
three expanded-tweak words are written (third = xor of the first two);
a nil tweak leaves the expanded tweak untouched. -/
def setTweakGo (tweak : Option (List Word)) (expTweak : List Word) : List Word :=
  match tweak with
  | none => expTweak
  | some t => [t.getD 0 0, t.getD 1 0, wxor (t.getD 0 0) (t.getD 1 0)]

/-- Go helper setKey(key, expKey) with len(expKey) = n + 1: expKey[i] = key[i]
for i < n, and expKey[n] = KEY_SCHEDULE_CONST xor key[0] xor ... xor key[n-1].
The loop reads key[0..n-1]; extra key words are ignored. -/
def setKeyGo (key : List Word) (n : Nat) : List Word :=
  let ks := (List.range n).map (fun i => key.getD i 0)
  ks ++ [ks.foldl wxor KEY_SCHEDULE_CONST]

/-- binary.LittleEndian.Uint64(bs[off:off+8]): the word whose bytes, least
significant first, are bs[off..off+7]. -/
def load64 (bs : List Byte) (off : Nat) : Word :=
  ⟨((List.range 8).foldl (fun a j => a + (bs.getD (off + j) 0).val * 256 ^ j) 0) % 2 ^ 64,
    Nat.mod_lt _ (by norm_num)⟩

/-- The n words decoded little-endian from a byte key (Go loop tmpkey[i] =
binary.LittleEndian.Uint64(key[i*8:i*8+8])). -/
def loadWords (bs : List Byte) (n : Nat) : List Word :=
  (List.range n).map (fun i => load64 bs (8 * i))

/-- binary.LittleEndian.PutUint64: the 8 bytes of a word, least significant
first. -/
def store64 (w : Word) : List Byte :=
  (List.range 8).map (fun j => ⟨(w.val >>> (8 * j)) % 256, Nat.mod_lt _ (by norm_num)⟩)


/-- The four 64-bit working words b0..b3 of the threefish256 round engine. -/
structure S4 where
  b0 : Word
  b1 : Word
  b2 : Word
  b3 : Word
deriving DecidableEq

/-- The eight 64-bit working words of the threefish512 round engine. -/
structure S8 where
  b0 : Word
  b1 : Word
  b2 : Word
  b3 : Word
  b4 : Word
  b5 : Word
  b6 : Word
  b7 : Word
deriving DecidableEq

/-- The sixteen 64-bit working words of the threefish1024 round engine. -/
structure S16 where
  b0 : Word
  b1 : Word
  b2 : Word
  b3 : Word
  b4 : Word
  b5 : Word
  b6 : Word
  b7 : Word
  b8 : Word
  b9 : Word
  b10 : Word
  b11 : Word
  b12 : Word
  b13 : Word
  b14 : Word
  b15 : Word
deriving DecidableEq

/-- Go: b0 += b3; b3 = ((b3 << r) | (b3 >> (64 - r))) ^ b0  (threefish256). -/
def mix256_0_3 (r : Fin 64) (s : S4) : S4 :=
  let v0 := s.b0 + s.b3
  let v3 := wxor (rotL64 s.b3 r) v0
  ⟨v0, s.b1, s.b2, v3⟩

/-- Go: tmp = b3 ^ b0; b3 = (tmp >> r) | (tmp << (64 - r)); b0 -= b3  (threefish256). -/
def dmix256_0_3 (r : Fin 64) (s : S4) : S4 :=
  let tmp := wxor s.b3 s.b0
  let v3 := rotR64 tmp r
  let v0 := s.b0 - v3
  ⟨v0, s.b1, s.b2, v3⟩

/-- Go: b2 += b1; b1 = ((b1 << r) | (b1 >> (64 - r))) ^ b2  (threefish256). -/
def mix256_2_1 (r : Fin 64) (s : S4) : S4 :=
  let v2 := s.b2 + s.b1
  let v1 := wxor (rotL64 s.b1 r) v2
  ⟨s.b0, v1, v2, s.b3⟩

/-- Go: tmp = b1 ^ b2; b1 = (tmp >> r) | (tmp << (64 - r)); b2 -= b1  (threefish256). -/
def dmix256_2_1 (r : Fin 64) (s : S4) : S4 :=
  let tmp := wxor s.b1 s.b2
  let v1 := rotR64 tmp r
  let v2 := s.b2 - v1
  ⟨s.b0, v1, v2, s.b3⟩

/-- Go: b0 += b1; b1 = ((b1 << r) | (b1 >> (64 - r))) ^ b0  (threefish256). -/
def mix256_0_1 (r : Fin 64) (s : S4) : S4 :=
  let v0 := s.b0 + s.b1
  let v1 := wxor (rotL64 s.b1 r) v0
  ⟨v0, v1, s.b2, s.b3⟩

/-- Go: tmp = b1 ^ b0; b1 = (tmp >> r) | (tmp << (64 - r)); b0 -= b1  (threefish256). -/
def dmix256_0_1 (r : Fin 64) (s : S4) : S4 :=
  let tmp := wxor s.b1 s.b0
  let v1 := rotR64 tmp r
  let v0 := s.b0 - v1
  ⟨v0, v1, s.b2, s.b3⟩

/-- Go: b2 += b3; b3 = ((b3 << r) | (b3 >> (64 - r))) ^ b2  (threefish256). -/
def mix256_2_3 (r : Fin 64) (s : S4) : S4 :=
  let v2 := s.b2 + s.b3
  let v3 := wxor (rotL64 s.b3 r) v2
  ⟨s.b0, s.b1, v2, v3⟩

/-- Go: tmp = b3 ^ b2; b3 = (tmp >> r) | (tmp << (64 - r)); b2 -= b3  (threefish256). -/
def dmix256_2_3 (r : Fin 64) (s : S4) : S4 :=
  let tmp := wxor s.b3 s.b2
  let v3 := rotR64 tmp r
  let v2 := s.b2 - v3
  ⟨s.b0, s.b1, v2, v3⟩

/-- Go: b1 += <subkey terms>; b0 += b1 + <subkey terms>; b1 = rot ^ b0  (threefish256 key injection, word pair (0,1)). -/
def imix256_0_1 (k0x k1x tX : Word) (r : Fin 64) (s : S4) : S4 :=
  let v1 := s.b1 + (k1x + tX)
  let v0 := s.b0 + (v1 + k0x)
  let w1 := wxor (rotL64 v1 r) v0
  ⟨v0, w1, s.b2, s.b3⟩

/-- Go: tmp = b1 ^ b0; b1 = rotR tmp; b0 -= b1 + <subkey>; b1 -= <subkey>  (threefish256). -/
def dimix256_0_1 (k0x k1x tX : Word) (r : Fin 64) (s : S4) : S4 :=
  let tmp := wxor s.b1 s.b0
  let v1 := rotR64 tmp r
  let v0 := s.b0 - (v1 + k0x)
  let w1 := v1 - (k1x + tX)
  ⟨v0, w1, s.b2, s.b3⟩

/-- Go: b3 += <subkey terms>; b2 += b3 + <subkey terms>; b3 = rot ^ b2  (threefish256 key injection, word pair (2,3)). -/
def imix256_2_3 (k2x k3x sX tY : Word) (r : Fin 64) (s : S4) : S4 :=
  let v3 := s.b3 + (k3x + sX)
  let v2 := s.b2 + (v3 + k2x + tY)
  let w3 := wxor (rotL64 v3 r) v2
  ⟨s.b0, s.b1, v2, w3⟩

/-- Go: tmp = b3 ^ b2; b3 = rotR tmp; b2 -= b3 + <subkey>; b3 -= <subkey>  (threefish256). -/
def dimix256_2_3 (k2x k3x sX tY : Word) (r : Fin 64) (s : S4) : S4 :=
  let tmp := wxor s.b3 s.b2
  let v3 := rotR64 tmp r
  let v2 := s.b2 - (v3 + k2x + tY)
  let w3 := v3 - (k3x + sX)
  ⟨s.b0, s.b1, v2, w3⟩

/-- Go: output[i] = b_i + <final subkey>  (threefish256). -/
def einj256 (a0 a1 a2 a3 : Word) (s : S4) : S4 :=
  ⟨s.b0 + a0, s.b1 + a1, s.b2 + a2, s.b3 + a3⟩

/-- Go: b_i -= <final subkey>  (head of threefish256.decrypt). -/
def dinj256 (a0 a1 a2 a3 : Word) (s : S4) : S4 :=
  ⟨s.b0 - a0, s.b1 - a1, s.b2 - a2, s.b3 - a3⟩

theorem dmix256_0_3_c (r : Fin 64) (s : S4) : dmix256_0_3 r (mix256_0_3 r s) = s := by
  cases s
  simp only [mix256_0_3, dmix256_0_3, wxor_cancel_right, rotR_rotL, add_sub_cancel_right]

theorem mix256_0_3_c (r : Fin 64) (s : S4) : mix256_0_3 r (dmix256_0_3 r s) = s := by
  cases s
  simp only [mix256_0_3, dmix256_0_3, sub_add_cancel, rotL_rotR, wxor_cancel_right]

theorem dmix256_2_1_c (r : Fin 64) (s : S4) : dmix256_2_1 r (mix256_2_1 r s) = s := by
  cases s
  simp only [mix256_2_1, dmix256_2_1, wxor_cancel_right, rotR_rotL, add_sub_cancel_right]

theorem mix256_2_1_c (r : Fin 64) (s : S4) : mix256_2_1 r (dmix256_2_1 r s) = s := by
  cases s
  simp only [mix256_2_1, dmix256_2_1, sub_add_cancel, rotL_rotR, wxor_cancel_right]

theorem dmix256_0_1_c (r : Fin 64) (s : S4) : dmix256_0_1 r (mix256_0_1 r s) = s := by
  cases s
  simp only [mix256_0_1, dmix256_0_1, wxor_cancel_right, rotR_rotL, add_sub_cancel_right]

theorem mix256_0_1_c (r : Fin 64) (s : S4) : mix256_0_1 r (dmix256_0_1 r s) = s := by
  cases s
  simp only [mix256_0_1, dmix256_0_1, sub_add_cancel, rotL_rotR, wxor_cancel_right]

theorem dmix256_2_3_c (r : Fin 64) (s : S4) : dmix256_2_3 r (mix256_2_3 r s) = s := by
  cases s
  simp only [mix256_2_3, dmix256_2_3, wxor_cancel_right, rotR_rotL, add_sub_cancel_right]

theorem mix256_2_3_c (r : Fin 64) (s : S4) : mix256_2_3 r (dmix256_2_3 r s) = s := by
  cases s
  simp only [mix256_2_3, dmix256_2_3, sub_add_cancel, rotL_rotR, wxor_cancel_right]

theorem dimix256_0_1_c (k0x k1x tX : Word) (r : Fin 64) (s : S4) :
    dimix256_0_1 k0x k1x tX r (imix256_0_1 k0x k1x tX r s) = s := by
  cases s
  simp only [imix256_0_1, dimix256_0_1, wxor_cancel_right, rotR_rotL, add_sub_cancel_right]

theorem imix256_0_1_c (k0x k1x tX : Word) (r : Fin 64) (s : S4) :
    imix256_0_1 k0x k1x tX r (dimix256_0_1 k0x k1x tX r s) = s := by
  cases s
  simp only [imix256_0_1, dimix256_0_1, sub_add_cancel, rotL_rotR, wxor_cancel_right]

theorem dimix256_2_3_c (k2x k3x sX tY : Word) (r : Fin 64) (s : S4) :
    dimix256_2_3 k2x k3x sX tY r (imix256_2_3 k2x k3x sX tY r s) = s := by
  cases s
  simp only [imix256_2_3, dimix256_2_3, wxor_cancel_right, rotR_rotL, add_sub_cancel_right]

theorem imix256_2_3_c (k2x k3x sX tY : Word) (r : Fin 64) (s : S4) :
    imix256_2_3 k2x k3x sX tY r (dimix256_2_3 k2x k3x sX tY r s) = s := by
  cases s
  simp only [imix256_2_3, dimix256_2_3, sub_add_cancel, rotL_rotR, wxor_cancel_right]

theorem dinj256_c (a0 a1 a2 a3 : Word) (s : S4) : dinj256 a0 a1 a2 a3 (einj256 a0 a1 a2 a3 s) = s := by
  cases s
  simp only [einj256, dinj256, add_sub_cancel_right]

theorem einj256_c (a0 a1 a2 a3 : Word) (s : S4) : einj256 a0 a1 a2 a3 (dinj256 a0 a1 a2 a3 s) = s := by
  cases s
  simp only [einj256, dinj256, sub_add_cancel]


theorem dmix256_0_3_mix21_comm (r rx : Fin 64) (s : S4) :
    dmix256_0_3 r (mix256_2_1 rx s) = mix256_2_1 rx (dmix256_0_3 r s) := by
  cases s; rfl

theorem dmix256_0_1_mix23_comm (r rx : Fin 64) (s : S4) :
    dmix256_0_1 r (mix256_2_3 rx s) = mix256_2_3 rx (dmix256_0_1 r s) := by
  cases s; rfl

theorem dimix256_0_1_imix23_comm (kAx kBx tX kCx kDx sX tY : Word) (r rx : Fin 64) (s : S4) :
    dimix256_0_1 kAx kBx tX r (imix256_2_3 kCx kDx sX tY rx s)
      = imix256_2_3 kCx kDx sX tY rx (dimix256_0_1 kAx kBx tX r s) := by
  cases s; rfl

theorem mix256_0_3_dmix21_comm (r rx : Fin 64) (s : S4) :
    mix256_0_3 r (dmix256_2_1 rx s) = dmix256_2_1 rx (mix256_0_3 r s) := by
  cases s; rfl

theorem mix256_0_1_dmix23_comm (r rx : Fin 64) (s : S4) :
    mix256_0_1 r (dmix256_2_3 rx s) = dmix256_2_3 rx (mix256_0_1 r s) := by
  cases s; rfl

theorem imix256_0_1_dimix23_comm (kAx kBx tX kCx kDx sX tY : Word) (r rx : Fin 64) (s : S4) :
    imix256_0_1 kAx kBx tX r (dimix256_2_3 kCx kDx sX tY rx s)
      = dimix256_2_3 kCx kDx sX tY rx (imix256_0_1 kAx kBx tX r s) := by
  cases s; rfl

/-- One four-round key-injection cycle of threefish256.encrypt: the subkey
injection merged into the first round followed by three further rounds,
exactly as the statements appear in the Go source. -/
def cyc256 (r0 r1 r2 r3 r4 r5 r6 r7 : Fin 64) (a0 a1 a2 a3 tA tB sN : Word) (s : S4) : S4 :=
  s |> imix256_0_1 a0 a1 tA r0
    |> imix256_2_3 a2 a3 sN tB r1
    |> mix256_0_3 r2
    |> mix256_2_1 r3
    |> mix256_0_1 r4
    |> mix256_2_3 r5
    |> mix256_0_3 r6
    |> mix256_2_1 r7

/-- The segment of threefish256.decrypt that inverts one cycle, with the
statements in the order of the Go source. -/
def dcyc256 (r0 r1 r2 r3 r4 r5 r6 r7 : Fin 64) (a0 a1 a2 a3 tA tB sN : Word) (s : S4) : S4 :=
  s |> dmix256_0_3 r6
    |> dmix256_2_1 r7
    |> dmix256_0_1 r4
    |> dmix256_2_3 r5
    |> dmix256_0_3 r2
    |> dmix256_2_1 r3
    |> dimix256_0_1 a0 a1 tA r0
    |> dimix256_2_3 a2 a3 sN tB r1

theorem dcyc256_cyc (r0 r1 r2 r3 r4 r5 r6 r7 : Fin 64) (a0 a1 a2 a3 tA tB sN : Word) (s : S4) :
    dcyc256 r0 r1 r2 r3 r4 r5 r6 r7 a0 a1 a2 a3 tA tB sN
      (cyc256 r0 r1 r2 r3 r4 r5 r6 r7 a0 a1 a2 a3 tA tB sN s) = s := by
  simp only [cyc256, dcyc256, dmix256_0_3_mix21_comm, dmix256_0_1_mix23_comm, dimix256_0_1_imix23_comm, dmix256_0_3_c, dmix256_2_1_c, dmix256_0_1_c, dmix256_2_3_c, dimix256_0_1_c, dimix256_2_3_c]

theorem cyc256_dcyc (r0 r1 r2 r3 r4 r5 r6 r7 : Fin 64) (a0 a1 a2 a3 tA tB sN : Word) (s : S4) :
    cyc256 r0 r1 r2 r3 r4 r5 r6 r7 a0 a1 a2 a3 tA tB sN
      (dcyc256 r0 r1 r2 r3 r4 r5 r6 r7 a0 a1 a2 a3 tA tB sN s) = s := by
  simp only [cyc256, dcyc256, mix256_0_3_dmix21_comm, mix256_0_1_dmix23_comm, imix256_0_1_dimix23_comm, mix256_0_3_c, mix256_2_1_c, mix256_0_1_c, mix256_2_3_c, imix256_0_1_c, imix256_2_3_c]

/-- State of the Go struct threefish256: the expanded tweak (3 words) and the
expanded key (5 words).  The scratch buffers tmpData1/tmpData2 hold no
algorithmic state and are not modelled. -/
structure threefish256 where
  expanedTweak : List Word
  expanedKey : List Word
deriving DecidableEq

def threefish256.setTweak (tf : threefish256) (tweak : Option (List Word)) : threefish256 :=
  { tf with expanedTweak := setTweakGo tweak tf.expanedTweak }

/-- Go threefish256.setKey: runs the shared setKey helper over the 5-word
expanded-key array; the loop reads key[0..3], so a shorter key faults
(modelled as none).  No KeySizeError is ever produced here. -/
def threefish256.setKey (tf : threefish256) (key : List Word) : Option threefish256 :=
  if 4 ≤ key.length then some { tf with expanedKey := setKeyGo key 4 } else none

/-- Go newThreefish256: zeroed struct, tweak expanded, parity word
preset to KEY_SCHEDULE_CONST, then the key bytes (if any) are decoded to
words and expanded. -/
def newThreefish256 (key : Option (List Byte)) (tweak : Option (List Word)) : threefish256 :=
  let c : threefish256 :=
    { expanedTweak := setTweakGo tweak [0, 0, 0],
      expanedKey := List.replicate 4 0 ++ [KEY_SCHEDULE_CONST] }
  match key with
  | none => c
  | some kb => { c with expanedKey := setKeyGo (loadWords kb 4) 4 }

def newThreefish256_64 (key : List Word) (tweak : Option (List Word)) : threefish256 :=
  let c : threefish256 :=
    { expanedTweak := setTweakGo tweak [0, 0, 0],
      expanedKey := List.replicate 4 0 ++ [KEY_SCHEDULE_CONST] }
  { c with expanedKey := setKeyGo key 4 }

/-- Word-level threefish256.encrypt: the block is the 4-tuple of local
variables b0..b3 of the Go source; each cyc256 call is one key-injection
cycle (4 rounds) with the subkey/tweak/counter arguments read off the
corresponding Go statements, and einj256 is the final output injection. -/
def threefish256.encrypt (tf : threefish256) (input : S4) : S4 :=
  let k0 := tf.expanedKey.getD 0 0
  let k1 := tf.expanedKey.getD 1 0
  let k2 := tf.expanedKey.getD 2 0
  let k3 := tf.expanedKey.getD 3 0
  let k4 := tf.expanedKey.getD 4 0
  let t0 := tf.expanedTweak.getD 0 0
  let t1 := tf.expanedTweak.getD 1 0
  let t2 := tf.expanedTweak.getD 2 0
  input
    |> cyc256 14 16 52 57 23 40 5 37  k0 k1 k2 k3 t0 t1 0
    |> cyc256 25 33 46 12 58 22 32 32  k1 k2 k3 k4 t1 t2 1
    |> cyc256 14 16 52 57 23 40 5 37  k2 k3 k4 k0 t2 t0 2
    |> cyc256 25 33 46 12 58 22 32 32  k3 k4 k0 k1 t0 t1 3
    |> cyc256 14 16 52 57 23 40 5 37  k4 k0 k1 k2 t1 t2 4
    |> cyc256 25 33 46 12 58 22 32 32  k0 k1 k2 k3 t2 t0 5
    |> cyc256 14 16 52 57 23 40 5 37  k1 k2 k3 k4 t0 t1 6
    |> cyc256 25 33 46 12 58 22 32 32  k2 k3 k4 k0 t1 t2 7
    |> cyc256 14 16 52 57 23 40 5 37  k3 k4 k0 k1 t2 t0 8
    |> cyc256 25 33 46 12 58 22 32 32  k4 k0 k1 k2 t0 t1 9
    |> cyc256 14 16 52 57 23 40 5 37  k0 k1 k2 k3 t1 t2 10
    |> cyc256 25 33 46 12 58 22 32 32  k1 k2 k3 k4 t2 t0 11
    |> cyc256 14 16 52 57 23 40 5 37  k2 k3 k4 k0 t0 t1 12
    |> cyc256 25 33 46 12 58 22 32 32  k3 k4 k0 k1 t1 t2 13
    |> cyc256 14 16 52 57 23 40 5 37  k4 k0 k1 k2 t2 t0 14
    |> cyc256 25 33 46 12 58 22 32 32  k0 k1 k2 k3 t0 t1 15
    |> cyc256 14 16 52 57 23 40 5 37  k1 k2 k3 k4 t1 t2 16
    |> cyc256 25 33 46 12 58 22 32 32  k2 k3 k4 k0 t2 t0 17
    |> einj256 k3 (k4 + t0) (k0 + t1) (k1 + 18)

/-- Word-level threefish256.decrypt, transcribed in the same way. -/
def threefish256.decrypt (tf : threefish256) (input : S4) : S4 :=
  let k0 := tf.expanedKey.getD 0 0
  let k1 := tf.expanedKey.getD 1 0
  let k2 := tf.expanedKey.getD 2 0
  let k3 := tf.expanedKey.getD 3 0
  let k4 := tf.expanedKey.getD 4 0
  let t0 := tf.expanedTweak.getD 0 0
  let t1 := tf.expanedTweak.getD 1 0
  let t2 := tf.expanedTweak.getD 2 0
  input
    |> dinj256 k3 (k4 + t0) (k0 + t1) (k1 + 18)
    |> dcyc256 25 33 46 12 58 22 32 32  k2 k3 k4 k0 t2 t0 17
    |> dcyc256 14 16 52 57 23 40 5 37  k1 k2 k3 k4 t1 t2 16
    |> dcyc256 25 33 46 12 58 22 32 32  k0 k1 k2 k3 t0 t1 15
    |> dcyc256 14 16 52 57 23 40 5 37  k4 k0 k1 k2 t2 t0 14
    |> dcyc256 25 33 46 12 58 22 32 32  k3 k4 k0 k1 t1 t2 13
    |> dcyc256 14 16 52 57 23 40 5 37  k2 k3 k4 k0 t0 t1 12
    |> dcyc256 25 33 46 12 58 22 32 32  k1 k2 k3 k4 t2 t0 11
    |> dcyc256 14 16 52 57 23 40 5 37  k0 k1 k2 k3 t1 t2 10
    |> dcyc256 25 33 46 12 58 22 32 32  k4 k0 k1 k2 t0 t1 9
    |> dcyc256 14 16 52 57 23 40 5 37  k3 k4 k0 k1 t2 t0 8
    |> dcyc256 25 33 46 12 58 22 32 32  k2 k3 k4 k0 t1 t2 7
    |> dcyc256 14 16 52 57 23 40 5 37  k1 k2 k3 k4 t0 t1 6
    |> dcyc256 25 33 46 12 58 22 32 32  k0 k1 k2 k3 t2 t0 5
    |> dcyc256 14 16 52 57 23 40 5 37  k4 k0 k1 k2 t1 t2 4
    |> dcyc256 25 33 46 12 58 22 32 32  k3 k4 k0 k1 t0 t1 3
    |> dcyc256 14 16 52 57 23 40 5 37  k2 k3 k4 k0 t2 t0 2
    |> dcyc256 25 33 46 12 58 22 32 32  k1 k2 k3 k4 t1 t2 1
    |> dcyc256 14 16 52 57 23 40 5 37  k0 k1 k2 k3 t0 t1 0

theorem threefish256.decrypt_encrypt_256 (tf : threefish256) (p : S4) :
    threefish256.decrypt tf (threefish256.encrypt tf p) = p := by
  simp only [threefish256.encrypt, threefish256.decrypt, dinj256_c, dcyc256_cyc]

theorem threefish256.encrypt_decrypt_256 (tf : threefish256) (p : S4) :
    threefish256.encrypt tf (threefish256.decrypt tf p) = p := by
  simp only [threefish256.encrypt, threefish256.decrypt, einj256_c, cyc256_dcyc]

/-- Go: b2 += b1; b1 = ((b1 << r) | (b1 >> (64 - r))) ^ b2  (threefish512). -/
def mix512_2_1 (r : Fin 64) (s : S8) : S8 :=
  let v2 := s.b2 + s.b1
  let v1 := wxor (rotL64 s.b1 r) v2
  ⟨s.b0, v1, v2, s.b3, s.b4, s.b5, s.b6, s.b7⟩

/-- Go: tmp = b1 ^ b2; b1 = (tmp >> r) | (tmp << (64 - r)); b2 -= b1  (threefish512). -/
def dmix512_2_1 (r : Fin 64) (s : S8) : S8 :=
  let tmp := wxor s.b1 s.b2
  let v1 := rotR64 tmp r
  let v2 := s.b2 - v1
  ⟨s.b0, v1, v2, s.b3, s.b4, s.b5, s.b6, s.b7⟩

/-- Go: b4 += b7; b7 = ((b7 << r) | (b7 >> (64 - r))) ^ b4  (threefish512). -/
def mix512_4_7 (r : Fin 64) (s : S8) : S8 :=
  let v4 := s.b4 + s.b7
  let v7 := wxor (rotL64 s.b7 r) v4
  ⟨s.b0, s.b1, s.b2, s.b3, v4, s.b5, s.b6, v7⟩

/-- Go: tmp = b7 ^ b4; b7 = (tmp >> r) | (tmp << (64 - r)); b4 -= b7  (threefish512). -/
def dmix512_4_7 (r : Fin 64) (s : S8) : S8 :=
  let tmp := wxor s.b7 s.b4
  let v7 := rotR64 tmp r
  let v4 := s.b4 - v7
  ⟨s.b0, s.b1, s.b2, s.b3, v4, s.b5, s.b6, v7⟩

/-- Go: b6 += b5; b5 = ((b5 << r) | (b5 >> (64 - r))) ^ b6  (threefish512). -/
def mix512_6_5 (r : Fin 64) (s : S8) : S8 :=
  let v6 := s.b6 + s.b5
  let v5 := wxor (rotL64 s.b5 r) v6
  ⟨s.b0, s.b1, s.b2, s.b3, s.b4, v5, v6, s.b7⟩

/-- Go: tmp = b5 ^ b6; b5 = (tmp >> r) | (tmp << (64 - r)); b6 -= b5  (threefish512). -/
def dmix512_6_5 (r : Fin 64) (s : S8) : S8 :=
  let tmp := wxor s.b5 s.b6
  let v5 := rotR64 tmp r
  let v6 := s.b6 - v5
  ⟨s.b0, s.b1, s.b2, s.b3, s.b4, v5, v6, s.b7⟩

/-- Go: b0 += b3; b3 = ((b3 << r) | (b3 >> (64 - r))) ^ b0  (threefish512). -/
def mix512_0_3 (r : Fin 64) (s : S8) : S8 :=
  let v0 := s.b0 + s.b3
  let v3 := wxor (rotL64 s.b3 r) v0
  ⟨v0, s.b1, s.b2, v3, s.b4, s.b5, s.b6, s.b7⟩

/-- Go: tmp = b3 ^ b0; b3 = (tmp >> r) | (tmp << (64 - r)); b0 -= b3  (threefish512). -/
def dmix512_0_3 (r : Fin 64) (s : S8) : S8 :=
  let tmp := wxor s.b3 s.b0
  let v3 := rotR64 tmp r
  let v0 := s.b0 - v3
  ⟨v0, s.b1, s.b2, v3, s.b4, s.b5, s.b6, s.b7⟩

/-- Go: b4 += b1; b1 = ((b1 << r) | (b1 >> (64 - r))) ^ b4  (threefish512). -/
def mix512_4_1 (r : Fin 64) (s : S8) : S8 :=
  let v4 := s.b4 + s.b1
  let v1 := wxor (rotL64 s.b1 r) v4
  ⟨s.b0, v1, s.b2, s.b3, v4, s.b5, s.b6, s.b7⟩

/-- Go: tmp = b1 ^ b4; b1 = (tmp >> r) | (tmp << (64 - r)); b4 -= b1  (threefish512). -/
def dmix512_4_1 (r : Fin 64) (s : S8) : S8 :=
  let tmp := wxor s.b1 s.b4
  let v1 := rotR64 tmp r
  let v4 := s.b4 - v1
  ⟨s.b0, v1, s.b2, s.b3, v4, s.b5, s.b6, s.b7⟩

/-- Go: b6 += b3; b3 = ((b3 << r) | (b3 >> (64 - r))) ^ b6  (threefish512). -/
def mix512_6_3 (r : Fin 64) (s : S8) : S8 :=
  let v6 := s.b6 + s.b3
  let v3 := wxor (rotL64 s.b3 r) v6
  ⟨s.b0, s.b1, s.b2, v3, s.b4, s.b5, v6, s.b7⟩

/-- Go: tmp = b3 ^ b6; b3 = (tmp >> r) | (tmp << (64 - r)); b6 -= b3  (threefish512). -/
def dmix512_6_3 (r : Fin 64) (s : S8) : S8 :=
  let tmp := wxor s.b3 s.b6
  let v3 := rotR64 tmp r
  let v6 := s.b6 - v3
  ⟨s.b0, s.b1, s.b2, v3, s.b4, s.b5, v6, s.b7⟩

/-- Go: b0 += b5; b5 = ((b5 << r) | (b5 >> (64 - r))) ^ b0  (threefish512). -/
def mix512_0_5 (r : Fin 64) (s : S8) : S8 :=
  let v0 := s.b0 + s.b5
  let v5 := wxor (rotL64 s.b5 r) v0
  ⟨v0, s.b1, s.b2, s.b3, s.b4, v5, s.b6, s.b7⟩

/-- Go: tmp = b5 ^ b0; b5 = (tmp >> r) | (tmp << (64 - r)); b0 -= b5  (threefish512). -/
def dmix512_0_5 (r : Fin 64) (s : S8) : S8 :=
  let tmp := wxor s.b5 s.b0
  let v5 := rotR64 tmp r
  let v0 := s.b0 - v5
  ⟨v0, s.b1, s.b2, s.b3, s.b4, v5, s.b6, s.b7⟩

/-- Go: b2 += b7; b7 = ((b7 << r) | (b7 >> (64 - r))) ^ b2  (threefish512). -/
def mix512_2_7 (r : Fin 64) (s : S8) : S8 :=
  let v2 := s.b2 + s.b7
  let v7 := wxor (rotL64 s.b7 r) v2
  ⟨s.b0, s.b1, v2, s.b3, s.b4, s.b5, s.b6, v7⟩

/-- Go: tmp = b7 ^ b2; b7 = (tmp >> r) | (tmp << (64 - r)); b2 -= b7  (threefish512). -/
def dmix512_2_7 (r : Fin 64) (s : S8) : S8 :=
  let tmp := wxor s.b7 s.b2
  let v7 := rotR64 tmp r
  let v2 := s.b2 - v7
  ⟨s.b0, s.b1, v2, s.b3, s.b4, s.b5, s.b6, v7⟩

/-- Go: b6 += b1; b1 = ((b1 << r) | (b1 >> (64 - r))) ^ b6  (threefish512). -/
def mix512_6_1 (r : Fin 64) (s : S8) : S8 :=
  let v6 := s.b6 + s.b1
  let v1 := wxor (rotL64 s.b1 r) v6
  ⟨s.b0, v1, s.b2, s.b3, s.b4, s.b5, v6, s.b7⟩

/-- Go: tmp = b1 ^ b6; b1 = (tmp >> r) | (tmp << (64 - r)); b6 -= b1  (threefish512). -/
def dmix512_6_1 (r : Fin 64) (s : S8) : S8 :=
  let tmp := wxor s.b1 s.b6
  let v1 := rotR64 tmp r
  let v6 := s.b6 - v1
  ⟨s.b0, v1, s.b2, s.b3, s.b4, s.b5, v6, s.b7⟩

/-- Go: b0 += b7; b7 = ((b7 << r) | (b7 >> (64 - r))) ^ b0  (threefish512). -/
def mix512_0_7 (r : Fin 64) (s : S8) : S8 :=
  let v0 := s.b0 + s.b7
  let v7 := wxor (rotL64 s.b7 r) v0
  ⟨v0, s.b1, s.b2, s.b3, s.b4, s.b5, s.b6, v7⟩

/-- Go: tmp = b7 ^ b0; b7 = (tmp >> r) | (tmp << (64 - r)); b0 -= b7  (threefish512). -/
def dmix512_0_7 (r : Fin 64) (s : S8) : S8 :=
  let tmp := wxor s.b7 s.b0
  let v7 := rotR64 tmp r
  let v0 := s.b0 - v7
  ⟨v0, s.b1, s.b2, s.b3, s.b4, s.b5, s.b6, v7⟩

/-- Go: b2 += b5; b5 = ((b5 << r) | (b5 >> (64 - r))) ^ b2  (threefish512). -/
def mix512_2_5 (r : Fin 64) (s : S8) : S8 :=
  let v2 := s.b2 + s.b5
  let v5 := wxor (rotL64 s.b5 r) v2
  ⟨s.b0, s.b1, v2, s.b3, s.b4, v5, s.b6, s.b7⟩

/-- Go: tmp = b5 ^ b2; b5 = (tmp >> r) | (tmp << (64 - r)); b2 -= b5  (threefish512). -/
def dmix512_2_5 (r : Fin 64) (s : S8) : S8 :=
  let tmp := wxor s.b5 s.b2
  let v5 := rotR64 tmp r
  let v2 := s.b2 - v5
  ⟨s.b0, s.b1, v2, s.b3, s.b4, v5, s.b6, s.b7⟩

/-- Go: b4 += b3; b3 = ((b3 << r) | (b3 >> (64 - r))) ^ b4  (threefish512). -/
def mix512_4_3 (r : Fin 64) (s : S8) : S8 :=
  let v4 := s.b4 + s.b3
  let v3 := wxor (rotL64 s.b3 r) v4
  ⟨s.b0, s.b1, s.b2, v3, v4, s.b5, s.b6, s.b7⟩

/-- Go: tmp = b3 ^ b4; b3 = (tmp >> r) | (tmp << (64 - r)); b4 -= b3  (threefish512). -/
def dmix512_4_3 (r : Fin 64) (s : S8) : S8 :=
  let tmp := wxor s.b3 s.b4
  let v3 := rotR64 tmp r
  let v4 := s.b4 - v3
  ⟨s.b0, s.b1, s.b2, v3, v4, s.b5, s.b6, s.b7⟩

/-- Go: b1 += <subkey terms>; b0 += b1 + <subkey terms>; b1 = rot ^ b0  (threefish512 key injection, word pair (0,1)). -/
def imix512_0_1 (k0x k1x : Word) (r : Fin 64) (s : S8) : S8 :=
  let v1 := s.b1 + k1x
  let v0 := s.b0 + (v1 + k0x)
  let w1 := wxor (rotL64 v1 r) v0
  ⟨v0, w1, s.b2, s.b3, s.b4, s.b5, s.b6, s.b7⟩

/-- Go: tmp = b1 ^ b0; b1 = rotR tmp; b0 -= b1 + <subkey>; b1 -= <subkey>  (threefish512). -/
def dimix512_0_1 (k0x k1x : Word) (r : Fin 64) (s : S8) : S8 :=
  let tmp := wxor s.b1 s.b0
  let v1 := rotR64 tmp r
  let v0 := s.b0 - (v1 + k0x)
  let w1 := v1 - k1x
  ⟨v0, w1, s.b2, s.b3, s.b4, s.b5, s.b6, s.b7⟩

/-- Go: b3 += <subkey terms>; b2 += b3 + <subkey terms>; b3 = rot ^ b2  (threefish512 key injection, word pair (2,3)). -/
def imix512_2_3 (k2x k3x : Word) (r : Fin 64) (s : S8) : S8 :=
  let v3 := s.b3 + k3x
  let v2 := s.b2 + (v3 + k2x)
  let w3 := wxor (rotL64 v3 r) v2
  ⟨s.b0, s.b1, v2, w3, s.b4, s.b5, s.b6, s.b7⟩

/-- Go: tmp = b3 ^ b2; b3 = rotR tmp; b2 -= b3 + <subkey>; b3 -= <subkey>  (threefish512). -/
def dimix512_2_3 (k2x k3x : Word) (r : Fin 64) (s : S8) : S8 :=
  let tmp := wxor s.b3 s.b2
  let v3 := rotR64 tmp r
  let v2 := s.b2 - (v3 + k2x)
  let w3 := v3 - k3x
  ⟨s.b0, s.b1, v2, w3, s.b4, s.b5, s.b6, s.b7⟩

/-- Go: b5 += <subkey terms>; b4 += b5 + <subkey terms>; b5 = rot ^ b4  (threefish512 key injection, word pair (4,5)). -/
def imix512_4_5 (k4x k5x tX : Word) (r : Fin 64) (s : S8) : S8 :=
  let v5 := s.b5 + (k5x + tX)
  let v4 := s.b4 + (v5 + k4x)
  let w5 := wxor (rotL64 v5 r) v4
  ⟨s.b0, s.b1, s.b2, s.b3, v4, w5, s.b6, s.b7⟩

/-- Go: tmp = b5 ^ b4; b5 = rotR tmp; b4 -= b5 + <subkey>; b5 -= <subkey>  (threefish512). -/
def dimix512_4_5 (k4x k5x tX : Word) (r : Fin 64) (s : S8) : S8 :=
  let tmp := wxor s.b5 s.b4
  let v5 := rotR64 tmp r
  let v4 := s.b4 - (v5 + k4x)
  let w5 := v5 - (k5x + tX)
  ⟨s.b0, s.b1, s.b2, s.b3, v4, w5, s.b6, s.b7⟩

/-- Go: b7 += <subkey terms>; b6 += b7 + <subkey terms>; b7 = rot ^ b6  (threefish512 key injection, word pair (6,7)). -/
def imix512_6_7 (k6x k7x sX tY : Word) (r : Fin 64) (s : S8) : S8 :=
  let v7 := s.b7 + (k7x + sX)
  let v6 := s.b6 + (v7 + k6x + tY)
  let w7 := wxor (rotL64 v7 r) v6
  ⟨s.b0, s.b1, s.b2, s.b3, s.b4, s.b5, v6, w7⟩

/-- Go: tmp = b7 ^ b6; b7 = rotR tmp; b6 -= b7 + <subkey>; b7 -= <subkey>  (threefish512). -/
def dimix512_6_7 (k6x k7x sX tY : Word) (r : Fin 64) (s : S8) : S8 :=
  let tmp := wxor s.b7 s.b6
  let v7 := rotR64 tmp r
  let v6 := s.b6 - (v7 + k6x + tY)
  let w7 := v7 - (k7x + sX)
  ⟨s.b0, s.b1, s.b2, s.b3, s.b4, s.b5, v6, w7⟩

/-- Go: output[i] = b_i + <final subkey>  (threefish512). -/
def einj512 (a0 a1 a2 a3 a4 a5 a6 a7 : Word) (s : S8) : S8 :=
  ⟨s.b0 + a0, s.b1 + a1, s.b2 + a2, s.b3 + a3, s.b4 + a4, s.b5 + a5, s.b6 + a6, s.b7 + a7⟩

/-- Go: b_i -= <final subkey>  (head of threefish512.decrypt). -/
def dinj512 (a0 a1 a2 a3 a4 a5 a6 a7 : Word) (s : S8) : S8 :=
  ⟨s.b0 - a0, s.b1 - a1, s.b2 - a2, s.b3 - a3, s.b4 - a4, s.b5 - a5, s.b6 - a6, s.b7 - a7⟩

theorem dmix512_2_1_c (r : Fin 64) (s : S8) : dmix512_2_1 r (mix512_2_1 r s) = s := by
  cases s
  simp only [mix512_2_1, dmix512_2_1, wxor_cancel_right, rotR_rotL, add_sub_cancel_right]

theorem mix512_2_1_c (r : Fin 64) (s : S8) : mix512_2_1 r (dmix512_2_1 r s) = s := by
  cases s
  simp only [mix512_2_1, dmix512_2_1, sub_add_cancel, rotL_rotR, wxor_cancel_right]

theorem dmix512_4_7_c (r : Fin 64) (s : S8) : dmix512_4_7 r (mix512_4_7 r s) = s := by
  cases s
  simp only [mix512_4_7, dmix512_4_7, wxor_cancel_right, rotR_rotL, add_sub_cancel_right]

theorem mix512_4_7_c (r : Fin 64) (s : S8) : mix512_4_7 r (dmix512_4_7 r s) = s := by
  cases s
  simp only [mix512_4_7, dmix512_4_7, sub_add_cancel, rotL_rotR, wxor_cancel_right]

theorem dmix512_6_5_c (r : Fin 64) (s : S8) : dmix512_6_5 r (mix512_6_5 r s) = s := by
  cases s
  simp only [mix512_6_5, dmix512_6_5, wxor_cancel_right, rotR_rotL, add_sub_cancel_right]

theorem mix512_6_5_c (r : Fin 64) (s : S8) : mix512_6_5 r (dmix512_6_5 r s) = s := by
  cases s
  simp only [mix512_6_5, dmix512_6_5, sub_add_cancel, rotL_rotR, wxor_cancel_right]

theorem dmix512_0_3_c (r : Fin 64) (s : S8) : dmix512_0_3 r (mix512_0_3 r s) = s := by
  cases s
  simp only [mix512_0_3, dmix512_0_3, wxor_cancel_right, rotR_rotL, add_sub_cancel_right]

theorem mix512_0_3_c (r : Fin 64) (s : S8) : mix512_0_3 r (dmix512_0_3 r s) = s := by
  cases s
  simp only [mix512_0_3, dmix512_0_3, sub_add_cancel, rotL_rotR, wxor_cancel_right]

theorem dmix512_4_1_c (r : Fin 64) (s : S8) : dmix512_4_1 r (mix512_4_1 r s) = s := by
  cases s
  simp only [mix512_4_1, dmix512_4_1, wxor_cancel_right, rotR_rotL, add_sub_cancel_right]

theorem mix512_4_1_c (r : Fin 64) (s : S8) : mix512_4_1 r (dmix512_4_1 r s) = s := by
  cases s
  simp only [mix512_4_1, dmix512_4_1, sub_add_cancel, rotL_rotR, wxor_cancel_right]

theorem dmix512_6_3_c (r : Fin 64) (s : S8) : dmix512_6_3 r (mix512_6_3 r s) = s := by
  cases s
  simp only [mix512_6_3, dmix512_6_3, wxor_cancel_right, rotR_rotL, add_sub_cancel_right]

theorem mix512_6_3_c (r : Fin 64) (s : S8) : mix512_6_3 r (dmix512_6_3 r s) = s := by
  cases s
  simp only [mix512_6_3, dmix512_6_3, sub_add_cancel, rotL_rotR, wxor_cancel_right]

theorem dmix512_0_5_c (r : Fin 64) (s : S8) : dmix512_0_5 r (mix512_0_5 r s) = s := by
  cases s
  simp only [mix512_0_5, dmix512_0_5, wxor_cancel_right, rotR_rotL, add_sub_cancel_right]

theorem mix512_0_5_c (r : Fin 64) (s : S8) : mix512_0_5 r (dmix512_0_5 r s) = s := by
  cases s
  simp only [mix512_0_5, dmix512_0_5, sub_add_cancel, rotL_rotR, wxor_cancel_right]

theorem dmix512_2_7_c (r : Fin 64) (s : S8) : dmix512_2_7 r (mix512_2_7 r s) = s := by
  cases s
  simp only [mix512_2_7, dmix512_2_7, wxor_cancel_right, rotR_rotL, add_sub_cancel_right]

theorem mix512_2_7_c (r : Fin 64) (s : S8) : mix512_2_7 r (dmix512_2_7 r s) = s := by
  cases s
  simp only [mix512_2_7, dmix512_2_7, sub_add_cancel, rotL_rotR, wxor_cancel_right]

theorem dmix512_6_1_c (r : Fin 64) (s : S8) : dmix512_6_1 r (mix512_6_1 r s) = s := by
  cases s
  simp only [mix512_6_1, dmix512_6_1, wxor_cancel_right, rotR_rotL, add_sub_cancel_right]

theorem mix512_6_1_c (r : Fin 64) (s : S8) : mix512_6_1 r (dmix512_6_1 r s) = s := by
  cases s
  simp only [mix512_6_1, dmix512_6_1, sub_add_cancel, rotL_rotR, wxor_cancel_right]

theorem dmix512_0_7_c (r : Fin 64) (s : S8) : dmix512_0_7 r (mix512_0_7 r s) = s := by
  cases s
  simp only [mix512_0_7, dmix512_0_7, wxor_cancel_right, rotR_rotL, add_sub_cancel_right]

theorem mix512_0_7_c (r : Fin 64) (s : S8) : mix512_0_7 r (dmix512_0_7 r s) = s := by
  cases s
  simp only [mix512_0_7, dmix512_0_7, sub_add_cancel, rotL_rotR, wxor_cancel_right]

theorem dmix512_2_5_c (r : Fin 64) (s : S8) : dmix512_2_5 r (mix512_2_5 r s) = s := by
  cases s
  simp only [mix512_2_5, dmix512_2_5, wxor_cancel_right, rotR_rotL, add_sub_cancel_right]

theorem mix512_2_5_c (r : Fin 64) (s : S8) : mix512_2_5 r (dmix512_2_5 r s) = s := by
  cases s
  simp only [mix512_2_5, dmix512_2_5, sub_add_cancel, rotL_rotR, wxor_cancel_right]

theorem dmix512_4_3_c (r : Fin 64) (s : S8) : dmix512_4_3 r (mix512_4_3 r s) = s := by
  cases s
  simp only [mix512_4_3, dmix512_4_3, wxor_cancel_right, rotR_rotL, add_sub_cancel_right]

theorem mix512_4_3_c (r : Fin 64) (s : S8) : mix512_4_3 r (dmix512_4_3 r s) = s := by
  cases s
  simp only [mix512_4_3, dmix512_4_3, sub_add_cancel, rotL_rotR, wxor_cancel_right]

theorem dimix512_0_1_c (k0x k1x : Word) (r : Fin 64) (s : S8) :
    dimix512_0_1 k0x k1x r (imix512_0_1 k0x k1x r s) = s := by
  cases s
  simp only [imix512_0_1, dimix512_0_1, wxor_cancel_right, rotR_rotL, add_sub_cancel_right]

theorem imix512_0_1_c (k0x k1x : Word) (r : Fin 64) (s : S8) :
    imix512_0_1 k0x k1x r (dimix512_0_1 k0x k1x r s) = s := by
  cases s
  simp only [imix512_0_1, dimix512_0_1, sub_add_cancel, rotL_rotR, wxor_cancel_right]

theorem dimix512_2_3_c (k2x k3x : Word) (r : Fin 64) (s : S8) :
    dimix512_2_3 k2x k3x r (imix512_2_3 k2x k3x r s) = s := by
  cases s
  simp only [imix512_2_3, dimix512_2_3, wxor_cancel_right, rotR_rotL, add_sub_cancel_right]

theorem imix512_2_3_c (k2x k3x : Word) (r : Fin 64) (s : S8) :
    imix512_2_3 k2x k3x r (dimix512_2_3 k2x k3x r s) = s := by
  cases s
  simp only [imix512_2_3, dimix512_2_3, sub_add_cancel, rotL_rotR, wxor_cancel_right]

theorem dimix512_4_5_c (k4x k5x tX : Word) (r : Fin 64) (s : S8) :
    dimix512_4_5 k4x k5x tX r (imix512_4_5 k4x k5x tX r s) = s := by
  cases s
  simp only [imix512_4_5, dimix512_4_5, wxor_cancel_right, rotR_rotL, add_sub_cancel_right]

theorem imix512_4_5_c (k4x k5x tX : Word) (r : Fin 64) (s : S8) :
    imix512_4_5 k4x k5x tX r (dimix512_4_5 k4x k5x tX r s) = s := by
  cases s
  simp only [imix512_4_5, dimix512_4_5, sub_add_cancel, rotL_rotR, wxor_cancel_right]

theorem dimix512_6_7_c (k6x k7x sX tY : Word) (r : Fin 64) (s : S8) :
    dimix512_6_7 k6x k7x sX tY r (imix512_6_7 k6x k7x sX tY r s) = s := by
  cases s
  simp only [imix512_6_7, dimix512_6_7, wxor_cancel_right, rotR_rotL, add_sub_cancel_right]

theorem imix512_6_7_c (k6x k7x sX tY : Word) (r : Fin 64) (s : S8) :
    imix512_6_7 k6x k7x sX tY r (dimix512_6_7 k6x k7x sX tY r s) = s := by
  cases s
  simp only [imix512_6_7, dimix512_6_7, sub_add_cancel, rotL_rotR, wxor_cancel_right]

theorem dinj512_c (a0 a1 a2 a3 a4 a5 a6 a7 : Word) (s : S8) : dinj512 a0 a1 a2 a3 a4 a5 a6 a7 (einj512 a0 a1 a2 a3 a4 a5 a6 a7 s) = s := by
  cases s
  simp only [einj512, dinj512, add_sub_cancel_right]

theorem einj512_c (a0 a1 a2 a3 a4 a5 a6 a7 : Word) (s : S8) : einj512 a0 a1 a2 a3 a4 a5 a6 a7 (dinj512 a0 a1 a2 a3 a4 a5 a6 a7 s) = s := by
  cases s
  simp only [einj512, dinj512, sub_add_cancel]

/-- One four-round key-injection cycle of threefish512.encrypt: the subkey
injection merged into the first round followed by three further rounds,
exactly as the statements appear in the Go source. -/
def cyc512 (r0 r1 r2 r3 r4 r5 r6 r7 r8 r9 r10 r11 r12 r13 r14 r15 : Fin 64) (a0 a1 a2 a3 a4 a5 a6 a7 tA tB sN : Word) (s : S8) : S8 :=
  s |> imix512_0_1 a0 a1 r0
    |> imix512_2_3 a2 a3 r1
    |> imix512_4_5 a4 a5 tA r2
    |> imix512_6_7 a6 a7 sN tB r3
    |> mix512_2_1 r4
    |> mix512_4_7 r5
    |> mix512_6_5 r6
    |> mix512_0_3 r7
    |> mix512_4_1 r8
    |> mix512_6_3 r9
    |> mix512_0_5 r10
    |> mix512_2_7 r11
    |> mix512_6_1 r12
    |> mix512_0_7 r13
    |> mix512_2_5 r14
    |> mix512_4_3 r15

/-- The segment of threefish512.decrypt that inverts one cycle, with the
statements in the order of the Go source. -/
def dcyc512 (r0 r1 r2 r3 r4 r5 r6 r7 r8 r9 r10 r11 r12 r13 r14 r15 : Fin 64) (a0 a1 a2 a3 a4 a5 a6 a7 tA tB sN : Word) (s : S8) : S8 :=
  s |> dmix512_4_3 r15
    |> dmix512_2_5 r14
    |> dmix512_0_7 r13
    |> dmix512_6_1 r12
    |> dmix512_2_7 r11
    |> dmix512_0_5 r10
    |> dmix512_6_3 r9
    |> dmix512_4_1 r8
    |> dmix512_0_3 r7
    |> dmix512_6_5 r6
    |> dmix512_4_7 r5
    |> dmix512_2_1 r4
    |> dimix512_6_7 a6 a7 sN tB r3
    |> dimix512_4_5 a4 a5 tA r2
    |> dimix512_2_3 a2 a3 r1
    |> dimix512_0_1 a0 a1 r0

theorem dcyc512_cyc (r0 r1 r2 r3 r4 r5 r6 r7 r8 r9 r10 r11 r12 r13 r14 r15 : Fin 64) (a0 a1 a2 a3 a4 a5 a6 a7 tA tB sN : Word) (s : S8) :
    dcyc512 r0 r1 r2 r3 r4 r5 r6 r7 r8 r9 r10 r11 r12 r13 r14 r15 a0 a1 a2 a3 a4 a5 a6 a7 tA tB sN
      (cyc512 r0 r1 r2 r3 r4 r5 r6 r7 r8 r9 r10 r11 r12 r13 r14 r15 a0 a1 a2 a3 a4 a5 a6 a7 tA tB sN s) = s := by
  simp only [cyc512, dcyc512, dmix512_2_1_c, dmix512_4_7_c, dmix512_6_5_c, dmix512_0_3_c, dmix512_4_1_c, dmix512_6_3_c, dmix512_0_5_c, dmix512_2_7_c, dmix512_6_1_c, dmix512_0_7_c, dmix512_2_5_c, dmix512_4_3_c, dimix512_0_1_c, dimix512_2_3_c, dimix512_4_5_c, dimix512_6_7_c]

theorem cyc512_dcyc (r0 r1 r2 r3 r4 r5 r6 r7 r8 r9 r10 r11 r12 r13 r14 r15 : Fin 64) (a0 a1 a2 a3 a4 a5 a6 a7 tA tB sN : Word) (s : S8) :
    cyc512 r0 r1 r2 r3 r4 r5 r6 r7 r8 r9 r10 r11 r12 r13 r14 r15 a0 a1 a2 a3 a4 a5 a6 a7 tA tB sN
      (dcyc512 r0 r1 r2 r3 r4 r5 r6 r7 r8 r9 r10 r11 r12 r13 r14 r15 a0 a1 a2 a3 a4 a5 a6 a7 tA tB sN s) = s := by
  simp only [cyc512, dcyc512, mix512_2_1_c, mix512_4_7_c, mix512_6_5_c, mix512_0_3_c, mix512_4_1_c, mix512_6_3_c, mix512_0_5_c, mix512_2_7_c, mix512_6_1_c, mix512_0_7_c, mix512_2_5_c, mix512_4_3_c, imix512_0_1_c, imix512_2_3_c, imix512_4_5_c, imix512_6_7_c]

/-- State of the Go struct threefish512: the expanded tweak (3 words) and the
expanded key (9 words).  The scratch buffers tmpData1/tmpData2 hold no
algorithmic state and are not modelled. -/
structure threefish512 where
  expanedTweak : List Word
  expanedKey : List Word
deriving DecidableEq

def threefish512.setTweak (tf : threefish512) (tweak : Option (List Word)) : threefish512 :=
  { tf with expanedTweak := setTweakGo tweak tf.expanedTweak }

/-- Go threefish512.setKey: runs the shared setKey helper over the 9-word
expanded-key array; the loop reads key[0..7], so a shorter key faults
(modelled as none).  No KeySizeError is ever produced here. -/
def threefish512.setKey (tf : threefish512) (key : List Word) : Option threefish512 :=
  if 8 ≤ key.length then some { tf with expanedKey := setKeyGo key 8 } else none

/-- Go newThreefish512: zeroed struct, tweak expanded, parity word
preset to KEY_SCHEDULE_CONST, then the key bytes (if any) are decoded to
words and expanded. -/
def newThreefish512 (key : Option (List Byte)) (tweak : Option (List Word)) : threefish512 :=
  let c : threefish512 :=
    { expanedTweak := setTweakGo tweak [0, 0, 0],
      expanedKey := List.replicate 8 0 ++ [KEY_SCHEDULE_CONST] }
  match key with
  | none => c
  | some kb => { c with expanedKey := setKeyGo (loadWords kb 8) 8 }

def newThreefish512_64 (key : List Word) (tweak : Option (List Word)) : threefish512 :=
  let c : threefish512 :=
    { expanedTweak := setTweakGo tweak [0, 0, 0],
      expanedKey := List.replicate 8 0 ++ [KEY_SCHEDULE_CONST] }
  { c with expanedKey := setKeyGo key 8 }

/-- Word-level threefish512.encrypt: the block is the 8-tuple of local
variables b0..b7 of the Go source; each cyc512 call is one key-injection
cycle (4 rounds) with the subkey/tweak/counter arguments read off the
corresponding Go statements, and einj512 is the final output injection. -/
def threefish512.encrypt (tf : threefish512) (input : S8) : S8 :=
  let k0 := tf.expanedKey.getD 0 0
  let k1 := tf.expanedKey.getD 1 0
  let k2 := tf.expanedKey.getD 2 0
  let k3 := tf.expanedKey.getD 3 0
  let k4 := tf.expanedKey.getD 4 0
  let k5 := tf.expanedKey.getD 5 0
  let k6 := tf.expanedKey.getD 6 0
  let k7 := tf.expanedKey.getD 7 0
  let k8 := tf.expanedKey.getD 8 0
  let t0 := tf.expanedTweak.getD 0 0
  let t1 := tf.expanedTweak.getD 1 0
  let t2 := tf.expanedTweak.getD 2 0
  input
    |> cyc512 46 36 19 37 33 27 14 42 17 49 36 39 44 9 54 56  k0 k1 k2 k3 k4 k5 k6 k7 t0 t1 0
    |> cyc512 39 30 34 24 13 50 10 17 25 29 39 43 8 35 56 22  k1 k2 k3 k4 k5 k6 k7 k8 t1 t2 1
    |> cyc512 46 36 19 37 33 27 14 42 17 49 36 39 44 9 54 56  k2 k3 k4 k5 k6 k7 k8 k0 t2 t0 2
    |> cyc512 39 30 34 24 13 50 10 17 25 29 39 43 8 35 56 22  k3 k4 k5 k6 k7 k8 k0 k1 t0 t1 3
    |> cyc512 46 36 19 37 33 27 14 42 17 49 36 39 44 9 54 56  k4 k5 k6 k7 k8 k0 k1 k2 t1 t2 4
    |> cyc512 39 30 34 24 13 50 10 17 25 29 39 43 8 35 56 22  k5 k6 k7 k8 k0 k1 k2 k3 t2 t0 5
    |> cyc512 46 36 19 37 33 27 14 42 17 49 36 39 44 9 54 56  k6 k7 k8 k0 k1 k2 k3 k4 t0 t1 6
    |> cyc512 39 30 34 24 13 50 10 17 25 29 39 43 8 35 56 22  k7 k8 k0 k1 k2 k3 k4 k5 t1 t2 7
    |> cyc512 46 36 19 37 33 27 14 42 17 49 36 39 44 9 54 56  k8 k0 k1 k2 k3 k4 k5 k6 t2 t0 8
    |> cyc512 39 30 34 24 13 50 10 17 25 29 39 43 8 35 56 22  k0 k1 k2 k3 k4 k5 k6 k7 t0 t1 9
    |> cyc512 46 36 19 37 33 27 14 42 17 49 36 39 44 9 54 56  k1 k2 k3 k4 k5 k6 k7 k8 t1 t2 10
    |> cyc512 39 30 34 24 13 50 10 17 25 29 39 43 8 35 56 22  k2 k3 k4 k5 k6 k7 k8 k0 t2 t0 11
    |> cyc512 46 36 19 37 33 27 14 42 17 49 36 39 44 9 54 56  k3 k4 k5 k6 k7 k8 k0 k1 t0 t1 12
    |> cyc512 39 30 34 24 13 50 10 17 25 29 39 43 8 35 56 22  k4 k5 k6 k7 k8 k0 k1 k2 t1 t2 13
    |> cyc512 46 36 19 37 33 27 14 42 17 49 36 39 44 9 54 56  k5 k6 k7 k8 k0 k1 k2 k3 t2 t0 14
    |> cyc512 39 30 34 24 13 50 10 17 25 29 39 43 8 35 56 22  k6 k7 k8 k0 k1 k2 k3 k4 t0 t1 15
    |> cyc512 46 36 19 37 33 27 14 42 17 49 36 39 44 9 54 56  k7 k8 k0 k1 k2 k3 k4 k5 t1 t2 16
    |> cyc512 39 30 34 24 13 50 10 17 25 29 39 43 8 35 56 22  k8 k0 k1 k2 k3 k4 k5 k6 t2 t0 17
    |> einj512 k0 k1 k2 k3 k4 (k5 + t0) (k6 + t1) (k7 + 18)

/-- Word-level threefish512.decrypt, transcribed in the same way. -/
def threefish512.decrypt (tf : threefish512) (input : S8) : S8 :=
  let k0 := tf.expanedKey.getD 0 0
  let k1 := tf.expanedKey.getD 1 0
  let k2 := tf.expanedKey.getD 2 0
  let k3 := tf.expanedKey.getD 3 0
  let k4 := tf.expanedKey.getD 4 0
  let k5 := tf.expanedKey.getD 5 0
  let k6 := tf.expanedKey.getD 6 0
  let k7 := tf.expanedKey.getD 7 0
  let k8 := tf.expanedKey.getD 8 0
  let t0 := tf.expanedTweak.getD 0 0
  let t1 := tf.expanedTweak.getD 1 0
  let t2 := tf.expanedTweak.getD 2 0
  input
    |> dinj512 k0 k1 k2 k3 k4 (k5 + t0) (k6 + t1) (k7 + 18)
    |> dcyc512 39 30 34 24 13 50 10 17 25 29 39 43 8 35 56 22  k8 k0 k1 k2 k3 k4 k5 k6 t2 t0 17
    |> dcyc512 46 36 19 37 33 27 14 42 17 49 36 39 44 9 54 56  k7 k8 k0 k1 k2 k3 k4 k5 t1 t2 16
    |> dcyc512 39 30 34 24 13 50 10 17 25 29 39 43 8 35 56 22  k6 k7 k8 k0 k1 k2 k3 k4 t0 t1 15
    |> dcyc512 46 36 19 37 33 27 14 42 17 49 36 39 44 9 54 56  k5 k6 k7 k8 k0 k1 k2 k3 t2 t0 14
    |> dcyc512 39 30 34 24 13 50 10 17 25 29 39 43 8 35 56 22  k4 k5 k6 k7 k8 k0 k1 k2 t1 t2 13
    |> dcyc512 46 36 19 37 33 27 14 42 17 49 36 39 44 9 54 56  k3 k4 k5 k6 k7 k8 k0 k1 t0 t1 12
    |> dcyc512 39 30 34 24 13 50 10 17 25 29 39 43 8 35 56 22  k2 k3 k4 k5 k6 k7 k8 k0 t2 t0 11
    |> dcyc512 46 36 19 37 33 27 14 42 17 49 36 39 44 9 54 56  k1 k2 k3 k4 k5 k6 k7 k8 t1 t2 10
    |> dcyc512 39 30 34 24 13 50 10 17 25 29 39 43 8 35 56 22  k0 k1 k2 k3 k4 k5 k6 k7 t0 t1 9
    |> dcyc512 46 36 19 37 33 27 14 42 17 49 36 39 44 9 54 56  k8 k0 k1 k2 k3 k4 k5 k6 t2 t0 8
    |> dcyc512 39 30 34 24 13 50 10 17 25 29 39 43 8 35 56 22  k7 k8 k0 k1 k2 k3 k4 k5 t1 t2 7
    |> dcyc512 46 36 19 37 33 27 14 42 17 49 36 39 44 9 54 56  k6 k7 k8 k0 k1 k2 k3 k4 t0 t1 6
    |> dcyc512 39 30 34 24 13 50 10 17 25 29 39 43 8 35 56 22  k5 k6 k7 k8 k0 k1 k2 k3 t2 t0 5
    |> dcyc512 46 36 19 37 33 27 14 42 17 49 36 39 44 9 54 56  k4 k5 k6 k7 k8 k0 k1 k2 t1 t2 4
    |> dcyc512 39 30 34 24 13 50 10 17 25 29 39 43 8 35 56 22  k3 k4 k5 k6 k7 k8 k0 k1 t0 t1 3
    |> dcyc512 46 36 19 37 33 27 14 42 17 49 36 39 44 9 54 56  k2 k3 k4 k5 k6 k7 k8 k0 t2 t0 2
    |> dcyc512 39 30 34 24 13 50 10 17 25 29 39 43 8 35 56 22  k1 k2 k3 k4 k5 k6 k7 k8 t1 t2 1
    |> dcyc512 46 36 19 37 33 27 14 42 17 49 36 39 44 9 54 56  k0 k1 k2 k3 k4 k5 k6 k7 t0 t1 0

theorem threefish512.decrypt_encrypt_512 (tf : threefish512) (p : S8) :
    threefish512.decrypt tf (threefish512.encrypt tf p) = p := by
  simp only [threefish512.encrypt, threefish512.decrypt, dinj512_c, dcyc512_cyc]

theorem threefish512.encrypt_decrypt_512 (tf : threefish512) (p : S8) :
    threefish512.encrypt tf (threefish512.decrypt tf p) = p := by
  simp only [threefish512.encrypt, threefish512.decrypt, einj512_c, cyc512_dcyc]

/-- Go: b0 += b9; b9 = ((b9 << r) | (b9 >> (64 - r))) ^ b0  (threefish1024). -/
def mix1024_0_9 (r : Fin 64) (s : S16) : S16 :=
  let v0 := s.b0 + s.b9
  let v9 := wxor (rotL64 s.b9 r) v0
  ⟨v0, s.b1, s.b2, s.b3, s.b4, s.b5, s.b6, s.b7, s.b8, v9, s.b10, s.b11, s.b12, s.b13, s.b14, s.b15⟩

/-- Go: tmp = b9 ^ b0; b9 = (tmp >> r) | (tmp << (64 - r)); b0 -= b9  (threefish1024). -/
def dmix1024_0_9 (r : Fin 64) (s : S16) : S16 :=
  let tmp := wxor s.b9 s.b0
  let v9 := rotR64 tmp r
  let v0 := s.b0 - v9
  ⟨v0, s.b1, s.b2, s.b3, s.b4, s.b5, s.b6, s.b7, s.b8, v9, s.b10, s.b11, s.b12, s.b13, s.b14, s.b15⟩

/-- Go: b2 += b13; b13 = ((b13 << r) | (b13 >> (64 - r))) ^ b2  (threefish1024). -/
def mix1024_2_13 (r : Fin 64) (s : S16) : S16 :=
  let v2 := s.b2 + s.b13
  let v13 := wxor (rotL64 s.b13 r) v2
  ⟨s.b0, s.b1, v2, s.b3, s.b4, s.b5, s.b6, s.b7, s.b8, s.b9, s.b10, s.b11, s.b12, v13, s.b14, s.b15⟩

/-- Go: tmp = b13 ^ b2; b13 = (tmp >> r) | (tmp << (64 - r)); b2 -= b13  (threefish1024). -/
def dmix1024_2_13 (r : Fin 64) (s : S16) : S16 :=
  let tmp := wxor s.b13 s.b2
  let v13 := rotR64 tmp r
  let v2 := s.b2 - v13
  ⟨s.b0, s.b1, v2, s.b3, s.b4, s.b5, s.b6, s.b7, s.b8, s.b9, s.b10, s.b11, s.b12, v13, s.b14, s.b15⟩

/-- Go: b6 += b11; b11 = ((b11 << r) | (b11 >> (64 - r))) ^ b6  (threefish1024). -/
def mix1024_6_11 (r : Fin 64) (s : S16) : S16 :=
  let v6 := s.b6 + s.b11
  let v11 := wxor (rotL64 s.b11 r) v6
  ⟨s.b0, s.b1, s.b2, s.b3, s.b4, s.b5, v6, s.b7, s.b8, s.b9, s.b10, v11, s.b12, s.b13, s.b14, s.b15⟩

/-- Go: tmp = b11 ^ b6; b11 = (tmp >> r) | (tmp << (64 - r)); b6 -= b11  (threefish1024). -/
def dmix1024_6_11 (r : Fin 64) (s : S16) : S16 :=
  let tmp := wxor s.b11 s.b6
  let v11 := rotR64 tmp r
  let v6 := s.b6 - v11
  ⟨s.b0, s.b1, s.b2, s.b3, s.b4, s.b5, v6, s.b7, s.b8, s.b9, s.b10, v11, s.b12, s.b13, s.b14, s.b15⟩

/-- Go: b4 += b15; b15 = ((b15 << r) | (b15 >> (64 - r))) ^ b4  (threefish1024). -/
def mix1024_4_15 (r : Fin 64) (s : S16) : S16 :=
  let v4 := s.b4 + s.b15
  let v15 := wxor (rotL64 s.b15 r) v4
  ⟨s.b0, s.b1, s.b2, s.b3, v4, s.b5, s.b6, s.b7, s.b8, s.b9, s.b10, s.b11, s.b12, s.b13, s.b14, v15⟩

/-- Go: tmp = b15 ^ b4; b15 = (tmp >> r) | (tmp << (64 - r)); b4 -= b15  (threefish1024). -/
def dmix1024_4_15 (r : Fin 64) (s : S16) : S16 :=
  let tmp := wxor s.b15 s.b4
  let v15 := rotR64 tmp r
  let v4 := s.b4 - v15
  ⟨s.b0, s.b1, s.b2, s.b3, v4, s.b5, s.b6, s.b7, s.b8, s.b9, s.b10, s.b11, s.b12, s.b13, s.b14, v15⟩

/-- Go: b10 += b7; b7 = ((b7 << r) | (b7 >> (64 - r))) ^ b10  (threefish1024). -/
def mix1024_10_7 (r : Fin 64) (s : S16) : S16 :=
  let v10 := s.b10 + s.b7
  let v7 := wxor (rotL64 s.b7 r) v10
  ⟨s.b0, s.b1, s.b2, s.b3, s.b4, s.b5, s.b6, v7, s.b8, s.b9, v10, s.b11, s.b12, s.b13, s.b14, s.b15⟩

/-- Go: tmp = b7 ^ b10; b7 = (tmp >> r) | (tmp << (64 - r)); b10 -= b7  (threefish1024). -/
def dmix1024_10_7 (r : Fin 64) (s : S16) : S16 :=
  let tmp := wxor s.b7 s.b10
  let v7 := rotR64 tmp r
  let v10 := s.b10 - v7
  ⟨s.b0, s.b1, s.b2, s.b3, s.b4, s.b5, s.b6, v7, s.b8, s.b9, v10, s.b11, s.b12, s.b13, s.b14, s.b15⟩

/-- Go: b12 += b3; b3 = ((b3 << r) | (b3 >> (64 - r))) ^ b12  (threefish1024). -/
def mix1024_12_3 (r : Fin 64) (s : S16) : S16 :=
  let v12 := s.b12 + s.b3
  let v3 := wxor (rotL64 s.b3 r) v12
  ⟨s.b0, s.b1, s.b2, v3, s.b4, s.b5, s.b6, s.b7, s.b8, s.b9, s.b10, s.b11, v12, s.b13, s.b14, s.b15⟩

/-- Go: tmp = b3 ^ b12; b3 = (tmp >> r) | (tmp << (64 - r)); b12 -= b3  (threefish1024). -/
def dmix1024_12_3 (r : Fin 64) (s : S16) : S16 :=
  let tmp := wxor s.b3 s.b12
  let v3 := rotR64 tmp r
  let v12 := s.b12 - v3
  ⟨s.b0, s.b1, s.b2, v3, s.b4, s.b5, s.b6, s.b7, s.b8, s.b9, s.b10, s.b11, v12, s.b13, s.b14, s.b15⟩

/-- Go: b14 += b5; b5 = ((b5 << r) | (b5 >> (64 - r))) ^ b14  (threefish1024). -/
def mix1024_14_5 (r : Fin 64) (s : S16) : S16 :=
  let v14 := s.b14 + s.b5
  let v5 := wxor (rotL64 s.b5 r) v14
  ⟨s.b0, s.b1, s.b2, s.b3, s.b4, v5, s.b6, s.b7, s.b8, s.b9, s.b10, s.b11, s.b12, s.b13, v14, s.b15⟩

/-- Go: tmp = b5 ^ b14; b5 = (tmp >> r) | (tmp << (64 - r)); b14 -= b5  (threefish1024). -/
def dmix1024_14_5 (r : Fin 64) (s : S16) : S16 :=
  let tmp := wxor s.b5 s.b14
  let v5 := rotR64 tmp r
  let v14 := s.b14 - v5
  ⟨s.b0, s.b1, s.b2, s.b3, s.b4, v5, s.b6, s.b7, s.b8, s.b9, s.b10, s.b11, s.b12, s.b13, v14, s.b15⟩

/-- Go: b8 += b1; b1 = ((b1 << r) | (b1 >> (64 - r))) ^ b8  (threefish1024). -/
def mix1024_8_1 (r : Fin 64) (s : S16) : S16 :=
  let v8 := s.b8 + s.b1
  let v1 := wxor (rotL64 s.b1 r) v8
  ⟨s.b0, v1, s.b2, s.b3, s.b4, s.b5, s.b6, s.b7, v8, s.b9, s.b10, s.b11, s.b12, s.b13, s.b14, s.b15⟩

/-- Go: tmp = b1 ^ b8; b1 = (tmp >> r) | (tmp << (64 - r)); b8 -= b1  (threefish1024). -/
def dmix1024_8_1 (r : Fin 64) (s : S16) : S16 :=
  let tmp := wxor s.b1 s.b8
  let v1 := rotR64 tmp r
  let v8 := s.b8 - v1
  ⟨s.b0, v1, s.b2, s.b3, s.b4, s.b5, s.b6, s.b7, v8, s.b9, s.b10, s.b11, s.b12, s.b13, s.b14, s.b15⟩

/-- Go: b0 += b7; b7 = ((b7 << r) | (b7 >> (64 - r))) ^ b0  (threefish1024). -/
def mix1024_0_7 (r : Fin 64) (s : S16) : S16 :=
  let v0 := s.b0 + s.b7
  let v7 := wxor (rotL64 s.b7 r) v0
  ⟨v0, s.b1, s.b2, s.b3, s.b4, s.b5, s.b6, v7, s.b8, s.b9, s.b10, s.b11, s.b12, s.b13, s.b14, s.b15⟩

/-- Go: tmp = b7 ^ b0; b7 = (tmp >> r) | (tmp << (64 - r)); b0 -= b7  (threefish1024). -/
def dmix1024_0_7 (r : Fin 64) (s : S16) : S16 :=
  let tmp := wxor s.b7 s.b0
  let v7 := rotR64 tmp r
  let v0 := s.b0 - v7
  ⟨v0, s.b1, s.b2, s.b3, s.b4, s.b5, s.b6, v7, s.b8, s.b9, s.b10, s.b11, s.b12, s.b13, s.b14, s.b15⟩

/-- Go: b2 += b5; b5 = ((b5 << r) | (b5 >> (64 - r))) ^ b2  (threefish1024). -/
def mix1024_2_5 (r : Fin 64) (s : S16) : S16 :=
  let v2 := s.b2 + s.b5
  let v5 := wxor (rotL64 s.b5 r) v2
  ⟨s.b0, s.b1, v2, s.b3, s.b4, v5, s.b6, s.b7, s.b8, s.b9, s.b10, s.b11, s.b12, s.b13, s.b14, s.b15⟩

/-- Go: tmp = b5 ^ b2; b5 = (tmp >> r) | (tmp << (64 - r)); b2 -= b5  (threefish1024). -/
def dmix1024_2_5 (r : Fin 64) (s : S16) : S16 :=
  let tmp := wxor s.b5 s.b2
  let v5 := rotR64 tmp r
  let v2 := s.b2 - v5
  ⟨s.b0, s.b1, v2, s.b3, s.b4, v5, s.b6, s.b7, s.b8, s.b9, s.b10, s.b11, s.b12, s.b13, s.b14, s.b15⟩

/-- Go: b4 += b3; b3 = ((b3 << r) | (b3 >> (64 - r))) ^ b4  (threefish1024). -/
def mix1024_4_3 (r : Fin 64) (s : S16) : S16 :=
  let v4 := s.b4 + s.b3
  let v3 := wxor (rotL64 s.b3 r) v4
  ⟨s.b0, s.b1, s.b2, v3, v4, s.b5, s.b6, s.b7, s.b8, s.b9, s.b10, s.b11, s.b12, s.b13, s.b14, s.b15⟩

/-- Go: tmp = b3 ^ b4; b3 = (tmp >> r) | (tmp << (64 - r)); b4 -= b3  (threefish1024). -/
def dmix1024_4_3 (r : Fin 64) (s : S16) : S16 :=
  let tmp := wxor s.b3 s.b4
  let v3 := rotR64 tmp r
  let v4 := s.b4 - v3
  ⟨s.b0, s.b1, s.b2, v3, v4, s.b5, s.b6, s.b7, s.b8, s.b9, s.b10, s.b11, s.b12, s.b13, s.b14, s.b15⟩

/-- Go: b6 += b1; b1 = ((b1 << r) | (b1 >> (64 - r))) ^ b6  (threefish1024). -/
def mix1024_6_1 (r : Fin 64) (s : S16) : S16 :=
  let v6 := s.b6 + s.b1
  let v1 := wxor (rotL64 s.b1 r) v6
  ⟨s.b0, v1, s.b2, s.b3, s.b4, s.b5, v6, s.b7, s.b8, s.b9, s.b10, s.b11, s.b12, s.b13, s.b14, s.b15⟩

/-- Go: tmp = b1 ^ b6; b1 = (tmp >> r) | (tmp << (64 - r)); b6 -= b1  (threefish1024). -/
def dmix1024_6_1 (r : Fin 64) (s : S16) : S16 :=
  let tmp := wxor s.b1 s.b6
  let v1 := rotR64 tmp r
  let v6 := s.b6 - v1
  ⟨s.b0, v1, s.b2, s.b3, s.b4, s.b5, v6, s.b7, s.b8, s.b9, s.b10, s.b11, s.b12, s.b13, s.b14, s.b15⟩

/-- Go: b12 += b15; b15 = ((b15 << r) | (b15 >> (64 - r))) ^ b12  (threefish1024). -/
def mix1024_12_15 (r : Fin 64) (s : S16) : S16 :=
  let v12 := s.b12 + s.b15
  let v15 := wxor (rotL64 s.b15 r) v12
  ⟨s.b0, s.b1, s.b2, s.b3, s.b4, s.b5, s.b6, s.b7, s.b8, s.b9, s.b10, s.b11, v12, s.b13, s.b14, v15⟩

/-- Go: tmp = b15 ^ b12; b15 = (tmp >> r) | (tmp << (64 - r)); b12 -= b15  (threefish1024). -/
def dmix1024_12_15 (r : Fin 64) (s : S16) : S16 :=
  let tmp := wxor s.b15 s.b12
  let v15 := rotR64 tmp r
  let v12 := s.b12 - v15
  ⟨s.b0, s.b1, s.b2, s.b3, s.b4, s.b5, s.b6, s.b7, s.b8, s.b9, s.b10, s.b11, v12, s.b13, s.b14, v15⟩

/-- Go: b14 += b13; b13 = ((b13 << r) | (b13 >> (64 - r))) ^ b14  (threefish1024). -/
def mix1024_14_13 (r : Fin 64) (s : S16) : S16 :=
  let v14 := s.b14 + s.b13
  let v13 := wxor (rotL64 s.b13 r) v14
  ⟨s.b0, s.b1, s.b2, s.b3, s.b4, s.b5, s.b6, s.b7, s.b8, s.b9, s.b10, s.b11, s.b12, v13, v14, s.b15⟩

/-- Go: tmp = b13 ^ b14; b13 = (tmp >> r) | (tmp << (64 - r)); b14 -= b13  (threefish1024). -/
def dmix1024_14_13 (r : Fin 64) (s : S16) : S16 :=
  let tmp := wxor s.b13 s.b14
  let v13 := rotR64 tmp r
  let v14 := s.b14 - v13
  ⟨s.b0, s.b1, s.b2, s.b3, s.b4, s.b5, s.b6, s.b7, s.b8, s.b9, s.b10, s.b11, s.b12, v13, v14, s.b15⟩

/-- Go: b8 += b11; b11 = ((b11 << r) | (b11 >> (64 - r))) ^ b8  (threefish1024). -/
def mix1024_8_11 (r : Fin 64) (s : S16) : S16 :=
  let v8 := s.b8 + s.b11
  let v11 := wxor (rotL64 s.b11 r) v8
  ⟨s.b0, s.b1, s.b2, s.b3, s.b4, s.b5, s.b6, s.b7, v8, s.b9, s.b10, v11, s.b12, s.b13, s.b14, s.b15⟩

/-- Go: tmp = b11 ^ b8; b11 = (tmp >> r) | (tmp << (64 - r)); b8 -= b11  (threefish1024). -/
def dmix1024_8_11 (r : Fin 64) (s : S16) : S16 :=
  let tmp := wxor s.b11 s.b8
  let v11 := rotR64 tmp r
  let v8 := s.b8 - v11
  ⟨s.b0, s.b1, s.b2, s.b3, s.b4, s.b5, s.b6, s.b7, v8, s.b9, s.b10, v11, s.b12, s.b13, s.b14, s.b15⟩

/-- Go: b10 += b9; b9 = ((b9 << r) | (b9 >> (64 - r))) ^ b10  (threefish1024). -/
def mix1024_10_9 (r : Fin 64) (s : S16) : S16 :=
  let v10 := s.b10 + s.b9
  let v9 := wxor (rotL64 s.b9 r) v10
  ⟨s.b0, s.b1, s.b2, s.b3, s.b4, s.b5, s.b6, s.b7, s.b8, v9, v10, s.b11, s.b12, s.b13, s.b14, s.b15⟩

/-- Go: tmp = b9 ^ b10; b9 = (tmp >> r) | (tmp << (64 - r)); b10 -= b9  (threefish1024). -/
def dmix1024_10_9 (r : Fin 64) (s : S16) : S16 :=
  let tmp := wxor s.b9 s.b10
  let v9 := rotR64 tmp r
  let v10 := s.b10 - v9
  ⟨s.b0, s.b1, s.b2, s.b3, s.b4, s.b5, s.b6, s.b7, s.b8, v9, v10, s.b11, s.b12, s.b13, s.b14, s.b15⟩

/-- Go: b0 += b15; b15 = ((b15 << r) | (b15 >> (64 - r))) ^ b0  (threefish1024). -/
def mix1024_0_15 (r : Fin 64) (s : S16) : S16 :=
  let v0 := s.b0 + s.b15
  let v15 := wxor (rotL64 s.b15 r) v0
  ⟨v0, s.b1, s.b2, s.b3, s.b4, s.b5, s.b6, s.b7, s.b8, s.b9, s.b10, s.b11, s.b12, s.b13, s.b14, v15⟩

/-- Go: tmp = b15 ^ b0; b15 = (tmp >> r) | (tmp << (64 - r)); b0 -= b15  (threefish1024). -/
def dmix1024_0_15 (r : Fin 64) (s : S16) : S16 :=
  let tmp := wxor s.b15 s.b0
  let v15 := rotR64 tmp r
  let v0 := s.b0 - v15
  ⟨v0, s.b1, s.b2, s.b3, s.b4, s.b5, s.b6, s.b7, s.b8, s.b9, s.b10, s.b11, s.b12, s.b13, s.b14, v15⟩

/-- Go: b2 += b11; b11 = ((b11 << r) | (b11 >> (64 - r))) ^ b2  (threefish1024). -/
def mix1024_2_11 (r : Fin 64) (s : S16) : S16 :=
  let v2 := s.b2 + s.b11
  let v11 := wxor (rotL64 s.b11 r) v2
  ⟨s.b0, s.b1, v2, s.b3, s.b4, s.b5, s.b6, s.b7, s.b8, s.b9, s.b10, v11, s.b12, s.b13, s.b14, s.b15⟩

/-- Go: tmp = b11 ^ b2; b11 = (tmp >> r) | (tmp << (64 - r)); b2 -= b11  (threefish1024). -/
def dmix1024_2_11 (r : Fin 64) (s : S16) : S16 :=
  let tmp := wxor s.b11 s.b2
  let v11 := rotR64 tmp r
  let v2 := s.b2 - v11
  ⟨s.b0, s.b1, v2, s.b3, s.b4, s.b5, s.b6, s.b7, s.b8, s.b9, s.b10, v11, s.b12, s.b13, s.b14, s.b15⟩

/-- Go: b6 += b13; b13 = ((b13 << r) | (b13 >> (64 - r))) ^ b6  (threefish1024). -/
def mix1024_6_13 (r : Fin 64) (s : S16) : S16 :=
  let v6 := s.b6 + s.b13
  let v13 := wxor (rotL64 s.b13 r) v6
  ⟨s.b0, s.b1, s.b2, s.b3, s.b4, s.b5, v6, s.b7, s.b8, s.b9, s.b10, s.b11, s.b12, v13, s.b14, s.b15⟩

/-- Go: tmp = b13 ^ b6; b13 = (tmp >> r) | (tmp << (64 - r)); b6 -= b13  (threefish1024). -/
def dmix1024_6_13 (r : Fin 64) (s : S16) : S16 :=
  let tmp := wxor s.b13 s.b6
  let v13 := rotR64 tmp r
  let v6 := s.b6 - v13
  ⟨s.b0, s.b1, s.b2, s.b3, s.b4, s.b5, v6, s.b7, s.b8, s.b9, s.b10, s.b11, s.b12, v13, s.b14, s.b15⟩

/-- Go: b4 += b9; b9 = ((b9 << r) | (b9 >> (64 - r))) ^ b4  (threefish1024). -/
def mix1024_4_9 (r : Fin 64) (s : S16) : S16 :=
  let v4 := s.b4 + s.b9
  let v9 := wxor (rotL64 s.b9 r) v4
  ⟨s.b0, s.b1, s.b2, s.b3, v4, s.b5, s.b6, s.b7, s.b8, v9, s.b10, s.b11, s.b12, s.b13, s.b14, s.b15⟩

/-- Go: tmp = b9 ^ b4; b9 = (tmp >> r) | (tmp << (64 - r)); b4 -= b9  (threefish1024). -/
def dmix1024_4_9 (r : Fin 64) (s : S16) : S16 :=
  let tmp := wxor s.b9 s.b4
  let v9 := rotR64 tmp r
  let v4 := s.b4 - v9
  ⟨s.b0, s.b1, s.b2, s.b3, v4, s.b5, s.b6, s.b7, s.b8, v9, s.b10, s.b11, s.b12, s.b13, s.b14, s.b15⟩

/-- Go: b14 += b1; b1 = ((b1 << r) | (b1 >> (64 - r))) ^ b14  (threefish1024). -/
def mix1024_14_1 (r : Fin 64) (s : S16) : S16 :=
  let v14 := s.b14 + s.b1
  let v1 := wxor (rotL64 s.b1 r) v14
  ⟨s.b0, v1, s.b2, s.b3, s.b4, s.b5, s.b6, s.b7, s.b8, s.b9, s.b10, s.b11, s.b12, s.b13, v14, s.b15⟩

/-- Go: tmp = b1 ^ b14; b1 = (tmp >> r) | (tmp << (64 - r)); b14 -= b1  (threefish1024). -/
def dmix1024_14_1 (r : Fin 64) (s : S16) : S16 :=
  let tmp := wxor s.b1 s.b14
  let v1 := rotR64 tmp r
  let v14 := s.b14 - v1
  ⟨s.b0, v1, s.b2, s.b3, s.b4, s.b5, s.b6, s.b7, s.b8, s.b9, s.b10, s.b11, s.b12, s.b13, v14, s.b15⟩

/-- Go: b8 += b5; b5 = ((b5 << r) | (b5 >> (64 - r))) ^ b8  (threefish1024). -/
def mix1024_8_5 (r : Fin 64) (s : S16) : S16 :=
  let v8 := s.b8 + s.b5
  let v5 := wxor (rotL64 s.b5 r) v8
  ⟨s.b0, s.b1, s.b2, s.b3, s.b4, v5, s.b6, s.b7, v8, s.b9, s.b10, s.b11, s.b12, s.b13, s.b14, s.b15⟩

/-- Go: tmp = b5 ^ b8; b5 = (tmp >> r) | (tmp << (64 - r)); b8 -= b5  (threefish1024). -/
def dmix1024_8_5 (r : Fin 64) (s : S16) : S16 :=
  let tmp := wxor s.b5 s.b8
  let v5 := rotR64 tmp r
  let v8 := s.b8 - v5
  ⟨s.b0, s.b1, s.b2, s.b3, s.b4, v5, s.b6, s.b7, v8, s.b9, s.b10, s.b11, s.b12, s.b13, s.b14, s.b15⟩

/-- Go: b10 += b3; b3 = ((b3 << r) | (b3 >> (64 - r))) ^ b10  (threefish1024). -/
def mix1024_10_3 (r : Fin 64) (s : S16) : S16 :=
  let v10 := s.b10 + s.b3
  let v3 := wxor (rotL64 s.b3 r) v10
  ⟨s.b0, s.b1, s.b2, v3, s.b4, s.b5, s.b6, s.b7, s.b8, s.b9, v10, s.b11, s.b12, s.b13, s.b14, s.b15⟩

/-- Go: tmp = b3 ^ b10; b3 = (tmp >> r) | (tmp << (64 - r)); b10 -= b3  (threefish1024). -/
def dmix1024_10_3 (r : Fin 64) (s : S16) : S16 :=
  let tmp := wxor s.b3 s.b10
  let v3 := rotR64 tmp r
  let v10 := s.b10 - v3
  ⟨s.b0, s.b1, s.b2, v3, s.b4, s.b5, s.b6, s.b7, s.b8, s.b9, v10, s.b11, s.b12, s.b13, s.b14, s.b15⟩

/-- Go: b12 += b7; b7 = ((b7 << r) | (b7 >> (64 - r))) ^ b12  (threefish1024). -/
def mix1024_12_7 (r : Fin 64) (s : S16) : S16 :=
  let v12 := s.b12 + s.b7
  let v7 := wxor (rotL64 s.b7 r) v12
  ⟨s.b0, s.b1, s.b2, s.b3, s.b4, s.b5, s.b6, v7, s.b8, s.b9, s.b10, s.b11, v12, s.b13, s.b14, s.b15⟩

/-- Go: tmp = b7 ^ b12; b7 = (tmp >> r) | (tmp << (64 - r)); b12 -= b7  (threefish1024). -/
def dmix1024_12_7 (r : Fin 64) (s : S16) : S16 :=
  let tmp := wxor s.b7 s.b12
  let v7 := rotR64 tmp r
  let v12 := s.b12 - v7
  ⟨s.b0, s.b1, s.b2, s.b3, s.b4, s.b5, s.b6, v7, s.b8, s.b9, s.b10, s.b11, v12, s.b13, s.b14, s.b15⟩

/-- Go: b1 += <subkey terms>; b0 += b1 + <subkey terms>; b1 = rot ^ b0  (threefish1024 key injection, word pair (0,1)). -/
def imix1024_0_1 (k0x k1x : Word) (r : Fin 64) (s : S16) : S16 :=
  let v1 := s.b1 + k1x
  let v0 := s.b0 + (v1 + k0x)
  let w1 := wxor (rotL64 v1 r) v0
  ⟨v0, w1, s.b2, s.b3, s.b4, s.b5, s.b6, s.b7, s.b8, s.b9, s.b10, s.b11, s.b12, s.b13, s.b14, s.b15⟩

/-- Go: tmp = b1 ^ b0; b1 = rotR tmp; b0 -= b1 + <subkey>; b1 -= <subkey>  (threefish1024). -/
def dimix1024_0_1 (k0x k1x : Word) (r : Fin 64) (s : S16) : S16 :=
  let tmp := wxor s.b1 s.b0
  let v1 := rotR64 tmp r
  let v0 := s.b0 - (v1 + k0x)
  let w1 := v1 - k1x
  ⟨v0, w1, s.b2, s.b3, s.b4, s.b5, s.b6, s.b7, s.b8, s.b9, s.b10, s.b11, s.b12, s.b13, s.b14, s.b15⟩

/-- Go: b3 += <subkey terms>; b2 += b3 + <subkey terms>; b3 = rot ^ b2  (threefish1024 key injection, word pair (2,3)). -/
def imix1024_2_3 (k2x k3x : Word) (r : Fin 64) (s : S16) : S16 :=
  let v3 := s.b3 + k3x
  let v2 := s.b2 + (v3 + k2x)
  let w3 := wxor (rotL64 v3 r) v2
  ⟨s.b0, s.b1, v2, w3, s.b4, s.b5, s.b6, s.b7, s.b8, s.b9, s.b10, s.b11, s.b12, s.b13, s.b14, s.b15⟩

/-- Go: tmp = b3 ^ b2; b3 = rotR tmp; b2 -= b3 + <subkey>; b3 -= <subkey>  (threefish1024). -/
def dimix1024_2_3 (k2x k3x : Word) (r : Fin 64) (s : S16) : S16 :=
  let tmp := wxor s.b3 s.b2
  let v3 := rotR64 tmp r
  let v2 := s.b2 - (v3 + k2x)
  let w3 := v3 - k3x
  ⟨s.b0, s.b1, v2, w3, s.b4, s.b5, s.b6, s.b7, s.b8, s.b9, s.b10, s.b11, s.b12, s.b13, s.b14, s.b15⟩

/-- Go: b5 += <subkey terms>; b4 += b5 + <subkey terms>; b5 = rot ^ b4  (threefish1024 key injection, word pair (4,5)). -/
def imix1024_4_5 (k4x k5x : Word) (r : Fin 64) (s : S16) : S16 :=
  let v5 := s.b5 + k5x
  let v4 := s.b4 + (v5 + k4x)
  let w5 := wxor (rotL64 v5 r) v4
  ⟨s.b0, s.b1, s.b2, s.b3, v4, w5, s.b6, s.b7, s.b8, s.b9, s.b10, s.b11, s.b12, s.b13, s.b14, s.b15⟩

/-- Go: tmp = b5 ^ b4; b5 = rotR tmp; b4 -= b5 + <subkey>; b5 -= <subkey>  (threefish1024). -/
def dimix1024_4_5 (k4x k5x : Word) (r : Fin 64) (s : S16) : S16 :=
  let tmp := wxor s.b5 s.b4
  let v5 := rotR64 tmp r
  let v4 := s.b4 - (v5 + k4x)
  let w5 := v5 - k5x
  ⟨s.b0, s.b1, s.b2, s.b3, v4, w5, s.b6, s.b7, s.b8, s.b9, s.b10, s.b11, s.b12, s.b13, s.b14, s.b15⟩

/-- Go: b7 += <subkey terms>; b6 += b7 + <subkey terms>; b7 = rot ^ b6  (threefish1024 key injection, word pair (6,7)). -/
def imix1024_6_7 (k6x k7x : Word) (r : Fin 64) (s : S16) : S16 :=
  let v7 := s.b7 + k7x
  let v6 := s.b6 + (v7 + k6x)
  let w7 := wxor (rotL64 v7 r) v6
  ⟨s.b0, s.b1, s.b2, s.b3, s.b4, s.b5, v6, w7, s.b8, s.b9, s.b10, s.b11, s.b12, s.b13, s.b14, s.b15⟩

/-- Go: tmp = b7 ^ b6; b7 = rotR tmp; b6 -= b7 + <subkey>; b7 -= <subkey>  (threefish1024). -/
def dimix1024_6_7 (k6x k7x : Word) (r : Fin 64) (s : S16) : S16 :=
  let tmp := wxor s.b7 s.b6
  let v7 := rotR64 tmp r
  let v6 := s.b6 - (v7 + k6x)
  let w7 := v7 - k7x
  ⟨s.b0, s.b1, s.b2, s.b3, s.b4, s.b5, v6, w7, s.b8, s.b9, s.b10, s.b11, s.b12, s.b13, s.b14, s.b15⟩

/-- Go: b9 += <subkey terms>; b8 += b9 + <subkey terms>; b9 = rot ^ b8  (threefish1024 key injection, word pair (8,9)). -/
def imix1024_8_9 (k8x k9x : Word) (r : Fin 64) (s : S16) : S16 :=
  let v9 := s.b9 + k9x
  let v8 := s.b8 + (v9 + k8x)
  let w9 := wxor (rotL64 v9 r) v8
  ⟨s.b0, s.b1, s.b2, s.b3, s.b4, s.b5, s.b6, s.b7, v8, w9, s.b10, s.b11, s.b12, s.b13, s.b14, s.b15⟩

/-- Go: tmp = b9 ^ b8; b9 = rotR tmp; b8 -= b9 + <subkey>; b9 -= <subkey>  (threefish1024). -/
def dimix1024_8_9 (k8x k9x : Word) (r : Fin 64) (s : S16) : S16 :=
  let tmp := wxor s.b9 s.b8
  let v9 := rotR64 tmp r
  let v8 := s.b8 - (v9 + k8x)
  let w9 := v9 - k9x
  ⟨s.b0, s.b1, s.b2, s.b3, s.b4, s.b5, s.b6, s.b7, v8, w9, s.b10, s.b11, s.b12, s.b13, s.b14, s.b15⟩

/-- Go: b11 += <subkey terms>; b10 += b11 + <subkey terms>; b11 = rot ^ b10  (threefish1024 key injection, word pair (10,11)). -/
def imix1024_10_11 (k10x k11x : Word) (r : Fin 64) (s : S16) : S16 :=
  let v11 := s.b11 + k11x
  let v10 := s.b10 + (v11 + k10x)
  let w11 := wxor (rotL64 v11 r) v10
  ⟨s.b0, s.b1, s.b2, s.b3, s.b4, s.b5, s.b6, s.b7, s.b8, s.b9, v10, w11, s.b12, s.b13, s.b14, s.b15⟩

/-- Go: tmp = b11 ^ b10; b11 = rotR tmp; b10 -= b11 + <subkey>; b11 -= <subkey>  (threefish1024). -/
def dimix1024_10_11 (k10x k11x : Word) (r : Fin 64) (s : S16) : S16 :=
  let tmp := wxor s.b11 s.b10
  let v11 := rotR64 tmp r
  let v10 := s.b10 - (v11 + k10x)
  let w11 := v11 - k11x
  ⟨s.b0, s.b1, s.b2, s.b3, s.b4, s.b5, s.b6, s.b7, s.b8, s.b9, v10, w11, s.b12, s.b13, s.b14, s.b15⟩

/-- Go: b13 += <subkey terms>; b12 += b13 + <subkey terms>; b13 = rot ^ b12  (threefish1024 key injection, word pair (12,13)). -/
def imix1024_12_13 (k12x k13x tX : Word) (r : Fin 64) (s : S16) : S16 :=
  let v13 := s.b13 + (k13x + tX)
  let v12 := s.b12 + (v13 + k12x)
  let w13 := wxor (rotL64 v13 r) v12
  ⟨s.b0, s.b1, s.b2, s.b3, s.b4, s.b5, s.b6, s.b7, s.b8, s.b9, s.b10, s.b11, v12, w13, s.b14, s.b15⟩

/-- Go: tmp = b13 ^ b12; b13 = rotR tmp; b12 -= b13 + <subkey>; b13 -= <subkey>  (threefish1024). -/
def dimix1024_12_13 (k12x k13x tX : Word) (r : Fin 64) (s : S16) : S16 :=
  let tmp := wxor s.b13 s.b12
  let v13 := rotR64 tmp r
  let v12 := s.b12 - (v13 + k12x)
  let w13 := v13 - (k13x + tX)
  ⟨s.b0, s.b1, s.b2, s.b3, s.b4, s.b5, s.b6, s.b7, s.b8, s.b9, s.b10, s.b11, v12, w13, s.b14, s.b15⟩

/-- Go: b15 += <subkey terms>; b14 += b15 + <subkey terms>; b15 = rot ^ b14  (threefish1024 key injection, word pair (14,15)). -/
def imix1024_14_15 (k14x k15x sX tY : Word) (r : Fin 64) (s : S16) : S16 :=
  let v15 := s.b15 + (k15x + sX)
  let v14 := s.b14 + (v15 + k14x + tY)
  let w15 := wxor (rotL64 v15 r) v14
  ⟨s.b0, s.b1, s.b2, s.b3, s.b4, s.b5, s.b6, s.b7, s.b8, s.b9, s.b10, s.b11, s.b12, s.b13, v14, w15⟩

/-- Go: tmp = b15 ^ b14; b15 = rotR tmp; b14 -= b15 + <subkey>; b15 -= <subkey>  (threefish1024). -/
def dimix1024_14_15 (k14x k15x sX tY : Word) (r : Fin 64) (s : S16) : S16 :=
  let tmp := wxor s.b15 s.b14
  let v15 := rotR64 tmp r
  let v14 := s.b14 - (v15 + k14x + tY)
  let w15 := v15 - (k15x + sX)
  ⟨s.b0, s.b1, s.b2, s.b3, s.b4, s.b5, s.b6, s.b7, s.b8, s.b9, s.b10, s.b11, s.b12, s.b13, v14, w15⟩

/-- Go: output[i] = b_i + <final subkey>  (threefish1024). -/
def einj1024 (a0 a1 a2 a3 a4 a5 a6 a7 a8 a9 a10 a11 a12 a13 a14 a15 : Word) (s : S16) : S16 :=
  ⟨s.b0 + a0, s.b1 + a1, s.b2 + a2, s.b3 + a3, s.b4 + a4, s.b5 + a5, s.b6 + a6, s.b7 + a7, s.b8 + a8, s.b9 + a9, s.b10 + a10, s.b11 + a11, s.b12 + a12, s.b13 + a13, s.b14 + a14, s.b15 + a15⟩

/-- Go: b_i -= <final subkey>  (head of threefish1024.decrypt). -/
def dinj1024 (a0 a1 a2 a3 a4 a5 a6 a7 a8 a9 a10 a11 a12 a13 a14 a15 : Word) (s : S16) : S16 :=
  ⟨s.b0 - a0, s.b1 - a1, s.b2 - a2, s.b3 - a3, s.b4 - a4, s.b5 - a5, s.b6 - a6, s.b7 - a7, s.b8 - a8, s.b9 - a9, s.b10 - a10, s.b11 - a11, s.b12 - a12, s.b13 - a13, s.b14 - a14, s.b15 - a15⟩

theorem dmix1024_0_9_c (r : Fin 64) (s : S16) : dmix1024_0_9 r (mix1024_0_9 r s) = s := by
  cases s
  simp only [mix1024_0_9, dmix1024_0_9, wxor_cancel_right, rotR_rotL, add_sub_cancel_right]

theorem mix1024_0_9_c (r : Fin 64) (s : S16) : mix1024_0_9 r (dmix1024_0_9 r s) = s := by
  cases s
  simp only [mix1024_0_9, dmix1024_0_9, sub_add_cancel, rotL_rotR, wxor_cancel_right]

theorem dmix1024_2_13_c (r : Fin 64) (s : S16) : dmix1024_2_13 r (mix1024_2_13 r s) = s := by
  cases s
  simp only [mix1024_2_13, dmix1024_2_13, wxor_cancel_right, rotR_rotL, add_sub_cancel_right]

theorem mix1024_2_13_c (r : Fin 64) (s : S16) : mix1024_2_13 r (dmix1024_2_13 r s) = s := by
  cases s
  simp only [mix1024_2_13, dmix1024_2_13, sub_add_cancel, rotL_rotR, wxor_cancel_right]

theorem dmix1024_6_11_c (r : Fin 64) (s : S16) : dmix1024_6_11 r (mix1024_6_11 r s) = s := by
  cases s
  simp only [mix1024_6_11, dmix1024_6_11, wxor_cancel_right, rotR_rotL, add_sub_cancel_right]

theorem mix1024_6_11_c (r : Fin 64) (s : S16) : mix1024_6_11 r (dmix1024_6_11 r s) = s := by
  cases s
  simp only [mix1024_6_11, dmix1024_6_11, sub_add_cancel, rotL_rotR, wxor_cancel_right]

theorem dmix1024_4_15_c (r : Fin 64) (s : S16) : dmix1024_4_15 r (mix1024_4_15 r s) = s := by
  cases s
  simp only [mix1024_4_15, dmix1024_4_15, wxor_cancel_right, rotR_rotL, add_sub_cancel_right]

theorem mix1024_4_15_c (r : Fin 64) (s : S16) : mix1024_4_15 r (dmix1024_4_15 r s) = s := by
  cases s
  simp only [mix1024_4_15, dmix1024_4_15, sub_add_cancel, rotL_rotR, wxor_cancel_right]

theorem dmix1024_10_7_c (r : Fin 64) (s : S16) : dmix1024_10_7 r (mix1024_10_7 r s) = s := by
  cases s
  simp only [mix1024_10_7, dmix1024_10_7, wxor_cancel_right, rotR_rotL, add_sub_cancel_right]

theorem mix1024_10_7_c (r : Fin 64) (s : S16) : mix1024_10_7 r (dmix1024_10_7 r s) = s := by
  cases s
  simp only [mix1024_10_7, dmix1024_10_7, sub_add_cancel, rotL_rotR, wxor_cancel_right]

theorem dmix1024_12_3_c (r : Fin 64) (s : S16) : dmix1024_12_3 r (mix1024_12_3 r s) = s := by
  cases s
  simp only [mix1024_12_3, dmix1024_12_3, wxor_cancel_right, rotR_rotL, add_sub_cancel_right]

theorem mix1024_12_3_c (r : Fin 64) (s : S16) : mix1024_12_3 r (dmix1024_12_3 r s) = s := by
  cases s
  simp only [mix1024_12_3, dmix1024_12_3, sub_add_cancel, rotL_rotR, wxor_cancel_right]

theorem dmix1024_14_5_c (r : Fin 64) (s : S16) : dmix1024_14_5 r (mix1024_14_5 r s) = s := by
  cases s
  simp only [mix1024_14_5, dmix1024_14_5, wxor_cancel_right, rotR_rotL, add_sub_cancel_right]

theorem mix1024_14_5_c (r : Fin 64) (s : S16) : mix1024_14_5 r (dmix1024_14_5 r s) = s := by
  cases s
  simp only [mix1024_14_5, dmix1024_14_5, sub_add_cancel, rotL_rotR, wxor_cancel_right]

theorem dmix1024_8_1_c (r : Fin 64) (s : S16) : dmix1024_8_1 r (mix1024_8_1 r s) = s := by
  cases s
  simp only [mix1024_8_1, dmix1024_8_1, wxor_cancel_right, rotR_rotL, add_sub_cancel_right]

theorem mix1024_8_1_c (r : Fin 64) (s : S16) : mix1024_8_1 r (dmix1024_8_1 r s) = s := by
  cases s
  simp only [mix1024_8_1, dmix1024_8_1, sub_add_cancel, rotL_rotR, wxor_cancel_right]

theorem dmix1024_0_7_c (r : Fin 64) (s : S16) : dmix1024_0_7 r (mix1024_0_7 r s) = s := by
  cases s
  simp only [mix1024_0_7, dmix1024_0_7, wxor_cancel_right, rotR_rotL, add_sub_cancel_right]

theorem mix1024_0_7_c (r : Fin 64) (s : S16) : mix1024_0_7 r (dmix1024_0_7 r s) = s := by
  cases s
  simp only [mix1024_0_7, dmix1024_0_7, sub_add_cancel, rotL_rotR, wxor_cancel_right]

theorem dmix1024_2_5_c (r : Fin 64) (s : S16) : dmix1024_2_5 r (mix1024_2_5 r s) = s := by
  cases s
  simp only [mix1024_2_5, dmix1024_2_5, wxor_cancel_right, rotR_rotL, add_sub_cancel_right]

theorem mix1024_2_5_c (r : Fin 64) (s : S16) : mix1024_2_5 r (dmix1024_2_5 r s) = s := by
  cases s
  simp only [mix1024_2_5, dmix1024_2_5, sub_add_cancel, rotL_rotR, wxor_cancel_right]

theorem dmix1024_4_3_c (r : Fin 64) (s : S16) : dmix1024_4_3 r (mix1024_4_3 r s) = s := by
  cases s
  simp only [mix1024_4_3, dmix1024_4_3, wxor_cancel_right, rotR_rotL, add_sub_cancel_right]

theorem mix1024_4_3_c (r : Fin 64) (s : S16) : mix1024_4_3 r (dmix1024_4_3 r s) = s := by
  cases s
  simp only [mix1024_4_3, dmix1024_4_3, sub_add_cancel, rotL_rotR, wxor_cancel_right]

theorem dmix1024_6_1_c (r : Fin 64) (s : S16) : dmix1024_6_1 r (mix1024_6_1 r s) = s := by
  cases s
  simp only [mix1024_6_1, dmix1024_6_1, wxor_cancel_right, rotR_rotL, add_sub_cancel_right]

theorem mix1024_6_1_c (r : Fin 64) (s : S16) : mix1024_6_1 r (dmix1024_6_1 r s) = s := by
  cases s
  simp only [mix1024_6_1, dmix1024_6_1, sub_add_cancel, rotL_rotR, wxor_cancel_right]

theorem dmix1024_12_15_c (r : Fin 64) (s : S16) : dmix1024_12_15 r (mix1024_12_15 r s) = s := by
  cases s
  simp only [mix1024_12_15, dmix1024_12_15, wxor_cancel_right, rotR_rotL, add_sub_cancel_right]

theorem mix1024_12_15_c (r : Fin 64) (s : S16) : mix1024_12_15 r (dmix1024_12_15 r s) = s := by
  cases s
  simp only [mix1024_12_15, dmix1024_12_15, sub_add_cancel, rotL_rotR, wxor_cancel_right]

theorem dmix1024_14_13_c (r : Fin 64) (s : S16) : dmix1024_14_13 r (mix1024_14_13 r s) = s := by
  cases s
  simp only [mix1024_14_13, dmix1024_14_13, wxor_cancel_right, rotR_rotL, add_sub_cancel_right]

theorem mix1024_14_13_c (r : Fin 64) (s : S16) : mix1024_14_13 r (dmix1024_14_13 r s) = s := by
  cases s
  simp only [mix1024_14_13, dmix1024_14_13, sub_add_cancel, rotL_rotR, wxor_cancel_right]

theorem dmix1024_8_11_c (r : Fin 64) (s : S16) : dmix1024_8_11 r (mix1024_8_11 r s) = s := by
  cases s
  simp only [mix1024_8_11, dmix1024_8_11, wxor_cancel_right, rotR_rotL, add_sub_cancel_right]

theorem mix1024_8_11_c (r : Fin 64) (s : S16) : mix1024_8_11 r (dmix1024_8_11 r s) = s := by
  cases s
  simp only [mix1024_8_11, dmix1024_8_11, sub_add_cancel, rotL_rotR, wxor_cancel_right]

theorem dmix1024_10_9_c (r : Fin 64) (s : S16) : dmix1024_10_9 r (mix1024_10_9 r s) = s := by
  cases s
  simp only [mix1024_10_9, dmix1024_10_9, wxor_cancel_right, rotR_rotL, add_sub_cancel_right]

theorem mix1024_10_9_c (r : Fin 64) (s : S16) : mix1024_10_9 r (dmix1024_10_9 r s) = s := by
  cases s
  simp only [mix1024_10_9, dmix1024_10_9, sub_add_cancel, rotL_rotR, wxor_cancel_right]

theorem dmix1024_0_15_c (r : Fin 64) (s : S16) : dmix1024_0_15 r (mix1024_0_15 r s) = s := by
  cases s
  simp only [mix1024_0_15, dmix1024_0_15, wxor_cancel_right, rotR_rotL, add_sub_cancel_right]

theorem mix1024_0_15_c (r : Fin 64) (s : S16) : mix1024_0_15 r (dmix1024_0_15 r s) = s := by
  cases s
  simp only [mix1024_0_15, dmix1024_0_15, sub_add_cancel, rotL_rotR, wxor_cancel_right]

theorem dmix1024_2_11_c (r : Fin 64) (s : S16) : dmix1024_2_11 r (mix1024_2_11 r s) = s := by
  cases s
  simp only [mix1024_2_11, dmix1024_2_11, wxor_cancel_right, rotR_rotL, add_sub_cancel_right]

theorem mix1024_2_11_c (r : Fin 64) (s : S16) : mix1024_2_11 r (dmix1024_2_11 r s) = s := by
  cases s
  simp only [mix1024_2_11, dmix1024_2_11, sub_add_cancel, rotL_rotR, wxor_cancel_right]

theorem dmix1024_6_13_c (r : Fin 64) (s : S16) : dmix1024_6_13 r (mix1024_6_13 r s) = s := by
  cases s
  simp only [mix1024_6_13, dmix1024_6_13, wxor_cancel_right, rotR_rotL, add_sub_cancel_right]

theorem mix1024_6_13_c (r : Fin 64) (s : S16) : mix1024_6_13 r (dmix1024_6_13 r s) = s := by
  cases s
  simp only [mix1024_6_13, dmix1024_6_13, sub_add_cancel, rotL_rotR, wxor_cancel_right]

theorem dmix1024_4_9_c (r : Fin 64) (s : S16) : dmix1024_4_9 r (mix1024_4_9 r s) = s := by
  cases s
  simp only [mix1024_4_9, dmix1024_4_9, wxor_cancel_right, rotR_rotL, add_sub_cancel_right]

theorem mix1024_4_9_c (r : Fin 64) (s : S16) : mix1024_4_9 r (dmix1024_4_9 r s) = s := by
  cases s
  simp only [mix1024_4_9, dmix1024_4_9, sub_add_cancel, rotL_rotR, wxor_cancel_right]

theorem dmix1024_14_1_c (r : Fin 64) (s : S16) : dmix1024_14_1 r (mix1024_14_1 r s) = s := by
  cases s
  simp only [mix1024_14_1, dmix1024_14_1, wxor_cancel_right, rotR_rotL, add_sub_cancel_right]

theorem mix1024_14_1_c (r : Fin 64) (s : S16) : mix1024_14_1 r (dmix1024_14_1 r s) = s := by
  cases s
  simp only [mix1024_14_1, dmix1024_14_1, sub_add_cancel, rotL_rotR, wxor_cancel_right]

theorem dmix1024_8_5_c (r : Fin 64) (s : S16) : dmix1024_8_5 r (mix1024_8_5 r s) = s := by
  cases s
  simp only [mix1024_8_5, dmix1024_8_5, wxor_cancel_right, rotR_rotL, add_sub_cancel_right]

theorem mix1024_8_5_c (r : Fin 64) (s : S16) : mix1024_8_5 r (dmix1024_8_5 r s) = s := by
  cases s
  simp only [mix1024_8_5, dmix1024_8_5, sub_add_cancel, rotL_rotR, wxor_cancel_right]

theorem dmix1024_10_3_c (r : Fin 64) (s : S16) : dmix1024_10_3 r (mix1024_10_3 r s) = s := by
  cases s
  simp only [mix1024_10_3, dmix1024_10_3, wxor_cancel_right, rotR_rotL, add_sub_cancel_right]

theorem mix1024_10_3_c (r : Fin 64) (s : S16) : mix1024_10_3 r (dmix1024_10_3 r s) = s := by
  cases s
  simp only [mix1024_10_3, dmix1024_10_3, sub_add_cancel, rotL_rotR, wxor_cancel_right]

theorem dmix1024_12_7_c (r : Fin 64) (s : S16) : dmix1024_12_7 r (mix1024_12_7 r s) = s := by
  cases s
  simp only [mix1024_12_7, dmix1024_12_7, wxor_cancel_right, rotR_rotL, add_sub_cancel_right]

theorem mix1024_12_7_c (r : Fin 64) (s : S16) : mix1024_12_7 r (dmix1024_12_7 r s) = s := by
  cases s
  simp only [mix1024_12_7, dmix1024_12_7, sub_add_cancel, rotL_rotR, wxor_cancel_right]

theorem dimix1024_0_1_c (k0x k1x : Word) (r : Fin 64) (s : S16) :
    dimix1024_0_1 k0x k1x r (imix1024_0_1 k0x k1x r s) = s := by
  cases s
  simp only [imix1024_0_1, dimix1024_0_1, wxor_cancel_right, rotR_rotL, add_sub_cancel_right]

theorem imix1024_0_1_c (k0x k1x : Word) (r : Fin 64) (s : S16) :
    imix1024_0_1 k0x k1x r (dimix1024_0_1 k0x k1x r s) = s := by
  cases s
  simp only [imix1024_0_1, dimix1024_0_1, sub_add_cancel, rotL_rotR, wxor_cancel_right]

theorem dimix1024_2_3_c (k2x k3x : Word) (r : Fin 64) (s : S16) :
    dimix1024_2_3 k2x k3x r (imix1024_2_3 k2x k3x r s) = s := by
  cases s
  simp only [imix1024_2_3, dimix1024_2_3, wxor_cancel_right, rotR_rotL, add_sub_cancel_right]

theorem imix1024_2_3_c (k2x k3x : Word) (r : Fin 64) (s : S16) :
    imix1024_2_3 k2x k3x r (dimix1024_2_3 k2x k3x r s) = s := by
  cases s
  simp only [imix1024_2_3, dimix1024_2_3, sub_add_cancel, rotL_rotR, wxor_cancel_right]

theorem dimix1024_4_5_c (k4x k5x : Word) (r : Fin 64) (s : S16) :
    dimix1024_4_5 k4x k5x r (imix1024_4_5 k4x k5x r s) = s := by
  cases s
  simp only [imix1024_4_5, dimix1024_4_5, wxor_cancel_right, rotR_rotL, add_sub_cancel_right]

theorem imix1024_4_5_c (k4x k5x : Word) (r : Fin 64) (s : S16) :
    imix1024_4_5 k4x k5x r (dimix1024_4_5 k4x k5x r s) = s := by
  cases s
  simp only [imix1024_4_5, dimix1024_4_5, sub_add_cancel, rotL_rotR, wxor_cancel_right]

theorem dimix1024_6_7_c (k6x k7x : Word) (r : Fin 64) (s : S16) :
    dimix1024_6_7 k6x k7x r (imix1024_6_7 k6x k7x r s) = s := by
  cases s
  simp only [imix1024_6_7, dimix1024_6_7, wxor_cancel_right, rotR_rotL, add_sub_cancel_right]

theorem imix1024_6_7_c (k6x k7x : Word) (r : Fin 64) (s : S16) :
    imix1024_6_7 k6x k7x r (dimix1024_6_7 k6x k7x r s) = s := by
  cases s
  simp only [imix1024_6_7, dimix1024_6_7, sub_add_cancel, rotL_rotR, wxor_cancel_right]

theorem dimix1024_8_9_c (k8x k9x : Word) (r : Fin 64) (s : S16) :
    dimix1024_8_9 k8x k9x r (imix1024_8_9 k8x k9x r s) = s := by
  cases s
  simp only [imix1024_8_9, dimix1024_8_9, wxor_cancel_right, rotR_rotL, add_sub_cancel_right]

theorem imix1024_8_9_c (k8x k9x : Word) (r : Fin 64) (s : S16) :
    imix1024_8_9 k8x k9x r (dimix1024_8_9 k8x k9x r s) = s := by
  cases s
  simp only [imix1024_8_9, dimix1024_8_9, sub_add_cancel, rotL_rotR, wxor_cancel_right]

theorem dimix1024_10_11_c (k10x k11x : Word) (r : Fin 64) (s : S16) :
    dimix1024_10_11 k10x k11x r (imix1024_10_11 k10x k11x r s) = s := by
  cases s
  simp only [imix1024_10_11, dimix1024_10_11, wxor_cancel_right, rotR_rotL, add_sub_cancel_right]

theorem imix1024_10_11_c (k10x k11x : Word) (r : Fin 64) (s : S16) :
    imix1024_10_11 k10x k11x r (dimix1024_10_11 k10x k11x r s) = s := by
  cases s
  simp only [imix1024_10_11, dimix1024_10_11, sub_add_cancel, rotL_rotR, wxor_cancel_right]

theorem dimix1024_12_13_c (k12x k13x tX : Word) (r : Fin 64) (s : S16) :
    dimix1024_12_13 k12x k13x tX r (imix1024_12_13 k12x k13x tX r s) = s := by
  cases s
  simp only [imix1024_12_13, dimix1024_12_13, wxor_cancel_right, rotR_rotL, add_sub_cancel_right]

theorem imix1024_12_13_c (k12x k13x tX : Word) (r : Fin 64) (s : S16) :
    imix1024_12_13 k12x k13x tX r (dimix1024_12_13 k12x k13x tX r s) = s := by
  cases s
  simp only [imix1024_12_13, dimix1024_12_13, sub_add_cancel, rotL_rotR, wxor_cancel_right]

theorem dimix1024_14_15_c (k14x k15x sX tY : Word) (r : Fin 64) (s : S16) :
    dimix1024_14_15 k14x k15x sX tY r (imix1024_14_15 k14x k15x sX tY r s) = s := by
  cases s
  simp only [imix1024_14_15, dimix1024_14_15, wxor_cancel_right, rotR_rotL, add_sub_cancel_right]

theorem imix1024_14_15_c (k14x k15x sX tY : Word) (r : Fin 64) (s : S16) :
    imix1024_14_15 k14x k15x sX tY r (dimix1024_14_15 k14x k15x sX tY r s) = s := by
  cases s
  simp only [imix1024_14_15, dimix1024_14_15, sub_add_cancel, rotL_rotR, wxor_cancel_right]

theorem dinj1024_c (a0 a1 a2 a3 a4 a5 a6 a7 a8 a9 a10 a11 a12 a13 a14 a15 : Word) (s : S16) : dinj1024 a0 a1 a2 a3 a4 a5 a6 a7 a8 a9 a10 a11 a12 a13 a14 a15 (einj1024 a0 a1 a2 a3 a4 a5 a6 a7 a8 a9 a10 a11 a12 a13 a14 a15 s) = s := by
  cases s
  simp only [einj1024, dinj1024, add_sub_cancel_right]

theorem einj1024_c (a0 a1 a2 a3 a4 a5 a6 a7 a8 a9 a10 a11 a12 a13 a14 a15 : Word) (s : S16) : einj1024 a0 a1 a2 a3 a4 a5 a6 a7 a8 a9 a10 a11 a12 a13 a14 a15 (dinj1024 a0 a1 a2 a3 a4 a5 a6 a7 a8 a9 a10 a11 a12 a13 a14 a15 s) = s := by
  cases s
  simp only [einj1024, dinj1024, sub_add_cancel]

/-- One four-round key-injection cycle of threefish1024.encrypt: the subkey
injection merged into the first round followed by three further rounds,
exactly as the statements appear in the Go source. -/
def cyc1024 (r0 r1 r2 r3 r4 r5 r6 r7 r8 r9 r10 r11 r12 r13 r14 r15 r16 r17 r18 r19 r20 r21 r22 r23 r24 r25 r26 r27 r28 r29 r30 r31 : Fin 64) (a0 a1 a2 a3 a4 a5 a6 a7 a8 a9 a10 a11 a12 a13 a14 a15 tA tB sN : Word) (s : S16) : S16 :=
  s |> imix1024_0_1 a0 a1 r0
    |> imix1024_2_3 a2 a3 r1
    |> imix1024_4_5 a4 a5 r2
    |> imix1024_6_7 a6 a7 r3
    |> imix1024_8_9 a8 a9 r4
    |> imix1024_10_11 a10 a11 r5
    |> imix1024_12_13 a12 a13 tA r6
    |> imix1024_14_15 a14 a15 sN tB r7
    |> mix1024_0_9 r8
    |> mix1024_2_13 r9
    |> mix1024_6_11 r10
    |> mix1024_4_15 r11
    |> mix1024_10_7 r12
    |> mix1024_12_3 r13
    |> mix1024_14_5 r14
    |> mix1024_8_1 r15
    |> mix1024_0_7 r16
    |> mix1024_2_5 r17
    |> mix1024_4_3 r18
    |> mix1024_6_1 r19
    |> mix1024_12_15 r20
    |> mix1024_14_13 r21
    |> mix1024_8_11 r22
    |> mix1024_10_9 r23
    |> mix1024_0_15 r24
    |> mix1024_2_11 r25
    |> mix1024_6_13 r26
    |> mix1024_4_9 r27
    |> mix1024_14_1 r28
    |> mix1024_8_5 r29
    |> mix1024_10_3 r30
    |> mix1024_12_7 r31

/-- The segment of threefish1024.decrypt that inverts one cycle, with the
statements in the order of the Go source. -/
def dcyc1024 (r0 r1 r2 r3 r4 r5 r6 r7 r8 r9 r10 r11 r12 r13 r14 r15 r16 r17 r18 r19 r20 r21 r22 r23 r24 r25 r26 r27 r28 r29 r30 r31 : Fin 64) (a0 a1 a2 a3 a4 a5 a6 a7 a8 a9 a10 a11 a12 a13 a14 a15 tA tB sN : Word) (s : S16) : S16 :=
  s |> dmix1024_12_7 r31
    |> dmix1024_10_3 r30
    |> dmix1024_8_5 r29
    |> dmix1024_14_1 r28
    |> dmix1024_4_9 r27
    |> dmix1024_6_13 r26
    |> dmix1024_2_11 r25
    |> dmix1024_0_15 r24
    |> dmix1024_10_9 r23
    |> dmix1024_8_11 r22
    |> dmix1024_14_13 r21
    |> dmix1024_12_15 r20
    |> dmix1024_6_1 r19
    |> dmix1024_4_3 r18
    |> dmix1024_2_5 r17
    |> dmix1024_0_7 r16
    |> dmix1024_8_1 r15
    |> dmix1024_14_5 r14
    |> dmix1024_12_3 r13
    |> dmix1024_10_7 r12
    |> dmix1024_4_15 r11
    |> dmix1024_6_11 r10
    |> dmix1024_2_13 r9
    |> dmix1024_0_9 r8
    |> dimix1024_14_15 a14 a15 sN tB r7
    |> dimix1024_12_13 a12 a13 tA r6
    |> dimix1024_10_11 a10 a11 r5
    |> dimix1024_8_9 a8 a9 r4
    |> dimix1024_6_7 a6 a7 r3
    |> dimix1024_4_5 a4 a5 r2
    |> dimix1024_2_3 a2 a3 r1
    |> dimix1024_0_1 a0 a1 r0

theorem dcyc1024_cyc (r0 r1 r2 r3 r4 r5 r6 r7 r8 r9 r10 r11 r12 r13 r14 r15 r16 r17 r18 r19 r20 r21 r22 r23 r24 r25 r26 r27 r28 r29 r30 r31 : Fin 64) (a0 a1 a2 a3 a4 a5 a6 a7 a8 a9 a10 a11 a12 a13 a14 a15 tA tB sN : Word) (s : S16) :
    dcyc1024 r0 r1 r2 r3 r4 r5 r6 r7 r8 r9 r10 r11 r12 r13 r14 r15 r16 r17 r18 r19 r20 r21 r22 r23 r24 r25 r26 r27 r28 r29 r30 r31 a0 a1 a2 a3 a4 a5 a6 a7 a8 a9 a10 a11 a12 a13 a14 a15 tA tB sN
      (cyc1024 r0 r1 r2 r3 r4 r5 r6 r7 r8 r9 r10 r11 r12 r13 r14 r15 r16 r17 r18 r19 r20 r21 r22 r23 r24 r25 r26 r27 r28 r29 r30 r31 a0 a1 a2 a3 a4 a5 a6 a7 a8 a9 a10 a11 a12 a13 a14 a15 tA tB sN s) = s := by
  simp only [cyc1024, dcyc1024, dmix1024_0_9_c, dmix1024_2_13_c, dmix1024_6_11_c, dmix1024_4_15_c, dmix1024_10_7_c, dmix1024_12_3_c, dmix1024_14_5_c, dmix1024_8_1_c, dmix1024_0_7_c, dmix1024_2_5_c, dmix1024_4_3_c, dmix1024_6_1_c, dmix1024_12_15_c, dmix1024_14_13_c, dmix1024_8_11_c, dmix1024_10_9_c, dmix1024_0_15_c, dmix1024_2_11_c, dmix1024_6_13_c, dmix1024_4_9_c, dmix1024_14_1_c, dmix1024_8_5_c, dmix1024_10_3_c, dmix1024_12_7_c, dimix1024_0_1_c, dimix1024_2_3_c, dimix1024_4_5_c, dimix1024_6_7_c, dimix1024_8_9_c, dimix1024_10_11_c, dimix1024_12_13_c, dimix1024_14_15_c]

theorem cyc1024_dcyc (r0 r1 r2 r3 r4 r5 r6 r7 r8 r9 r10 r11 r12 r13 r14 r15 r16 r17 r18 r19 r20 r21 r22 r23 r24 r25 r26 r27 r28 r29 r30 r31 : Fin 64) (a0 a1 a2 a3 a4 a5 a6 a7 a8 a9 a10 a11 a12 a13 a14 a15 tA tB sN : Word) (s : S16) :
    cyc1024 r0 r1 r2 r3 r4 r5 r6 r7 r8 r9 r10 r11 r12 r13 r14 r15 r16 r17 r18 r19 r20 r21 r22 r23 r24 r25 r26 r27 r28 r29 r30 r31 a0 a1 a2 a3 a4 a5 a6 a7 a8 a9 a10 a11 a12 a13 a14 a15 tA tB sN
      (dcyc1024 r0 r1 r2 r3 r4 r5 r6 r7 r8 r9 r10 r11 r12 r13 r14 r15 r16 r17 r18 r19 r20 r21 r22 r23 r24 r25 r26 r27 r28 r29 r30 r31 a0 a1 a2 a3 a4 a5 a6 a7 a8 a9 a10 a11 a12 a13 a14 a15 tA tB sN s) = s := by
  simp only [cyc1024, dcyc1024, mix1024_0_9_c, mix1024_2_13_c, mix1024_6_11_c, mix1024_4_15_c, mix1024_10_7_c, mix1024_12_3_c, mix1024_14_5_c, mix1024_8_1_c, mix1024_0_7_c, mix1024_2_5_c, mix1024_4_3_c, mix1024_6_1_c, mix1024_12_15_c, mix1024_14_13_c, mix1024_8_11_c, mix1024_10_9_c, mix1024_0_15_c, mix1024_2_11_c, mix1024_6_13_c, mix1024_4_9_c, mix1024_14_1_c, mix1024_8_5_c, mix1024_10_3_c, mix1024_12_7_c, imix1024_0_1_c, imix1024_2_3_c, imix1024_4_5_c, imix1024_6_7_c, imix1024_8_9_c, imix1024_10_11_c, imix1024_12_13_c, imix1024_14_15_c]

/-- State of the Go struct threefish1024: the expanded tweak (3 words) and the
expanded key (17 words).  The scratch buffers tmpData1/tmpData2 hold no
algorithmic state and are not modelled. -/
structure threefish1024 where
  expanedTweak : List Word
  expanedKey : List Word
deriving DecidableEq

def threefish1024.setTweak (tf : threefish1024) (tweak : Option (List Word)) : threefish1024 :=
  { tf with expanedTweak := setTweakGo tweak tf.expanedTweak }

/-- Go threefish1024.setKey: runs the shared setKey helper over the 17-word
expanded-key array; the loop reads key[0..15], so a shorter key faults
(modelled as none).  No KeySizeError is ever produced here. -/
def threefish1024.setKey (tf : threefish1024) (key : List Word) : Option threefish1024 :=
  if 16 ≤ key.length then some { tf with expanedKey := setKeyGo key 16 } else none

/-- Go newThreefish1024: zeroed struct, tweak expanded, parity word
preset to KEY_SCHEDULE_CONST, then the key bytes (if any) are decoded to
words and expanded. -/
def newThreefish1024 (key : Option (List Byte)) (tweak : Option (List Word)) : threefish1024 :=
  let c : threefish1024 :=
    { expanedTweak := setTweakGo tweak [0, 0, 0],
      expanedKey := List.replicate 16 0 ++ [KEY_SCHEDULE_CONST] }
  match key with
  | none => c
  | some kb => { c with expanedKey := setKeyGo (loadWords kb 16) 16 }

def newThreefish1024_64 (key : List Word) (tweak : Option (List Word)) : threefish1024 :=
  let c : threefish1024 :=
    { expanedTweak := setTweakGo tweak [0, 0, 0],
      expanedKey := List.replicate 16 0 ++ [KEY_SCHEDULE_CONST] }
  { c with expanedKey := setKeyGo key 16 }

/-- Word-level threefish1024.encrypt: the block is the 16-tuple of local
variables b0..b15 of the Go source; each cyc1024 call is one key-injection
cycle (4 rounds) with the subkey/tweak/counter arguments read off the
corresponding Go statements, and einj1024 is the final output injection. -/
def threefish1024.encrypt (tf : threefish1024) (input : S16) : S16 :=
  let k0 := tf.expanedKey.getD 0 0
  let k1 := tf.expanedKey.getD 1 0
  let k2 := tf.expanedKey.getD 2 0
  let k3 := tf.expanedKey.getD 3 0
  let k4 := tf.expanedKey.getD 4 0
  let k5 := tf.expanedKey.getD 5 0
  let k6 := tf.expanedKey.getD 6 0
  let k7 := tf.expanedKey.getD 7 0
  let k8 := tf.expanedKey.getD 8 0
  let k9 := tf.expanedKey.getD 9 0
  let k10 := tf.expanedKey.getD 10 0
  let k11 := tf.expanedKey.getD 11 0
  let k12 := tf.expanedKey.getD 12 0
  let k13 := tf.expanedKey.getD 13 0
  let k14 := tf.expanedKey.getD 14 0
  let k15 := tf.expanedKey.getD 15 0
  let k16 := tf.expanedKey.getD 16 0
  let t0 := tf.expanedTweak.getD 0 0
  let t1 := tf.expanedTweak.getD 1 0
  let t2 := tf.expanedTweak.getD 2 0
  input
    |> cyc1024 24 13 8 47 8 17 22 37 38 19 10 55 49 18 23 52 33 4 51 13 34 41 59 17 5 20 48 41 47 28 16 25  k0 k1 k2 k3 k4 k5 k6 k7 k8 k9 k10 k11 k12 k13 k14 k15 t0 t1 0
    |> cyc1024 41 9 37 31 12 47 44 30 16 34 56 51 4 53 42 41 31 44 47 46 19 42 44 25 9 48 35 52 23 31 37 20  k1 k2 k3 k4 k5 k6 k7 k8 k9 k10 k11 k12 k13 k14 k15 k16 t1 t2 1
    |> cyc1024 24 13 8 47 8 17 22 37 38 19 10 55 49 18 23 52 33 4 51 13 34 41 59 17 5 20 48 41 47 28 16 25  k2 k3 k4 k5 k6 k7 k8 k9 k10 k11 k12 k13 k14 k15 k16 k0 t2 t0 2
    |> cyc1024 41 9 37 31 12 47 44 30 16 34 56 51 4 53 42 41 31 44 47 46 19 42 44 25 9 48 35 52 23 31 37 20  k3 k4 k5 k6 k7 k8 k9 k10 k11 k12 k13 k14 k15 k16 k0 k1 t0 t1 3
    |> cyc1024 24 13 8 47 8 17 22 37 38 19 10 55 49 18 23 52 33 4 51 13 34 41 59 17 5 20 48 41 47 28 16 25  k4 k5 k6 k7 k8 k9 k10 k11 k12 k13 k14 k15 k16 k0 k1 k2 t1 t2 4
    |> cyc1024 41 9 37 31 12 47 44 30 16 34 56 51 4 53 42 41 31 44 47 46 19 42 44 25 9 48 35 52 23 31 37 20  k5 k6 k7 k8 k9 k10 k11 k12 k13 k14 k15 k16 k0 k1 k2 k3 t2 t0 5
    |> cyc1024 24 13 8 47 8 17 22 37 38 19 10 55 49 18 23 52 33 4 51 13 34 41 59 17 5 20 48 41 47 28 16 25  k6 k7 k8 k9 k10 k11 k12 k13 k14 k15 k16 k0 k1 k2 k3 k4 t0 t1 6
    |> cyc1024 41 9 37 31 12 47 44 30 16 34 56 51 4 53 42 41 31 44 47 46 19 42 44 25 9 48 35 52 23 31 37 20  k7 k8 k9 k10 k11 k12 k13 k14 k15 k16 k0 k1 k2 k3 k4 k5 t1 t2 7
    |> cyc1024 24 13 8 47 8 17 22 37 38 19 10 55 49 18 23 52 33 4 51 13 34 41 59 17 5 20 48 41 47 28 16 25  k8 k9 k10 k11 k12 k13 k14 k15 k16 k0 k1 k2 k3 k4 k5 k6 t2 t0 8
    |> cyc1024 41 9 37 31 12 47 44 30 16 34 56 51 4 53 42 41 31 44 47 46 19 42 44 25 9 48 35 52 23 31 37 20  k9 k10 k11 k12 k13 k14 k15 k16 k0 k1 k2 k3 k4 k5 k6 k7 t0 t1 9
    |> cyc1024 24 13 8 47 8 17 22 37 38 19 10 55 49 18 23 52 33 4 51 13 34 41 59 17 5 20 48 41 47 28 16 25  k10 k11 k12 k13 k14 k15 k16 k0 k1 k2 k3 k4 k5 k6 k7 k8 t1 t2 10
    |> cyc1024 41 9 37 31 12 47 44 30 16 34 56 51 4 53 42 41 31 44 47 46 19 42 44 25 9 48 35 52 23 31 37 20  k11 k12 k13 k14 k15 k16 k0 k1 k2 k3 k4 k5 k6 k7 k8 k9 t2 t0 11
    |> cyc1024 24 13 8 47 8 17 22 37 38 19 10 55 49 18 23 52 33 4 51 13 34 41 59 17 5 20 48 41 47 28 16 25  k12 k13 k14 k15 k16 k0 k1 k2 k3 k4 k5 k6 k7 k8 k9 k10 t0 t1 12
    |> cyc1024 41 9 37 31 12 47 44 30 16 34 56 51 4 53 42 41 31 44 47 46 19 42 44 25 9 48 35 52 23 31 37 20  k13 k14 k15 k16 k0 k1 k2 k3 k4 k5 k6 k7 k8 k9 k10 k11 t1 t2 13
    |> cyc1024 24 13 8 47 8 17 22 37 38 19 10 55 49 18 23 52 33 4 51 13 34 41 59 17 5 20 48 41 47 28 16 25  k14 k15 k16 k0 k1 k2 k3 k4 k5 k6 k7 k8 k9 k10 k11 k12 t2 t0 14
    |> cyc1024 41 9 37 31 12 47 44 30 16 34 56 51 4 53 42 41 31 44 47 46 19 42 44 25 9 48 35 52 23 31 37 20  k15 k16 k0 k1 k2 k3 k4 k5 k6 k7 k8 k9 k10 k11 k12 k13 t0 t1 15
    |> cyc1024 24 13 8 47 8 17 22 37 38 19 10 55 49 18 23 52 33 4 51 13 34 41 59 17 5 20 48 41 47 28 16 25  k16 k0 k1 k2 k3 k4 k5 k6 k7 k8 k9 k10 k11 k12 k13 k14 t1 t2 16
    |> cyc1024 41 9 37 31 12 47 44 30 16 34 56 51 4 53 42 41 31 44 47 46 19 42 44 25 9 48 35 52 23 31 37 20  k0 k1 k2 k3 k4 k5 k6 k7 k8 k9 k10 k11 k12 k13 k14 k15 t2 t0 17
    |> cyc1024 24 13 8 47 8 17 22 37 38 19 10 55 49 18 23 52 33 4 51 13 34 41 59 17 5 20 48 41 47 28 16 25  k1 k2 k3 k4 k5 k6 k7 k8 k9 k10 k11 k12 k13 k14 k15 k16 t0 t1 18
    |> cyc1024 41 9 37 31 12 47 44 30 16 34 56 51 4 53 42 41 31 44 47 46 19 42 44 25 9 48 35 52 23 31 37 20  k2 k3 k4 k5 k6 k7 k8 k9 k10 k11 k12 k13 k14 k15 k16 k0 t1 t2 19
    |> einj1024 k3 k4 k5 k6 k7 k8 k9 k10 k11 k12 k13 k14 k15 (k16 + t2) (k0 + t0) (k1 + 20)

/-- Word-level threefish1024.decrypt, transcribed in the same way. -/
def threefish1024.decrypt (tf : threefish1024) (input : S16) : S16 :=
  let k0 := tf.expanedKey.getD 0 0
  let k1 := tf.expanedKey.getD 1 0
  let k2 := tf.expanedKey.getD 2 0
  let k3 := tf.expanedKey.getD 3 0
  let k4 := tf.expanedKey.getD 4 0
  let k5 := tf.expanedKey.getD 5 0
  let k6 := tf.expanedKey.getD 6 0
  let k7 := tf.expanedKey.getD 7 0
  let k8 := tf.expanedKey.getD 8 0
  let k9 := tf.expanedKey.getD 9 0
  let k10 := tf.expanedKey.getD 10 0
  let k11 := tf.expanedKey.getD 11 0
  let k12 := tf.expanedKey.getD 12 0
  let k13 := tf.expanedKey.getD 13 0
  let k14 := tf.expanedKey.getD 14 0
  let k15 := tf.expanedKey.getD 15 0
  let k16 := tf.expanedKey.getD 16 0
  let t0 := tf.expanedTweak.getD 0 0
  let t1 := tf.expanedTweak.getD 1 0
  let t2 := tf.expanedTweak.getD 2 0
  input
    |> dinj1024 k3 k4 k5 k6 k7 k8 k9 k10 k11 k12 k13 k14 k15 (k16 + t2) (k0 + t0) (k1 + 20)
    |> dcyc1024 41 9 37 31 12 47 44 30 16 34 56 51 4 53 42 41 31 44 47 46 19 42 44 25 9 48 35 52 23 31 37 20  k2 k3 k4 k5 k6 k7 k8 k9 k10 k11 k12 k13 k14 k15 k16 k0 t1 t2 19
    |> dcyc1024 24 13 8 47 8 17 22 37 38 19 10 55 49 18 23 52 33 4 51 13 34 41 59 17 5 20 48 41 47 28 16 25  k1 k2 k3 k4 k5 k6 k7 k8 k9 k10 k11 k12 k13 k14 k15 k16 t0 t1 18
    |> dcyc1024 41 9 37 31 12 47 44 30 16 34 56 51 4 53 42 41 31 44 47 46 19 42 44 25 9 48 35 52 23 31 37 20  k0 k1 k2 k3 k4 k5 k6 k7 k8 k9 k10 k11 k12 k13 k14 k15 t2 t0 17
    |> dcyc1024 24 13 8 47 8 17 22 37 38 19 10 55 49 18 23 52 33 4 51 13 34 41 59 17 5 20 48 41 47 28 16 25  k16 k0 k1 k2 k3 k4 k5 k6 k7 k8 k9 k10 k11 k12 k13 k14 t1 t2 16
    |> dcyc1024 41 9 37 31 12 47 44 30 16 34 56 51 4 53 42 41 31 44 47 46 19 42 44 25 9 48 35 52 23 31 37 20  k15 k16 k0 k1 k2 k3 k4 k5 k6 k7 k8 k9 k10 k11 k12 k13 t0 t1 15
    |> dcyc1024 24 13 8 47 8 17 22 37 38 19 10 55 49 18 23 52 33 4 51 13 34 41 59 17 5 20 48 41 47 28 16 25  k14 k15 k16 k0 k1 k2 k3 k4 k5 k6 k7 k8 k9 k10 k11 k12 t2 t0 14
    |> dcyc1024 41 9 37 31 12 47 44 30 16 34 56 51 4 53 42 41 31 44 47 46 19 42 44 25 9 48 35 52 23 31 37 20  k13 k14 k15 k16 k0 k1 k2 k3 k4 k5 k6 k7 k8 k9 k10 k11 t1 t2 13
    |> dcyc1024 24 13 8 47 8 17 22 37 38 19 10 55 49 18 23 52 33 4 51 13 34 41 59 17 5 20 48 41 47 28 16 25  k12 k13 k14 k15 k16 k0 k1 k2 k3 k4 k5 k6 k7 k8 k9 k10 t0 t1 12
    |> dcyc1024 41 9 37 31 12 47 44 30 16 34 56 51 4 53 42 41 31 44 47 46 19 42 44 25 9 48 35 52 23 31 37 20  k11 k12 k13 k14 k15 k16 k0 k1 k2 k3 k4 k5 k6 k7 k8 k9 t2 t0 11
    |> dcyc1024 24 13 8 47 8 17 22 37 38 19 10 55 49 18 23 52 33 4 51 13 34 41 59 17 5 20 48 41 47 28 16 25  k10 k11 k12 k13 k14 k15 k16 k0 k1 k2 k3 k4 k5 k6 k7 k8 t1 t2 10
    |> dcyc1024 41 9 37 31 12 47 44 30 16 34 56 51 4 53 42 41 31 44 47 46 19 42 44 25 9 48 35 52 23 31 37 20  k9 k10 k11 k12 k13 k14 k15 k16 k0 k1 k2 k3 k4 k5 k6 k7 t0 t1 9
    |> dcyc1024 24 13 8 47 8 17 22 37 38 19 10 55 49 18 23 52 33 4 51 13 34 41 59 17 5 20 48 41 47 28 16 25  k8 k9 k10 k11 k12 k13 k14 k15 k16 k0 k1 k2 k3 k4 k5 k6 t2 t0 8
    |> dcyc1024 41 9 37 31 12 47 44 30 16 34 56 51 4 53 42 41 31 44 47 46 19 42 44 25 9 48 35 52 23 31 37 20  k7 k8 k9 k10 k11 k12 k13 k14 k15 k16 k0 k1 k2 k3 k4 k5 t1 t2 7
    |> dcyc1024 24 13 8 47 8 17 22 37 38 19 10 55 49 18 23 52 33 4 51 13 34 41 59 17 5 20 48 41 47 28 16 25  k6 k7 k8 k9 k10 k11 k12 k13 k14 k15 k16 k0 k1 k2 k3 k4 t0 t1 6
    |> dcyc1024 41 9 37 31 12 47 44 30 16 34 56 51 4 53 42 41 31 44 47 46 19 42 44 25 9 48 35 52 23 31 37 20  k5 k6 k7 k8 k9 k10 k11 k12 k13 k14 k15 k16 k0 k1 k2 k3 t2 t0 5
    |> dcyc1024 24 13 8 47 8 17 22 37 38 19 10 55 49 18 23 52 33 4 51 13 34 41 59 17 5 20 48 41 47 28 16 25  k4 k5 k6 k7 k8 k9 k10 k11 k12 k13 k14 k15 k16 k0 k1 k2 t1 t2 4
    |> dcyc1024 41 9 37 31 12 47 44 30 16 34 56 51 4 53 42 41 31 44 47 46 19 42 44 25 9 48 35 52 23 31 37 20  k3 k4 k5 k6 k7 k8 k9 k10 k11 k12 k13 k14 k15 k16 k0 k1 t0 t1 3
    |> dcyc1024 24 13 8 47 8 17 22 37 38 19 10 55 49 18 23 52 33 4 51 13 34 41 59 17 5 20 48 41 47 28 16 25  k2 k3 k4 k5 k6 k7 k8 k9 k10 k11 k12 k13 k14 k15 k16 k0 t2 t0 2
    |> dcyc1024 41 9 37 31 12 47 44 30 16 34 56 51 4 53 42 41 31 44 47 46 19 42 44 25 9 48 35 52 23 31 37 20  k1 k2 k3 k4 k5 k6 k7 k8 k9 k10 k11 k12 k13 k14 k15 k16 t1 t2 1
    |> dcyc1024 24 13 8 47 8 17 22 37 38 19 10 55 49 18 23 52 33 4 51 13 34 41 59 17 5 20 48 41 47 28 16 25  k0 k1 k2 k3 k4 k5 k6 k7 k8 k9 k10 k11 k12 k13 k14 k15 t0 t1 0

theorem threefish1024.decrypt_encrypt_1024 (tf : threefish1024) (p : S16) :
    threefish1024.decrypt tf (threefish1024.encrypt tf p) = p := by
  simp only [threefish1024.encrypt, threefish1024.decrypt, dinj1024_c, dcyc1024_cyc]

theorem threefish1024.encrypt_decrypt_1024 (tf : threefish1024) (p : S16) :
    threefish1024.encrypt tf (threefish1024.decrypt tf p) = p := by
  simp only [threefish1024.encrypt, threefish1024.decrypt, einj1024_c, cyc1024_dcyc]


/-! The Cipher facade (Go struct Cipher and its constructors/methods). -/

/-- List form of the S4 block, as read from / written to a uint64 slice. -/
def S4.toList (s : S4) : List Word := [s.b0, s.b1, s.b2, s.b3]

def S4.ofList (l : List Word) : S4 :=
  ⟨l.getD 0 0, l.getD 1 0, l.getD 2 0, l.getD 3 0⟩

def S8.toList (s : S8) : List Word :=
  [s.b0, s.b1, s.b2, s.b3, s.b4, s.b5, s.b6, s.b7]

def S8.ofList (l : List Word) : S8 :=
  ⟨l.getD 0 0, l.getD 1 0, l.getD 2 0, l.getD 3 0,
   l.getD 4 0, l.getD 5 0, l.getD 6 0, l.getD 7 0⟩

def S16.toList (s : S16) : List Word :=
  [s.b0, s.b1, s.b2, s.b3, s.b4, s.b5, s.b6, s.b7,
   s.b8, s.b9, s.b10, s.b11, s.b12, s.b13, s.b14, s.b15]

def S16.ofList (l : List Word) : S16 :=
  ⟨l.getD 0 0, l.getD 1 0, l.getD 2 0, l.getD 3 0,
   l.getD 4 0, l.getD 5 0, l.getD 6 0, l.getD 7 0,
   l.getD 8 0, l.getD 9 0, l.getD 10 0, l.getD 11 0,
   l.getD 12 0, l.getD 13 0, l.getD 14 0, l.getD 15 0⟩

/-- Go: type KeySizeError int (the error payload is the offending size). -/
abbrev KeySizeError : Type := Nat

/-- The Go interface cipherInternal, dispatching over the three variants;
modelled as a closed sum as the interface has exactly these implementations. -/
inductive cipherInternal where
  | tf256 : threefish256 → cipherInternal
  | tf512 : threefish512 → cipherInternal
  | tf1024 : threefish1024 → cipherInternal
deriving DecidableEq

/-- A Cipher is an instance of Threefish using a particular key and state
size (Go struct Cipher; stateSize is in bits). -/
structure Cipher where
  stateSize : Nat
  internal : cipherInternal
deriving DecidableEq

/-- The expanded key held by the variant internals. -/
def cipherInternal.expKey : cipherInternal → List Word
  | .tf256 tf => tf.expanedKey
  | .tf512 tf => tf.expanedKey
  | .tf1024 tf => tf.expanedKey

/-- The expanded tweak held by the variant internals. -/
def cipherInternal.expTweak : cipherInternal → List Word
  | .tf256 tf => tf.expanedTweak
  | .tf512 tf => tf.expanedTweak
  | .tf1024 tf => tf.expanedTweak

/-- The word count N of the variant (4, 8 or 16). -/
def cipherInternal.words : cipherInternal → Nat
  | .tf256 _ => 4
  | .tf512 _ => 8
  | .tf1024 _ => 16

def Cipher.expKey (c : Cipher) : List Word := c.internal.expKey

def Cipher.expTweak (c : Cipher) : List Word := c.internal.expTweak

def Cipher.words (c : Cipher) : Nat := c.internal.words

/-- Go NewCipher: selects the variant by the key length in bytes
(32/64/128); any other length yields KeySizeError(len(key)).  On success
stateSize = len(key) * 8 bits. -/
def NewCipher (key : List Byte) (tweak : Option (List Word)) :
    Except KeySizeError Cipher :=
  if key.length = 32 then
    .ok ⟨key.length * 8, .tf256 (newThreefish256 (some key) tweak)⟩
  else if key.length = 64 then
    .ok ⟨key.length * 8, .tf512 (newThreefish512 (some key) tweak)⟩
  else if key.length = 128 then
    .ok ⟨key.length * 8, .tf1024 (newThreefish1024 (some key) tweak)⟩
  else .error key.length

/-- Go NewCipher64: selects the variant by the key length in words
(4/8/16).  Note the Go source sets c.stateSize = len(key) * 8, i.e. it
treats the word count as a byte count. -/
def NewCipher64 (key : List Word) (tweak : Option (List Word)) :
    Except KeySizeError Cipher :=
  if key.length = 4 then
    .ok ⟨key.length * 8, .tf256 (newThreefish256_64 key tweak)⟩
  else if key.length = 8 then
    .ok ⟨key.length * 8, .tf512 (newThreefish512_64 key tweak)⟩
  else if key.length = 16 then
    .ok ⟨key.length * 8, .tf1024 (newThreefish1024_64 key tweak)⟩
  else .error key.length

/-- Go NewCipherSize: size-only constructor (no key material). -/
def NewCipherSize (size : Nat) : Except KeySizeError Cipher :=
  if size = 256 then .ok ⟨size, .tf256 (newThreefish256 none none)⟩
  else if size = 512 then .ok ⟨size, .tf512 (newThreefish512 none none)⟩
  else if size = 1024 then .ok ⟨size, .tf1024 (newThreefish1024 none none)⟩
  else .error size

/-- Go Cipher.BlockSize: the block size in bytes. -/
def Cipher.BlockSize (c : Cipher) : Nat := c.stateSize / 8

/-- Go Cipher.SetTweak: forwards to the variant setTweak. -/
def Cipher.SetTweak (c : Cipher) (tweak : Option (List Word)) : Cipher :=
  { c with internal :=
      match c.internal with
      | .tf256 tf => .tf256 (tf.setTweak tweak)
      | .tf512 tf => .tf512 (tf.setTweak tweak)
      | .tf1024 tf => .tf1024 (tf.setTweak tweak) }

/-- Go Cipher.SetKey: forwards to the variant setKey.  The Go method has no
return value and performs no size check; a key with fewer words than the
variant needs makes the underlying loop read out of range (modelled as
none). -/
def Cipher.SetKey (c : Cipher) (key : List Word) : Option Cipher :=
  match c.internal with
  | .tf256 tf => (tf.setKey key).map (fun tfx => { c with internal := .tf256 tfx })
  | .tf512 tf => (tf.setKey key).map (fun tfx => { c with internal := .tf512 tfx })
  | .tf1024 tf => (tf.setKey key).map (fun tfx => { c with internal := .tf1024 tfx })

/-- Writing a run of bytes into dst starting at a given offset, one
List.set per byte (the byte stores of binary.LittleEndian.PutUint64). -/
def writeBytes : List Byte → Nat → List Byte → List Byte
  | dst, _, [] => dst
  | dst, off, b :: bs => writeBytes (dst.set off b) (off + 1) bs

/-- The loop for i < uintLen { PutUint64(dst[i*8:i*8+8], w[i]) } of
Cipher.Encrypt/Decrypt, word by word. -/
def putWords : List Byte → Nat → List Word → List Byte
  | dst, _, [] => dst
  | dst, off, w :: ws => putWords (writeBytes dst off (store64 w)) (off + 8) ws

/-- The word-level output of the variant engines on a word list. -/
def cipherInternal.encrypt (ci : cipherInternal) (input : List Word) : List Word :=
  match ci with
  | .tf256 tf => (tf.encrypt (S4.ofList input)).toList
  | .tf512 tf => (tf.encrypt (S8.ofList input)).toList
  | .tf1024 tf => (tf.encrypt (S16.ofList input)).toList

def cipherInternal.decrypt (ci : cipherInternal) (input : List Word) : List Word :=
  match ci with
  | .tf256 tf => (tf.decrypt (S4.ofList input)).toList
  | .tf512 tf => (tf.decrypt (S8.ofList input)).toList
  | .tf1024 tf => (tf.decrypt (S16.ofList input)).toList

/-- Go Cipher.Encrypt: loads uintLen = stateSize/64 little-endian words from
src, encrypts, stores uintLen words into dst.  The scratch buffers tmpin
and tmpout of the source carry no observable state (every word used is
first written); they are modelled by the word list itself. -/
def Cipher.Encrypt (c : Cipher) (dst src : List Byte) : List Byte :=
  let uintLen := c.stateSize / 64
  let tmpin := (List.range uintLen).map (fun i => load64 src (8 * i))
  let tmpout := c.internal.encrypt tmpin
  putWords dst 0 (tmpout.take uintLen)

/-- Go Cipher.Decrypt, analogously. -/
def Cipher.Decrypt (c : Cipher) (dst src : List Byte) : List Byte :=
  let uintLen := c.stateSize / 64
  let tmpin := (List.range uintLen).map (fun i => load64 src (8 * i))
  let tmpout := c.internal.decrypt tmpin
  putWords dst 0 (tmpout.take uintLen)

/-- Go Cipher.Encrypt64: dst gets the word-level encryption of src. -/
def Cipher.Encrypt64 (c : Cipher) (src : List Word) : List Word :=
  c.internal.encrypt src

/-- Go Cipher.Decrypt64. -/
def Cipher.Decrypt64 (c : Cipher) (src : List Word) : List Word :=
  c.internal.decrypt src

/-! Claim theorems. -/

/-- C1: for every supported variant (Threefish-256/512/1024), every key,
every tweak, and every block b of N 64-bit words, the word-oriented
round-engine functions of a cipher holding that key and tweak satisfy
decrypt (encrypt b) = b and encrypt (decrypt b) = b.  The quantification
over the cipher state covers every expanded key and tweak, hence every
key/tweak pair. -/
theorem claim_C1_inverse_law :
    (∀ (tf : threefish256) (b : S4),
        tf.decrypt (tf.encrypt b) = b ∧ tf.encrypt (tf.decrypt b) = b) ∧
    (∀ (tf : threefish512) (b : S8),
        tf.decrypt (tf.encrypt b) = b ∧ tf.encrypt (tf.decrypt b) = b) ∧
    (∀ (tf : threefish1024) (b : S16),
        tf.decrypt (tf.encrypt b) = b ∧ tf.encrypt (tf.decrypt b) = b) :=
  ⟨fun tf b => ⟨tf.decrypt_encrypt_256 b, tf.encrypt_decrypt_256 b⟩,
   fun tf b => ⟨tf.decrypt_encrypt_512 b, tf.encrypt_decrypt_512 b⟩,
   fun tf b => ⟨tf.decrypt_encrypt_1024 b, tf.encrypt_decrypt_1024 b⟩⟩

/-- C4: for every supplied (non-nil) 2-word tweak, tweak expansion yields
expandedTweak = [t0, t1, t0 xor t1], both at construction (every
constructor form of every variant) and via SetTweak. -/
theorem claim_C4_tweak_expansion (t0 t1 : Word) :
    (∀ c : Cipher,
        (c.SetTweak (some [t0, t1])).expTweak = [t0, t1, wxor t0 t1]) ∧
    (∀ key : Option (List Byte),
        (newThreefish256 key (some [t0, t1])).expanedTweak = [t0, t1, wxor t0 t1] ∧
        (newThreefish512 key (some [t0, t1])).expanedTweak = [t0, t1, wxor t0 t1] ∧
        (newThreefish1024 key (some [t0, t1])).expanedTweak = [t0, t1, wxor t0 t1]) ∧
    (∀ key : List Word,
        (newThreefish256_64 key (some [t0, t1])).expanedTweak = [t0, t1, wxor t0 t1] ∧
        (newThreefish512_64 key (some [t0, t1])).expanedTweak = [t0, t1, wxor t0 t1] ∧
        (newThreefish1024_64 key (some [t0, t1])).expanedTweak = [t0, t1, wxor t0 t1]) := by
  refine ⟨fun c => ?_, fun key => ⟨?_, ?_, ?_⟩, fun key => ⟨?_, ?_, ?_⟩⟩
  · obtain ⟨ss, ci⟩ := c
    cases ci <;> rfl
  all_goals cases key <;> rfl

/-- C5 counterexample: passing a nil tweak to SetTweak does not produce the
all-zero expanded tweak; a cipher constructed with tweak [1, 2] keeps
[1, 2, 3] after SetTweak none. -/
theorem claim_C5_counterexample :
    (NewCipher64 [0, 0, 0, 0] (some [1, 2])).map
        (fun c => (c.SetTweak none).expTweak) = .ok [1, 2, 3] ∧
    ([1, 2, 3] : List Word) ≠ [0, 0, 0] := by
  constructor
  · rfl
  · decide

/-- C5 amended: an absent tweak at construction yields the all-zero
expanded tweak [0, 0, 0]; SetTweak with a nil tweak leaves the expanded
tweak of the cipher unchanged (so it is all-zero only if it already was). -/
theorem claim_C5_amended :
    (∀ key : Option (List Byte),
        (newThreefish256 key none).expanedTweak = [0, 0, 0] ∧
        (newThreefish512 key none).expanedTweak = [0, 0, 0] ∧
        (newThreefish1024 key none).expanedTweak = [0, 0, 0]) ∧
    (∀ key : List Word,
        (newThreefish256_64 key none).expanedTweak = [0, 0, 0] ∧
        (newThreefish512_64 key none).expanedTweak = [0, 0, 0] ∧
        (newThreefish1024_64 key none).expanedTweak = [0, 0, 0]) ∧
    (∀ c : Cipher, (c.SetTweak none).expTweak = c.expTweak) := by
  refine ⟨fun key => ⟨?_, ?_, ?_⟩, fun key => ⟨?_, ?_, ?_⟩, fun c => ?_⟩
  · cases key <;> rfl
  · cases key <;> rfl
  · cases key <;> rfl
  · rfl
  · rfl
  · rfl
  · obtain ⟨ss, ci⟩ := c
    cases ci <;> rfl

/-- C6: construction fails with KeySizeError exactly when the supplied size
is unsupported: NewCipher accepts byte lengths {32, 64, 128}, NewCipher64
accepts word counts {4, 8, 16}, NewCipherSize accepts {256, 512, 1024};
otherwise the returned error is KeySizeError of the offending size, and on
success a cipher is returned. -/
theorem claim_C6_size_rejection :
    (∀ (key : List Byte) (tweak : Option (List Word)),
        ((∃ c, NewCipher key tweak = .ok c) ↔
          key.length = 32 ∨ key.length = 64 ∨ key.length = 128) ∧
        (key.length ≠ 32 → key.length ≠ 64 → key.length ≠ 128 →
          NewCipher key tweak = .error key.length)) ∧
    (∀ (key : List Word) (tweak : Option (List Word)),
        ((∃ c, NewCipher64 key tweak = .ok c) ↔
          key.length = 4 ∨ key.length = 8 ∨ key.length = 16) ∧
        (key.length ≠ 4 → key.length ≠ 8 → key.length ≠ 16 →
          NewCipher64 key tweak = .error key.length)) ∧
    (∀ size : Nat,
        ((∃ c, NewCipherSize size = .ok c) ↔
          size = 256 ∨ size = 512 ∨ size = 1024) ∧
        (size ≠ 256 → size ≠ 512 → size ≠ 1024 →
          NewCipherSize size = .error size)) := by
  refine ⟨fun key tweak => ?_, fun key tweak => ?_, fun size => ?_⟩ <;>
    constructor <;>
    first
      | (intro h1 h2 h3
         simp only [NewCipher, NewCipher64, NewCipherSize, if_neg h1, if_neg h2, if_neg h3])
      | (constructor
         · rintro ⟨c, hc⟩
           by_contra hall
           push_neg at hall
           obtain ⟨hx1, hx2, hx3⟩ := hall
           simp only [NewCipher, NewCipher64, NewCipherSize,
             if_neg hx1, if_neg hx2, if_neg hx3] at hc
           exact Except.noConfusion hc
         · intro h
           rcases h with h | h | h <;>
             simp only [NewCipher, NewCipher64, NewCipherSize, h] <;>
             exact ⟨_, rfl⟩)

/-- C6 witness: a 33-byte key is rejected with KeySizeError 33 and a
32-byte key is accepted. -/
theorem claim_C6_size_rejection_w :
    NewCipher (List.replicate 33 0) none = .error 33 ∧
    (∃ c, NewCipher (List.replicate 32 0) none = .ok c) :=
  ⟨by
    have h := (claim_C6_size_rejection.1 (List.replicate 33 0) none).2
      (by decide) (by decide) (by decide)
    simpa using h,
   (claim_C6_size_rejection.1 (List.replicate 32 0) none).1.mpr (by decide)⟩

instance {ε α : Type} [DecidableEq ε] [DecidableEq α] : DecidableEq (Except ε α) := fun a b =>
  match a, b with
  | .ok x, .ok y =>
      if h : x = y then .isTrue (by rw [h]) else .isFalse (fun hc => h (Except.ok.inj hc))
  | .ok _, .error _ => .isFalse (fun hc => Except.noConfusion hc)
  | .error _, .ok _ => .isFalse (fun hc => Except.noConfusion hc)
  | .error e, .error f =>
      if h : e = f then .isTrue (by rw [h]) else .isFalse (fun hc => h (Except.error.inj hc))

/-- C7 counterexample: an explicit rekey through Cipher.SetKey with a key
whose word count does not match the variant (5 words on a 256-bit cipher)
does not fail at all: the Go method returns nothing and performs no size
check; the call succeeds and installs the expansion of the first 4 words. -/
theorem claim_C7_counterexample :
    (NewCipherSize 256).map
        (fun c => (c.SetKey [1, 1, 1, 1, 1]).map Cipher.expKey) =
      .ok (some [1, 1, 1, 1, KEY_SCHEDULE_CONST]) := by
  decide

/-- C7 amended: Cipher.SetKey performs no size validation and can produce
no KeySizeError (its Go signature has no error result); it succeeds
exactly when the key has at least as many words as the variant needs (the
first N words are used), and faults with an out-of-range read (modelled as
none) on shorter keys. -/
theorem claim_C7_amended (c : Cipher) (key : List Word) :
    (c.SetKey key).isSome ↔ c.words ≤ key.length := by
  obtain ⟨ss, ci⟩ := c
  cases ci <;>
    simp [Cipher.SetKey, Cipher.words, cipherInternal.words,
      threefish256.setKey, threefish512.setKey, threefish1024.setKey]

/-- C8: the claim that BlockSize always returns the variant block size in
bytes is right as a specification, but the code sets stateSize =
len(key) * 8 in NewCipher64, treating the word count as a byte count, so a
cipher built by NewCipher64 from a 4/8/16-word key reports BlockSize
4/8/16 instead of 32/64/128.  NewCipher and NewCipherSize behave as
claimed.  This theorem evaluates the code on all these inputs. -/
theorem claim_C8_blocksize_eval :
    (NewCipher64 (List.replicate 4 0) none).map Cipher.BlockSize = .ok 4 ∧
    (NewCipher64 (List.replicate 8 0) none).map Cipher.BlockSize = .ok 8 ∧
    (NewCipher64 (List.replicate 16 0) none).map Cipher.BlockSize = .ok 16 ∧
    (NewCipher (List.replicate 32 0) none).map Cipher.BlockSize = .ok 32 ∧
    (NewCipher (List.replicate 64 0) none).map Cipher.BlockSize = .ok 64 ∧
    (NewCipher (List.replicate 128 0) none).map Cipher.BlockSize = .ok 128 ∧
    (NewCipherSize 256).map Cipher.BlockSize = .ok 32 ∧
    (NewCipherSize 512).map Cipher.BlockSize = .ok 64 ∧
    (NewCipherSize 1024).map Cipher.BlockSize = .ok 128 := by
  decide

/-- C9 counterexample: a cipher built by the size-only constructor does not
have an all-zero expanded key: the final expanded-key word is
KEY_SCHEDULE_CONST, which is nonzero. -/
theorem claim_C9_counterexample :
    (NewCipherSize 256).map (fun c => c.expKey.getD 4 0) =
      .ok KEY_SCHEDULE_CONST ∧ KEY_SCHEDULE_CONST ≠ 0 := by
  constructor
  · rfl
  · decide

/-- C9 amended: a cipher built by NewCipherSize has the expanded key of the
all-zero key: words 0..N-1 are zero and word N is KEY_SCHEDULE_CONST
(equal to the key-schedule parity of the zero key), pending a later
SetKey. -/
theorem claim_C9_amended :
    (NewCipherSize 256).map Cipher.expKey =
      .ok [0, 0, 0, 0, KEY_SCHEDULE_CONST] ∧
    (NewCipherSize 512).map Cipher.expKey =
      .ok [0, 0, 0, 0, 0, 0, 0, 0, KEY_SCHEDULE_CONST] ∧
    (NewCipherSize 1024).map Cipher.expKey =
      .ok [0, 0, 0, 0, 0, 0, 0, 0, 0, 0, 0, 0, 0, 0, 0, 0, KEY_SCHEDULE_CONST] ∧
    (NewCipherSize 256).map Cipher.expKey =
      .ok (setKeyGo (List.replicate 4 0) 4) ∧
    (NewCipherSize 512).map Cipher.expKey =
      .ok (setKeyGo (List.replicate 8 0) 8) ∧
    (NewCipherSize 1024).map Cipher.expKey =
      .ok (setKeyGo (List.replicate 16 0) 16) := by
  decide
/-- Adding a subkey word to each word of the pair (0,1) of threefish256. -/
def addp256_0_1 (x y : Word) (st : S4) : S4 :=
  ⟨st.b0 + x, st.b1 + y, st.b2, st.b3⟩

/-- Adding a subkey word to each word of the pair (2,3) of threefish256. -/
def addp256_2_3 (x y : Word) (st : S4) : S4 :=
  ⟨st.b0, st.b1, st.b2 + x, st.b3 + y⟩

theorem imix256_0_1_addp (kEx kOx tX : Word) (r : Fin 64) (st : S4) :
    imix256_0_1 kEx kOx tX r st = mix256_0_1 r (addp256_0_1 kEx (kOx + tX) st) := by
  obtain ⟨b0, b1, b2, b3⟩ := st
  simp only [imix256_0_1, mix256_0_1, addp256_0_1, S4.mk.injEq]
  and_intros <;> first
    | trivial
    | ring
    | (congr 1 <;> first | rfl | ring)

theorem imix256_2_3_addp (kEx kOx sX tY : Word) (r : Fin 64) (st : S4) :
    imix256_2_3 kEx kOx sX tY r st = mix256_2_3 r (addp256_2_3 (kEx + tY) (kOx + sX) st) := by
  obtain ⟨b0, b1, b2, b3⟩ := st
  simp only [imix256_2_3, mix256_2_3, addp256_2_3, S4.mk.injEq]
  and_intros <;> first
    | trivial
    | ring
    | (congr 1 <;> first | rfl | ring)

theorem addp256_2_3_mix01 (x y : Word) (r : Fin 64) (st : S4) :
    addp256_2_3 x y (mix256_0_1 r st)
      = mix256_0_1 r (addp256_2_3 x y st) := by
  obtain ⟨b0, b1, b2, b3⟩ := st
  rfl

theorem addp256_merge (x0 x1 x2 x3 : Word) (st : S4) :
    addp256_2_3 x2 x3 (addp256_0_1 x0 x1 (st)) = einj256 x0 x1 x2 x3 st := by
  obtain ⟨b0, b1, b2, b3⟩ := st
  rfl

/-- A key-injection cycle of threefish256 equals a whole-state subkey
injection (einj256) followed by four plain MIX rounds. -/
theorem cyc256_spec (r0 r1 r2 r3 r4 r5 r6 r7 : Fin 64) (a0 a1 a2 a3 tA tB sN : Word) (st : S4) :
    cyc256 r0 r1 r2 r3 r4 r5 r6 r7 a0 a1 a2 a3 tA tB sN st =
      (st |> einj256 a0 (a1 + tA) (a2 + tB) (a3 + sN)
          |> mix256_0_1 r0
          |> mix256_2_3 r1
          |> mix256_0_3 r2
          |> mix256_2_1 r3
          |> mix256_0_1 r4
          |> mix256_2_3 r5
          |> mix256_0_3 r6
          |> mix256_2_1 r7) := by
  simp only [cyc256, imix256_0_1_addp, imix256_2_3_addp, addp256_2_3_mix01, addp256_merge]

/-- The amended subkey-injection formula for threefish256 at cycle index s:
word i receives expandedKey[(s + i) mod 5]; additionally word 1
receives expandedTweak[s mod 3], word 2 receives
expandedTweak[(s + 1) mod 3], and word 3 receives the cycle index s. -/
def injectAmended256 (tf : threefish256) (s : Nat) : S4 → S4 :=
  einj256 (tf.expanedKey.getD (s % 5) 0)
    (tf.expanedKey.getD ((s + 1) % 5) 0 + tf.expanedTweak.getD (s % 3) 0)
    (tf.expanedKey.getD ((s + 2) % 5) 0 + tf.expanedTweak.getD ((s + 1) % 3) 0)
    (tf.expanedKey.getD ((s + 3) % 5) 0 + (s : Word))

/-- threefish256.encrypt in the spec presentation: a whole-state subkey
injection at the start of every 4th round (cycle index s = d / 4) and
once more after the final round, plain MIX rounds between. -/
def specEncrypt256 (tf : threefish256) (p : S4) : S4 :=
  p
    |> injectAmended256 tf 0
    |> mix256_0_1 14 |> mix256_2_3 16
    |> mix256_0_3 52 |> mix256_2_1 57
    |> mix256_0_1 23 |> mix256_2_3 40
    |> mix256_0_3 5 |> mix256_2_1 37
    |> injectAmended256 tf 1
    |> mix256_0_1 25 |> mix256_2_3 33
    |> mix256_0_3 46 |> mix256_2_1 12
    |> mix256_0_1 58 |> mix256_2_3 22
    |> mix256_0_3 32 |> mix256_2_1 32
    |> injectAmended256 tf 2
    |> mix256_0_1 14 |> mix256_2_3 16
    |> mix256_0_3 52 |> mix256_2_1 57
    |> mix256_0_1 23 |> mix256_2_3 40
    |> mix256_0_3 5 |> mix256_2_1 37
    |> injectAmended256 tf 3
    |> mix256_0_1 25 |> mix256_2_3 33
    |> mix256_0_3 46 |> mix256_2_1 12
    |> mix256_0_1 58 |> mix256_2_3 22
    |> mix256_0_3 32 |> mix256_2_1 32
    |> injectAmended256 tf 4
    |> mix256_0_1 14 |> mix256_2_3 16
    |> mix256_0_3 52 |> mix256_2_1 57
    |> mix256_0_1 23 |> mix256_2_3 40
    |> mix256_0_3 5 |> mix256_2_1 37
    |> injectAmended256 tf 5
    |> mix256_0_1 25 |> mix256_2_3 33
    |> mix256_0_3 46 |> mix256_2_1 12
    |> mix256_0_1 58 |> mix256_2_3 22
    |> mix256_0_3 32 |> mix256_2_1 32
    |> injectAmended256 tf 6
    |> mix256_0_1 14 |> mix256_2_3 16
    |> mix256_0_3 52 |> mix256_2_1 57
    |> mix256_0_1 23 |> mix256_2_3 40
    |> mix256_0_3 5 |> mix256_2_1 37
    |> injectAmended256 tf 7
    |> mix256_0_1 25 |> mix256_2_3 33
    |> mix256_0_3 46 |> mix256_2_1 12
    |> mix256_0_1 58 |> mix256_2_3 22
    |> mix256_0_3 32 |> mix256_2_1 32
    |> injectAmended256 tf 8
    |> mix256_0_1 14 |> mix256_2_3 16
    |> mix256_0_3 52 |> mix256_2_1 57
    |> mix256_0_1 23 |> mix256_2_3 40
    |> mix256_0_3 5 |> mix256_2_1 37
    |> injectAmended256 tf 9
    |> mix256_0_1 25 |> mix256_2_3 33
    |> mix256_0_3 46 |> mix256_2_1 12
    |> mix256_0_1 58 |> mix256_2_3 22
    |> mix256_0_3 32 |> mix256_2_1 32
    |> injectAmended256 tf 10
    |> mix256_0_1 14 |> mix256_2_3 16
    |> mix256_0_3 52 |> mix256_2_1 57
    |> mix256_0_1 23 |> mix256_2_3 40
    |> mix256_0_3 5 |> mix256_2_1 37
    |> injectAmended256 tf 11
    |> mix256_0_1 25 |> mix256_2_3 33
    |> mix256_0_3 46 |> mix256_2_1 12
    |> mix256_0_1 58 |> mix256_2_3 22
    |> mix256_0_3 32 |> mix256_2_1 32
    |> injectAmended256 tf 12
    |> mix256_0_1 14 |> mix256_2_3 16
    |> mix256_0_3 52 |> mix256_2_1 57
    |> mix256_0_1 23 |> mix256_2_3 40
    |> mix256_0_3 5 |> mix256_2_1 37
    |> injectAmended256 tf 13
    |> mix256_0_1 25 |> mix256_2_3 33
    |> mix256_0_3 46 |> mix256_2_1 12
    |> mix256_0_1 58 |> mix256_2_3 22
    |> mix256_0_3 32 |> mix256_2_1 32
    |> injectAmended256 tf 14
    |> mix256_0_1 14 |> mix256_2_3 16
    |> mix256_0_3 52 |> mix256_2_1 57
    |> mix256_0_1 23 |> mix256_2_3 40
    |> mix256_0_3 5 |> mix256_2_1 37
    |> injectAmended256 tf 15
    |> mix256_0_1 25 |> mix256_2_3 33
    |> mix256_0_3 46 |> mix256_2_1 12
    |> mix256_0_1 58 |> mix256_2_3 22
    |> mix256_0_3 32 |> mix256_2_1 32
    |> injectAmended256 tf 16
    |> mix256_0_1 14 |> mix256_2_3 16
    |> mix256_0_3 52 |> mix256_2_1 57
    |> mix256_0_1 23 |> mix256_2_3 40
    |> mix256_0_3 5 |> mix256_2_1 37
    |> injectAmended256 tf 17
    |> mix256_0_1 25 |> mix256_2_3 33
    |> mix256_0_3 46 |> mix256_2_1 12
    |> mix256_0_1 58 |> mix256_2_3 22
    |> mix256_0_3 32 |> mix256_2_1 32
    |> injectAmended256 tf 18

/-- The unrolled threefish256.encrypt agrees with the injection-formula
pipeline for every cipher state and block. -/
theorem threefish256.encrypt_spec_256 (tf : threefish256) (p : S4) :
    threefish256.encrypt tf p = specEncrypt256 tf p := by
  simp only [threefish256.encrypt, specEncrypt256, injectAmended256, cyc256_spec]
  norm_num [Nat.cast_ofNat]

/-- The plain MIX on pair (0,1) of threefish512 (spec presentation of
the injection rounds; in the source this pair only occurs merged with
the key injection). -/
def mix512_0_1 (r : Fin 64) (s : S8) : S8 :=
  let v0 := s.b0 + s.b1
  let v1 := wxor (rotL64 s.b1 r) v0
  ⟨v0, v1, s.b2, s.b3, s.b4, s.b5, s.b6, s.b7⟩

/-- The plain MIX on pair (2,3) of threefish512 (spec presentation of
the injection rounds; in the source this pair only occurs merged with
the key injection). -/
def mix512_2_3 (r : Fin 64) (s : S8) : S8 :=
  let v2 := s.b2 + s.b3
  let v3 := wxor (rotL64 s.b3 r) v2
  ⟨s.b0, s.b1, v2, v3, s.b4, s.b5, s.b6, s.b7⟩

/-- The plain MIX on pair (4,5) of threefish512 (spec presentation of
the injection rounds; in the source this pair only occurs merged with
the key injection). -/
def mix512_4_5 (r : Fin 64) (s : S8) : S8 :=
  let v4 := s.b4 + s.b5
  let v5 := wxor (rotL64 s.b5 r) v4
  ⟨s.b0, s.b1, s.b2, s.b3, v4, v5, s.b6, s.b7⟩

/-- The plain MIX on pair (6,7) of threefish512 (spec presentation of
the injection rounds; in the source this pair only occurs merged with
the key injection). -/
def mix512_6_7 (r : Fin 64) (s : S8) : S8 :=
  let v6 := s.b6 + s.b7
  let v7 := wxor (rotL64 s.b7 r) v6
  ⟨s.b0, s.b1, s.b2, s.b3, s.b4, s.b5, v6, v7⟩

/-- Adding a subkey word to each word of the pair (0,1) of threefish512. -/
def addp512_0_1 (x y : Word) (st : S8) : S8 :=
  ⟨st.b0 + x, st.b1 + y, st.b2, st.b3, st.b4, st.b5, st.b6, st.b7⟩

/-- Adding a subkey word to each word of the pair (2,3) of threefish512. -/
def addp512_2_3 (x y : Word) (st : S8) : S8 :=
  ⟨st.b0, st.b1, st.b2 + x, st.b3 + y, st.b4, st.b5, st.b6, st.b7⟩

/-- Adding a subkey word to each word of the pair (4,5) of threefish512. -/
def addp512_4_5 (x y : Word) (st : S8) : S8 :=
  ⟨st.b0, st.b1, st.b2, st.b3, st.b4 + x, st.b5 + y, st.b6, st.b7⟩

/-- Adding a subkey word to each word of the pair (6,7) of threefish512. -/
def addp512_6_7 (x y : Word) (st : S8) : S8 :=
  ⟨st.b0, st.b1, st.b2, st.b3, st.b4, st.b5, st.b6 + x, st.b7 + y⟩

theorem imix512_0_1_addp (kEx kOx : Word) (r : Fin 64) (st : S8) :
    imix512_0_1 kEx kOx r st = mix512_0_1 r (addp512_0_1 kEx kOx st) := by
  obtain ⟨b0, b1, b2, b3, b4, b5, b6, b7⟩ := st
  simp only [imix512_0_1, mix512_0_1, addp512_0_1, S8.mk.injEq]
  and_intros <;> first
    | trivial
    | ring
    | (congr 1 <;> first | rfl | ring)

theorem imix512_2_3_addp (kEx kOx : Word) (r : Fin 64) (st : S8) :
    imix512_2_3 kEx kOx r st = mix512_2_3 r (addp512_2_3 kEx kOx st) := by
  obtain ⟨b0, b1, b2, b3, b4, b5, b6, b7⟩ := st
  simp only [imix512_2_3, mix512_2_3, addp512_2_3, S8.mk.injEq]
  and_intros <;> first
    | trivial
    | ring
    | (congr 1 <;> first | rfl | ring)

theorem imix512_4_5_addp (kEx kOx tX : Word) (r : Fin 64) (st : S8) :
    imix512_4_5 kEx kOx tX r st = mix512_4_5 r (addp512_4_5 kEx (kOx + tX) st) := by
  obtain ⟨b0, b1, b2, b3, b4, b5, b6, b7⟩ := st
  simp only [imix512_4_5, mix512_4_5, addp512_4_5, S8.mk.injEq]
  and_intros <;> first
    | trivial
    | ring
    | (congr 1 <;> first | rfl | ring)

theorem imix512_6_7_addp (kEx kOx sX tY : Word) (r : Fin 64) (st : S8) :
    imix512_6_7 kEx kOx sX tY r st = mix512_6_7 r (addp512_6_7 (kEx + tY) (kOx + sX) st) := by
  obtain ⟨b0, b1, b2, b3, b4, b5, b6, b7⟩ := st
  simp only [imix512_6_7, mix512_6_7, addp512_6_7, S8.mk.injEq]
  and_intros <;> first
    | trivial
    | ring
    | (congr 1 <;> first | rfl | ring)

theorem addp512_2_3_mix01 (x y : Word) (r : Fin 64) (st : S8) :
    addp512_2_3 x y (mix512_0_1 r st)
      = mix512_0_1 r (addp512_2_3 x y st) := by
  obtain ⟨b0, b1, b2, b3, b4, b5, b6, b7⟩ := st
  rfl

theorem addp512_4_5_mix01 (x y : Word) (r : Fin 64) (st : S8) :
    addp512_4_5 x y (mix512_0_1 r st)
      = mix512_0_1 r (addp512_4_5 x y st) := by
  obtain ⟨b0, b1, b2, b3, b4, b5, b6, b7⟩ := st
  rfl

theorem addp512_4_5_mix23 (x y : Word) (r : Fin 64) (st : S8) :
    addp512_4_5 x y (mix512_2_3 r st)
      = mix512_2_3 r (addp512_4_5 x y st) := by
  obtain ⟨b0, b1, b2, b3, b4, b5, b6, b7⟩ := st
  rfl

theorem addp512_6_7_mix01 (x y : Word) (r : Fin 64) (st : S8) :
    addp512_6_7 x y (mix512_0_1 r st)
      = mix512_0_1 r (addp512_6_7 x y st) := by
  obtain ⟨b0, b1, b2, b3, b4, b5, b6, b7⟩ := st
  rfl

theorem addp512_6_7_mix23 (x y : Word) (r : Fin 64) (st : S8) :
    addp512_6_7 x y (mix512_2_3 r st)
      = mix512_2_3 r (addp512_6_7 x y st) := by
  obtain ⟨b0, b1, b2, b3, b4, b5, b6, b7⟩ := st
  rfl

theorem addp512_6_7_mix45 (x y : Word) (r : Fin 64) (st : S8) :
    addp512_6_7 x y (mix512_4_5 r st)
      = mix512_4_5 r (addp512_6_7 x y st) := by
  obtain ⟨b0, b1, b2, b3, b4, b5, b6, b7⟩ := st
  rfl

theorem addp512_merge (x0 x1 x2 x3 x4 x5 x6 x7 : Word) (st : S8) :
    addp512_6_7 x6 x7 (addp512_4_5 x4 x5 (addp512_2_3 x2 x3 (addp512_0_1 x0 x1 (st)))) = einj512 x0 x1 x2 x3 x4 x5 x6 x7 st := by
  obtain ⟨b0, b1, b2, b3, b4, b5, b6, b7⟩ := st
  rfl

/-- A key-injection cycle of threefish512 equals a whole-state subkey
injection (einj512) followed by four plain MIX rounds. -/
theorem cyc512_spec (r0 r1 r2 r3 r4 r5 r6 r7 r8 r9 r10 r11 r12 r13 r14 r15 : Fin 64) (a0 a1 a2 a3 a4 a5 a6 a7 tA tB sN : Word) (st : S8) :
    cyc512 r0 r1 r2 r3 r4 r5 r6 r7 r8 r9 r10 r11 r12 r13 r14 r15 a0 a1 a2 a3 a4 a5 a6 a7 tA tB sN st =
      (st |> einj512 a0 a1 a2 a3 a4 (a5 + tA) (a6 + tB) (a7 + sN)
          |> mix512_0_1 r0
          |> mix512_2_3 r1
          |> mix512_4_5 r2
          |> mix512_6_7 r3
          |> mix512_2_1 r4
          |> mix512_4_7 r5
          |> mix512_6_5 r6
          |> mix512_0_3 r7
          |> mix512_4_1 r8
          |> mix512_6_3 r9
          |> mix512_0_5 r10
          |> mix512_2_7 r11
          |> mix512_6_1 r12
          |> mix512_0_7 r13
          |> mix512_2_5 r14
          |> mix512_4_3 r15) := by
  simp only [cyc512, imix512_0_1_addp, imix512_2_3_addp, imix512_4_5_addp, imix512_6_7_addp, addp512_2_3_mix01, addp512_4_5_mix01, addp512_4_5_mix23, addp512_6_7_mix01, addp512_6_7_mix23, addp512_6_7_mix45, addp512_merge]

/-- The amended subkey-injection formula for threefish512 at cycle index s:
word i receives expandedKey[(s + i) mod 9]; additionally word 5
receives expandedTweak[s mod 3], word 6 receives
expandedTweak[(s + 1) mod 3], and word 7 receives the cycle index s. -/
def injectAmended512 (tf : threefish512) (s : Nat) : S8 → S8 :=
  einj512 (tf.expanedKey.getD (s % 9) 0)
    (tf.expanedKey.getD ((s + 1) % 9) 0)
    (tf.expanedKey.getD ((s + 2) % 9) 0)
    (tf.expanedKey.getD ((s + 3) % 9) 0)
    (tf.expanedKey.getD ((s + 4) % 9) 0)
    (tf.expanedKey.getD ((s + 5) % 9) 0 + tf.expanedTweak.getD (s % 3) 0)
    (tf.expanedKey.getD ((s + 6) % 9) 0 + tf.expanedTweak.getD ((s + 1) % 3) 0)
    (tf.expanedKey.getD ((s + 7) % 9) 0 + (s : Word))

/-- threefish512.encrypt in the spec presentation: a whole-state subkey
injection at the start of every 4th round (cycle index s = d / 4) and
once more after the final round, plain MIX rounds between. -/
def specEncrypt512 (tf : threefish512) (p : S8) : S8 :=
  p
    |> injectAmended512 tf 0
    |> mix512_0_1 46 |> mix512_2_3 36 |> mix512_4_5 19 |> mix512_6_7 37
    |> mix512_2_1 33 |> mix512_4_7 27 |> mix512_6_5 14 |> mix512_0_3 42
    |> mix512_4_1 17 |> mix512_6_3 49 |> mix512_0_5 36 |> mix512_2_7 39
    |> mix512_6_1 44 |> mix512_0_7 9 |> mix512_2_5 54 |> mix512_4_3 56
    |> injectAmended512 tf 1
    |> mix512_0_1 39 |> mix512_2_3 30 |> mix512_4_5 34 |> mix512_6_7 24
    |> mix512_2_1 13 |> mix512_4_7 50 |> mix512_6_5 10 |> mix512_0_3 17
    |> mix512_4_1 25 |> mix512_6_3 29 |> mix512_0_5 39 |> mix512_2_7 43
    |> mix512_6_1 8 |> mix512_0_7 35 |> mix512_2_5 56 |> mix512_4_3 22
    |> injectAmended512 tf 2
    |> mix512_0_1 46 |> mix512_2_3 36 |> mix512_4_5 19 |> mix512_6_7 37
    |> mix512_2_1 33 |> mix512_4_7 27 |> mix512_6_5 14 |> mix512_0_3 42
    |> mix512_4_1 17 |> mix512_6_3 49 |> mix512_0_5 36 |> mix512_2_7 39
    |> mix512_6_1 44 |> mix512_0_7 9 |> mix512_2_5 54 |> mix512_4_3 56
    |> injectAmended512 tf 3
    |> mix512_0_1 39 |> mix512_2_3 30 |> mix512_4_5 34 |> mix512_6_7 24
    |> mix512_2_1 13 |> mix512_4_7 50 |> mix512_6_5 10 |> mix512_0_3 17
    |> mix512_4_1 25 |> mix512_6_3 29 |> mix512_0_5 39 |> mix512_2_7 43
    |> mix512_6_1 8 |> mix512_0_7 35 |> mix512_2_5 56 |> mix512_4_3 22
    |> injectAmended512 tf 4
    |> mix512_0_1 46 |> mix512_2_3 36 |> mix512_4_5 19 |> mix512_6_7 37
    |> mix512_2_1 33 |> mix512_4_7 27 |> mix512_6_5 14 |> mix512_0_3 42
    |> mix512_4_1 17 |> mix512_6_3 49 |> mix512_0_5 36 |> mix512_2_7 39
    |> mix512_6_1 44 |> mix512_0_7 9 |> mix512_2_5 54 |> mix512_4_3 56
    |> injectAmended512 tf 5
    |> mix512_0_1 39 |> mix512_2_3 30 |> mix512_4_5 34 |> mix512_6_7 24
    |> mix512_2_1 13 |> mix512_4_7 50 |> mix512_6_5 10 |> mix512_0_3 17
    |> mix512_4_1 25 |> mix512_6_3 29 |> mix512_0_5 39 |> mix512_2_7 43
    |> mix512_6_1 8 |> mix512_0_7 35 |> mix512_2_5 56 |> mix512_4_3 22
    |> injectAmended512 tf 6
    |> mix512_0_1 46 |> mix512_2_3 36 |> mix512_4_5 19 |> mix512_6_7 37
    |> mix512_2_1 33 |> mix512_4_7 27 |> mix512_6_5 14 |> mix512_0_3 42
    |> mix512_4_1 17 |> mix512_6_3 49 |> mix512_0_5 36 |> mix512_2_7 39
    |> mix512_6_1 44 |> mix512_0_7 9 |> mix512_2_5 54 |> mix512_4_3 56
    |> injectAmended512 tf 7
    |> mix512_0_1 39 |> mix512_2_3 30 |> mix512_4_5 34 |> mix512_6_7 24
    |> mix512_2_1 13 |> mix512_4_7 50 |> mix512_6_5 10 |> mix512_0_3 17
    |> mix512_4_1 25 |> mix512_6_3 29 |> mix512_0_5 39 |> mix512_2_7 43
    |> mix512_6_1 8 |> mix512_0_7 35 |> mix512_2_5 56 |> mix512_4_3 22
    |> injectAmended512 tf 8
    |> mix512_0_1 46 |> mix512_2_3 36 |> mix512_4_5 19 |> mix512_6_7 37
    |> mix512_2_1 33 |> mix512_4_7 27 |> mix512_6_5 14 |> mix512_0_3 42
    |> mix512_4_1 17 |> mix512_6_3 49 |> mix512_0_5 36 |> mix512_2_7 39
    |> mix512_6_1 44 |> mix512_0_7 9 |> mix512_2_5 54 |> mix512_4_3 56
    |> injectAmended512 tf 9
    |> mix512_0_1 39 |> mix512_2_3 30 |> mix512_4_5 34 |> mix512_6_7 24
    |> mix512_2_1 13 |> mix512_4_7 50 |> mix512_6_5 10 |> mix512_0_3 17
    |> mix512_4_1 25 |> mix512_6_3 29 |> mix512_0_5 39 |> mix512_2_7 43
    |> mix512_6_1 8 |> mix512_0_7 35 |> mix512_2_5 56 |> mix512_4_3 22
    |> injectAmended512 tf 10
    |> mix512_0_1 46 |> mix512_2_3 36 |> mix512_4_5 19 |> mix512_6_7 37
    |> mix512_2_1 33 |> mix512_4_7 27 |> mix512_6_5 14 |> mix512_0_3 42
    |> mix512_4_1 17 |> mix512_6_3 49 |> mix512_0_5 36 |> mix512_2_7 39
    |> mix512_6_1 44 |> mix512_0_7 9 |> mix512_2_5 54 |> mix512_4_3 56
    |> injectAmended512 tf 11
    |> mix512_0_1 39 |> mix512_2_3 30 |> mix512_4_5 34 |> mix512_6_7 24
    |> mix512_2_1 13 |> mix512_4_7 50 |> mix512_6_5 10 |> mix512_0_3 17
    |> mix512_4_1 25 |> mix512_6_3 29 |> mix512_0_5 39 |> mix512_2_7 43
    |> mix512_6_1 8 |> mix512_0_7 35 |> mix512_2_5 56 |> mix512_4_3 22
    |> injectAmended512 tf 12
    |> mix512_0_1 46 |> mix512_2_3 36 |> mix512_4_5 19 |> mix512_6_7 37
    |> mix512_2_1 33 |> mix512_4_7 27 |> mix512_6_5 14 |> mix512_0_3 42
    |> mix512_4_1 17 |> mix512_6_3 49 |> mix512_0_5 36 |> mix512_2_7 39
    |> mix512_6_1 44 |> mix512_0_7 9 |> mix512_2_5 54 |> mix512_4_3 56
    |> injectAmended512 tf 13
    |> mix512_0_1 39 |> mix512_2_3 30 |> mix512_4_5 34 |> mix512_6_7 24
    |> mix512_2_1 13 |> mix512_4_7 50 |> mix512_6_5 10 |> mix512_0_3 17
    |> mix512_4_1 25 |> mix512_6_3 29 |> mix512_0_5 39 |> mix512_2_7 43
    |> mix512_6_1 8 |> mix512_0_7 35 |> mix512_2_5 56 |> mix512_4_3 22
    |> injectAmended512 tf 14
    |> mix512_0_1 46 |> mix512_2_3 36 |> mix512_4_5 19 |> mix512_6_7 37
    |> mix512_2_1 33 |> mix512_4_7 27 |> mix512_6_5 14 |> mix512_0_3 42
    |> mix512_4_1 17 |> mix512_6_3 49 |> mix512_0_5 36 |> mix512_2_7 39
    |> mix512_6_1 44 |> mix512_0_7 9 |> mix512_2_5 54 |> mix512_4_3 56
    |> injectAmended512 tf 15
    |> mix512_0_1 39 |> mix512_2_3 30 |> mix512_4_5 34 |> mix512_6_7 24
    |> mix512_2_1 13 |> mix512_4_7 50 |> mix512_6_5 10 |> mix512_0_3 17
    |> mix512_4_1 25 |> mix512_6_3 29 |> mix512_0_5 39 |> mix512_2_7 43
    |> mix512_6_1 8 |> mix512_0_7 35 |> mix512_2_5 56 |> mix512_4_3 22
    |> injectAmended512 tf 16
    |> mix512_0_1 46 |> mix512_2_3 36 |> mix512_4_5 19 |> mix512_6_7 37
    |> mix512_2_1 33 |> mix512_4_7 27 |> mix512_6_5 14 |> mix512_0_3 42
    |> mix512_4_1 17 |> mix512_6_3 49 |> mix512_0_5 36 |> mix512_2_7 39
    |> mix512_6_1 44 |> mix512_0_7 9 |> mix512_2_5 54 |> mix512_4_3 56
    |> injectAmended512 tf 17
    |> mix512_0_1 39 |> mix512_2_3 30 |> mix512_4_5 34 |> mix512_6_7 24
    |> mix512_2_1 13 |> mix512_4_7 50 |> mix512_6_5 10 |> mix512_0_3 17
    |> mix512_4_1 25 |> mix512_6_3 29 |> mix512_0_5 39 |> mix512_2_7 43
    |> mix512_6_1 8 |> mix512_0_7 35 |> mix512_2_5 56 |> mix512_4_3 22
    |> injectAmended512 tf 18

/-- The unrolled threefish512.encrypt agrees with the injection-formula
pipeline for every cipher state and block. -/
theorem threefish512.encrypt_spec_512 (tf : threefish512) (p : S8) :
    threefish512.encrypt tf p = specEncrypt512 tf p := by
  simp only [threefish512.encrypt, specEncrypt512, injectAmended512, cyc512_spec]
  norm_num [Nat.cast_ofNat]

/-- The plain MIX on pair (0,1) of threefish1024 (spec presentation of
the injection rounds; in the source this pair only occurs merged with
the key injection). -/
def mix1024_0_1 (r : Fin 64) (s : S16) : S16 :=
  let v0 := s.b0 + s.b1
  let v1 := wxor (rotL64 s.b1 r) v0
  ⟨v0, v1, s.b2, s.b3, s.b4, s.b5, s.b6, s.b7, s.b8, s.b9, s.b10, s.b11, s.b12, s.b13, s.b14, s.b15⟩

/-- The plain MIX on pair (2,3) of threefish1024 (spec presentation of
the injection rounds; in the source this pair only occurs merged with
the key injection). -/
def mix1024_2_3 (r : Fin 64) (s : S16) : S16 :=
  let v2 := s.b2 + s.b3
  let v3 := wxor (rotL64 s.b3 r) v2
  ⟨s.b0, s.b1, v2, v3, s.b4, s.b5, s.b6, s.b7, s.b8, s.b9, s.b10, s.b11, s.b12, s.b13, s.b14, s.b15⟩

/-- The plain MIX on pair (4,5) of threefish1024 (spec presentation of
the injection rounds; in the source this pair only occurs merged with
the key injection). -/
def mix1024_4_5 (r : Fin 64) (s : S16) : S16 :=
  let v4 := s.b4 + s.b5
  let v5 := wxor (rotL64 s.b5 r) v4
  ⟨s.b0, s.b1, s.b2, s.b3, v4, v5, s.b6, s.b7, s.b8, s.b9, s.b10, s.b11, s.b12, s.b13, s.b14, s.b15⟩

/-- The plain MIX on pair (6,7) of threefish1024 (spec presentation of
the injection rounds; in the source this pair only occurs merged with
the key injection). -/
def mix1024_6_7 (r : Fin 64) (s : S16) : S16 :=
  let v6 := s.b6 + s.b7
  let v7 := wxor (rotL64 s.b7 r) v6
  ⟨s.b0, s.b1, s.b2, s.b3, s.b4, s.b5, v6, v7, s.b8, s.b9, s.b10, s.b11, s.b12, s.b13, s.b14, s.b15⟩

/-- The plain MIX on pair (8,9) of threefish1024 (spec presentation of
the injection rounds; in the source this pair only occurs merged with
the key injection). -/
def mix1024_8_9 (r : Fin 64) (s : S16) : S16 :=
  let v8 := s.b8 + s.b9
  let v9 := wxor (rotL64 s.b9 r) v8
  ⟨s.b0, s.b1, s.b2, s.b3, s.b4, s.b5, s.b6, s.b7, v8, v9, s.b10, s.b11, s.b12, s.b13, s.b14, s.b15⟩

/-- The plain MIX on pair (10,11) of threefish1024 (spec presentation of
the injection rounds; in the source this pair only occurs merged with
the key injection). -/
def mix1024_10_11 (r : Fin 64) (s : S16) : S16 :=
  let v10 := s.b10 + s.b11
  let v11 := wxor (rotL64 s.b11 r) v10
  ⟨s.b0, s.b1, s.b2, s.b3, s.b4, s.b5, s.b6, s.b7, s.b8, s.b9, v10, v11, s.b12, s.b13, s.b14, s.b15⟩

/-- The plain MIX on pair (12,13) of threefish1024 (spec presentation of
the injection rounds; in the source this pair only occurs merged with
the key injection). -/
def mix1024_12_13 (r : Fin 64) (s : S16) : S16 :=
  let v12 := s.b12 + s.b13
  let v13 := wxor (rotL64 s.b13 r) v12
  ⟨s.b0, s.b1, s.b2, s.b3, s.b4, s.b5, s.b6, s.b7, s.b8, s.b9, s.b10, s.b11, v12, v13, s.b14, s.b15⟩

/-- The plain MIX on pair (14,15) of threefish1024 (spec presentation of
the injection rounds; in the source this pair only occurs merged with
the key injection). -/
def mix1024_14_15 (r : Fin 64) (s : S16) : S16 :=
  let v14 := s.b14 + s.b15
  let v15 := wxor (rotL64 s.b15 r) v14
  ⟨s.b0, s.b1, s.b2, s.b3, s.b4, s.b5, s.b6, s.b7, s.b8, s.b9, s.b10, s.b11, s.b12, s.b13, v14, v15⟩

/-- Adding a subkey word to each word of the pair (0,1) of threefish1024. -/
def addp1024_0_1 (x y : Word) (st : S16) : S16 :=
  ⟨st.b0 + x, st.b1 + y, st.b2, st.b3, st.b4, st.b5, st.b6, st.b7, st.b8, st.b9, st.b10, st.b11, st.b12, st.b13, st.b14, st.b15⟩

/-- Adding a subkey word to each word of the pair (2,3) of threefish1024. -/
def addp1024_2_3 (x y : Word) (st : S16) : S16 :=
  ⟨st.b0, st.b1, st.b2 + x, st.b3 + y, st.b4, st.b5, st.b6, st.b7, st.b8, st.b9, st.b10, st.b11, st.b12, st.b13, st.b14, st.b15⟩

/-- Adding a subkey word to each word of the pair (4,5) of threefish1024. -/
def addp1024_4_5 (x y : Word) (st : S16) : S16 :=
  ⟨st.b0, st.b1, st.b2, st.b3, st.b4 + x, st.b5 + y, st.b6, st.b7, st.b8, st.b9, st.b10, st.b11, st.b12, st.b13, st.b14, st.b15⟩

/-- Adding a subkey word to each word of the pair (6,7) of threefish1024. -/
def addp1024_6_7 (x y : Word) (st : S16) : S16 :=
  ⟨st.b0, st.b1, st.b2, st.b3, st.b4, st.b5, st.b6 + x, st.b7 + y, st.b8, st.b9, st.b10, st.b11, st.b12, st.b13, st.b14, st.b15⟩

/-- Adding a subkey word to each word of the pair (8,9) of threefish1024. -/
def addp1024_8_9 (x y : Word) (st : S16) : S16 :=
  ⟨st.b0, st.b1, st.b2, st.b3, st.b4, st.b5, st.b6, st.b7, st.b8 + x, st.b9 + y, st.b10, st.b11, st.b12, st.b13, st.b14, st.b15⟩

/-- Adding a subkey word to each word of the pair (10,11) of threefish1024. -/
def addp1024_10_11 (x y : Word) (st : S16) : S16 :=
  ⟨st.b0, st.b1, st.b2, st.b3, st.b4, st.b5, st.b6, st.b7, st.b8, st.b9, st.b10 + x, st.b11 + y, st.b12, st.b13, st.b14, st.b15⟩

/-- Adding a subkey word to each word of the pair (12,13) of threefish1024. -/
def addp1024_12_13 (x y : Word) (st : S16) : S16 :=
  ⟨st.b0, st.b1, st.b2, st.b3, st.b4, st.b5, st.b6, st.b7, st.b8, st.b9, st.b10, st.b11, st.b12 + x, st.b13 + y, st.b14, st.b15⟩

/-- Adding a subkey word to each word of the pair (14,15) of threefish1024. -/
def addp1024_14_15 (x y : Word) (st : S16) : S16 :=
  ⟨st.b0, st.b1, st.b2, st.b3, st.b4, st.b5, st.b6, st.b7, st.b8, st.b9, st.b10, st.b11, st.b12, st.b13, st.b14 + x, st.b15 + y⟩

theorem imix1024_0_1_addp (kEx kOx : Word) (r : Fin 64) (st : S16) :
    imix1024_0_1 kEx kOx r st = mix1024_0_1 r (addp1024_0_1 kEx kOx st) := by
  obtain ⟨b0, b1, b2, b3, b4, b5, b6, b7, b8, b9, b10, b11, b12, b13, b14, b15⟩ := st
  simp only [imix1024_0_1, mix1024_0_1, addp1024_0_1, S16.mk.injEq]
  and_intros <;> first
    | trivial
    | ring
    | (congr 1 <;> first | rfl | ring)

theorem imix1024_2_3_addp (kEx kOx : Word) (r : Fin 64) (st : S16) :
    imix1024_2_3 kEx kOx r st = mix1024_2_3 r (addp1024_2_3 kEx kOx st) := by
  obtain ⟨b0, b1, b2, b3, b4, b5, b6, b7, b8, b9, b10, b11, b12, b13, b14, b15⟩ := st
  simp only [imix1024_2_3, mix1024_2_3, addp1024_2_3, S16.mk.injEq]
  and_intros <;> first
    | trivial
    | ring
    | (congr 1 <;> first | rfl | ring)

theorem imix1024_4_5_addp (kEx kOx : Word) (r : Fin 64) (st : S16) :
    imix1024_4_5 kEx kOx r st = mix1024_4_5 r (addp1024_4_5 kEx kOx st) := by
  obtain ⟨b0, b1, b2, b3, b4, b5, b6, b7, b8, b9, b10, b11, b12, b13, b14, b15⟩ := st
  simp only [imix1024_4_5, mix1024_4_5, addp1024_4_5, S16.mk.injEq]
  and_intros <;> first
    | trivial
    | ring
    | (congr 1 <;> first | rfl | ring)

theorem imix1024_6_7_addp (kEx kOx : Word) (r : Fin 64) (st : S16) :
    imix1024_6_7 kEx kOx r st = mix1024_6_7 r (addp1024_6_7 kEx kOx st) := by
  obtain ⟨b0, b1, b2, b3, b4, b5, b6, b7, b8, b9, b10, b11, b12, b13, b14, b15⟩ := st
  simp only [imix1024_6_7, mix1024_6_7, addp1024_6_7, S16.mk.injEq]
  and_intros <;> first
    | trivial
    | ring
    | (congr 1 <;> first | rfl | ring)

theorem imix1024_8_9_addp (kEx kOx : Word) (r : Fin 64) (st : S16) :
    imix1024_8_9 kEx kOx r st = mix1024_8_9 r (addp1024_8_9 kEx kOx st) := by
  obtain ⟨b0, b1, b2, b3, b4, b5, b6, b7, b8, b9, b10, b11, b12, b13, b14, b15⟩ := st
  simp only [imix1024_8_9, mix1024_8_9, addp1024_8_9, S16.mk.injEq]
  and_intros <;> first
    | trivial
    | ring
    | (congr 1 <;> first | rfl | ring)

theorem imix1024_10_11_addp (kEx kOx : Word) (r : Fin 64) (st : S16) :
    imix1024_10_11 kEx kOx r st = mix1024_10_11 r (addp1024_10_11 kEx kOx st) := by
  obtain ⟨b0, b1, b2, b3, b4, b5, b6, b7, b8, b9, b10, b11, b12, b13, b14, b15⟩ := st
  simp only [imix1024_10_11, mix1024_10_11, addp1024_10_11, S16.mk.injEq]
  and_intros <;> first
    | trivial
    | ring
    | (congr 1 <;> first | rfl | ring)

theorem imix1024_12_13_addp (kEx kOx tX : Word) (r : Fin 64) (st : S16) :
    imix1024_12_13 kEx kOx tX r st = mix1024_12_13 r (addp1024_12_13 kEx (kOx + tX) st) := by
  obtain ⟨b0, b1, b2, b3, b4, b5, b6, b7, b8, b9, b10, b11, b12, b13, b14, b15⟩ := st
  simp only [imix1024_12_13, mix1024_12_13, addp1024_12_13, S16.mk.injEq]
  and_intros <;> first
    | trivial
    | ring
    | (congr 1 <;> first | rfl | ring)

theorem imix1024_14_15_addp (kEx kOx sX tY : Word) (r : Fin 64) (st : S16) :
    imix1024_14_15 kEx kOx sX tY r st = mix1024_14_15 r (addp1024_14_15 (kEx + tY) (kOx + sX) st) := by
  obtain ⟨b0, b1, b2, b3, b4, b5, b6, b7, b8, b9, b10, b11, b12, b13, b14, b15⟩ := st
  simp only [imix1024_14_15, mix1024_14_15, addp1024_14_15, S16.mk.injEq]
  and_intros <;> first
    | trivial
    | ring
    | (congr 1 <;> first | rfl | ring)

theorem addp1024_2_3_mix01 (x y : Word) (r : Fin 64) (st : S16) :
    addp1024_2_3 x y (mix1024_0_1 r st)
      = mix1024_0_1 r (addp1024_2_3 x y st) := by
  obtain ⟨b0, b1, b2, b3, b4, b5, b6, b7, b8, b9, b10, b11, b12, b13, b14, b15⟩ := st
  rfl

theorem addp1024_4_5_mix01 (x y : Word) (r : Fin 64) (st : S16) :
    addp1024_4_5 x y (mix1024_0_1 r st)
      = mix1024_0_1 r (addp1024_4_5 x y st) := by
  obtain ⟨b0, b1, b2, b3, b4, b5, b6, b7, b8, b9, b10, b11, b12, b13, b14, b15⟩ := st
  rfl

theorem addp1024_4_5_mix23 (x y : Word) (r : Fin 64) (st : S16) :
    addp1024_4_5 x y (mix1024_2_3 r st)
      = mix1024_2_3 r (addp1024_4_5 x y st) := by
  obtain ⟨b0, b1, b2, b3, b4, b5, b6, b7, b8, b9, b10, b11, b12, b13, b14, b15⟩ := st
  rfl

theorem addp1024_6_7_mix01 (x y : Word) (r : Fin 64) (st : S16) :
    addp1024_6_7 x y (mix1024_0_1 r st)
      = mix1024_0_1 r (addp1024_6_7 x y st) := by
  obtain ⟨b0, b1, b2, b3, b4, b5, b6, b7, b8, b9, b10, b11, b12, b13, b14, b15⟩ := st
  rfl

theorem addp1024_6_7_mix23 (x y : Word) (r : Fin 64) (st : S16) :
    addp1024_6_7 x y (mix1024_2_3 r st)
      = mix1024_2_3 r (addp1024_6_7 x y st) := by
  obtain ⟨b0, b1, b2, b3, b4, b5, b6, b7, b8, b9, b10, b11, b12, b13, b14, b15⟩ := st
  rfl

theorem addp1024_6_7_mix45 (x y : Word) (r : Fin 64) (st : S16) :
    addp1024_6_7 x y (mix1024_4_5 r st)
      = mix1024_4_5 r (addp1024_6_7 x y st) := by
  obtain ⟨b0, b1, b2, b3, b4, b5, b6, b7, b8, b9, b10, b11, b12, b13, b14, b15⟩ := st
  rfl

theorem addp1024_8_9_mix01 (x y : Word) (r : Fin 64) (st : S16) :
    addp1024_8_9 x y (mix1024_0_1 r st)
      = mix1024_0_1 r (addp1024_8_9 x y st) := by
  obtain ⟨b0, b1, b2, b3, b4, b5, b6, b7, b8, b9, b10, b11, b12, b13, b14, b15⟩ := st
  rfl

theorem addp1024_8_9_mix23 (x y : Word) (r : Fin 64) (st : S16) :
    addp1024_8_9 x y (mix1024_2_3 r st)
      = mix1024_2_3 r (addp1024_8_9 x y st) := by
  obtain ⟨b0, b1, b2, b3, b4, b5, b6, b7, b8, b9, b10, b11, b12, b13, b14, b15⟩ := st
  rfl

theorem addp1024_8_9_mix45 (x y : Word) (r : Fin 64) (st : S16) :
    addp1024_8_9 x y (mix1024_4_5 r st)
      = mix1024_4_5 r (addp1024_8_9 x y st) := by
  obtain ⟨b0, b1, b2, b3, b4, b5, b6, b7, b8, b9, b10, b11, b12, b13, b14, b15⟩ := st
  rfl

theorem addp1024_8_9_mix67 (x y : Word) (r : Fin 64) (st : S16) :
    addp1024_8_9 x y (mix1024_6_7 r st)
      = mix1024_6_7 r (addp1024_8_9 x y st) := by
  obtain ⟨b0, b1, b2, b3, b4, b5, b6, b7, b8, b9, b10, b11, b12, b13, b14, b15⟩ := st
  rfl

theorem addp1024_10_11_mix01 (x y : Word) (r : Fin 64) (st : S16) :
    addp1024_10_11 x y (mix1024_0_1 r st)
      = mix1024_0_1 r (addp1024_10_11 x y st) := by
  obtain ⟨b0, b1, b2, b3, b4, b5, b6, b7, b8, b9, b10, b11, b12, b13, b14, b15⟩ := st
  rfl

theorem addp1024_10_11_mix23 (x y : Word) (r : Fin 64) (st : S16) :
    addp1024_10_11 x y (mix1024_2_3 r st)
      = mix1024_2_3 r (addp1024_10_11 x y st) := by
  obtain ⟨b0, b1, b2, b3, b4, b5, b6, b7, b8, b9, b10, b11, b12, b13, b14, b15⟩ := st
  rfl

theorem addp1024_10_11_mix45 (x y : Word) (r : Fin 64) (st : S16) :
    addp1024_10_11 x y (mix1024_4_5 r st)
      = mix1024_4_5 r (addp1024_10_11 x y st) := by
  obtain ⟨b0, b1, b2, b3, b4, b5, b6, b7, b8, b9, b10, b11, b12, b13, b14, b15⟩ := st
  rfl

theorem addp1024_10_11_mix67 (x y : Word) (r : Fin 64) (st : S16) :
    addp1024_10_11 x y (mix1024_6_7 r st)
      = mix1024_6_7 r (addp1024_10_11 x y st) := by
  obtain ⟨b0, b1, b2, b3, b4, b5, b6, b7, b8, b9, b10, b11, b12, b13, b14, b15⟩ := st
  rfl

theorem addp1024_10_11_mix89 (x y : Word) (r : Fin 64) (st : S16) :
    addp1024_10_11 x y (mix1024_8_9 r st)
      = mix1024_8_9 r (addp1024_10_11 x y st) := by
  obtain ⟨b0, b1, b2, b3, b4, b5, b6, b7, b8, b9, b10, b11, b12, b13, b14, b15⟩ := st
  rfl

theorem addp1024_12_13_mix01 (x y : Word) (r : Fin 64) (st : S16) :
    addp1024_12_13 x y (mix1024_0_1 r st)
      = mix1024_0_1 r (addp1024_12_13 x y st) := by
  obtain ⟨b0, b1, b2, b3, b4, b5, b6, b7, b8, b9, b10, b11, b12, b13, b14, b15⟩ := st
  rfl

theorem addp1024_12_13_mix23 (x y : Word) (r : Fin 64) (st : S16) :
    addp1024_12_13 x y (mix1024_2_3 r st)
      = mix1024_2_3 r (addp1024_12_13 x y st) := by
  obtain ⟨b0, b1, b2, b3, b4, b5, b6, b7, b8, b9, b10, b11, b12, b13, b14, b15⟩ := st
  rfl

theorem addp1024_12_13_mix45 (x y : Word) (r : Fin 64) (st : S16) :
    addp1024_12_13 x y (mix1024_4_5 r st)
      = mix1024_4_5 r (addp1024_12_13 x y st) := by
  obtain ⟨b0, b1, b2, b3, b4, b5, b6, b7, b8, b9, b10, b11, b12, b13, b14, b15⟩ := st
  rfl

theorem addp1024_12_13_mix67 (x y : Word) (r : Fin 64) (st : S16) :
    addp1024_12_13 x y (mix1024_6_7 r st)
      = mix1024_6_7 r (addp1024_12_13 x y st) := by
  obtain ⟨b0, b1, b2, b3, b4, b5, b6, b7, b8, b9, b10, b11, b12, b13, b14, b15⟩ := st
  rfl

theorem addp1024_12_13_mix89 (x y : Word) (r : Fin 64) (st : S16) :
    addp1024_12_13 x y (mix1024_8_9 r st)
      = mix1024_8_9 r (addp1024_12_13 x y st) := by
  obtain ⟨b0, b1, b2, b3, b4, b5, b6, b7, b8, b9, b10, b11, b12, b13, b14, b15⟩ := st
  rfl

theorem addp1024_12_13_mix1011 (x y : Word) (r : Fin 64) (st : S16) :
    addp1024_12_13 x y (mix1024_10_11 r st)
      = mix1024_10_11 r (addp1024_12_13 x y st) := by
  obtain ⟨b0, b1, b2, b3, b4, b5, b6, b7, b8, b9, b10, b11, b12, b13, b14, b15⟩ := st
  rfl

theorem addp1024_14_15_mix01 (x y : Word) (r : Fin 64) (st : S16) :
    addp1024_14_15 x y (mix1024_0_1 r st)
      = mix1024_0_1 r (addp1024_14_15 x y st) := by
  obtain ⟨b0, b1, b2, b3, b4, b5, b6, b7, b8, b9, b10, b11, b12, b13, b14, b15⟩ := st
  rfl

theorem addp1024_14_15_mix23 (x y : Word) (r : Fin 64) (st : S16) :
    addp1024_14_15 x y (mix1024_2_3 r st)
      = mix1024_2_3 r (addp1024_14_15 x y st) := by
  obtain ⟨b0, b1, b2, b3, b4, b5, b6, b7, b8, b9, b10, b11, b12, b13, b14, b15⟩ := st
  rfl

theorem addp1024_14_15_mix45 (x y : Word) (r : Fin 64) (st : S16) :
    addp1024_14_15 x y (mix1024_4_5 r st)
      = mix1024_4_5 r (addp1024_14_15 x y st) := by
  obtain ⟨b0, b1, b2, b3, b4, b5, b6, b7, b8, b9, b10, b11, b12, b13, b14, b15⟩ := st
  rfl

theorem addp1024_14_15_mix67 (x y : Word) (r : Fin 64) (st : S16) :
    addp1024_14_15 x y (mix1024_6_7 r st)
      = mix1024_6_7 r (addp1024_14_15 x y st) := by
  obtain ⟨b0, b1, b2, b3, b4, b5, b6, b7, b8, b9, b10, b11, b12, b13, b14, b15⟩ := st
  rfl

theorem addp1024_14_15_mix89 (x y : Word) (r : Fin 64) (st : S16) :
    addp1024_14_15 x y (mix1024_8_9 r st)
      = mix1024_8_9 r (addp1024_14_15 x y st) := by
  obtain ⟨b0, b1, b2, b3, b4, b5, b6, b7, b8, b9, b10, b11, b12, b13, b14, b15⟩ := st
  rfl

theorem addp1024_14_15_mix1011 (x y : Word) (r : Fin 64) (st : S16) :
    addp1024_14_15 x y (mix1024_10_11 r st)
      = mix1024_10_11 r (addp1024_14_15 x y st) := by
  obtain ⟨b0, b1, b2, b3, b4, b5, b6, b7, b8, b9, b10, b11, b12, b13, b14, b15⟩ := st
  rfl

theorem addp1024_14_15_mix1213 (x y : Word) (r : Fin 64) (st : S16) :
    addp1024_14_15 x y (mix1024_12_13 r st)
      = mix1024_12_13 r (addp1024_14_15 x y st) := by
  obtain ⟨b0, b1, b2, b3, b4, b5, b6, b7, b8, b9, b10, b11, b12, b13, b14, b15⟩ := st
  rfl

theorem addp1024_merge (x0 x1 x2 x3 x4 x5 x6 x7 x8 x9 x10 x11 x12 x13 x14 x15 : Word) (st : S16) :
    addp1024_14_15 x14 x15 (addp1024_12_13 x12 x13 (addp1024_10_11 x10 x11 (addp1024_8_9 x8 x9 (addp1024_6_7 x6 x7 (addp1024_4_5 x4 x5 (addp1024_2_3 x2 x3 (addp1024_0_1 x0 x1 (st)))))))) = einj1024 x0 x1 x2 x3 x4 x5 x6 x7 x8 x9 x10 x11 x12 x13 x14 x15 st := by
  obtain ⟨b0, b1, b2, b3, b4, b5, b6, b7, b8, b9, b10, b11, b12, b13, b14, b15⟩ := st
  rfl

/-- A key-injection cycle of threefish1024 equals a whole-state subkey
injection (einj1024) followed by four plain MIX rounds. -/
theorem cyc1024_spec (r0 r1 r2 r3 r4 r5 r6 r7 r8 r9 r10 r11 r12 r13 r14 r15 r16 r17 r18 r19 r20 r21 r22 r23 r24 r25 r26 r27 r28 r29 r30 r31 : Fin 64) (a0 a1 a2 a3 a4 a5 a6 a7 a8 a9 a10 a11 a12 a13 a14 a15 tA tB sN : Word) (st : S16) :
    cyc1024 r0 r1 r2 r3 r4 r5 r6 r7 r8 r9 r10 r11 r12 r13 r14 r15 r16 r17 r18 r19 r20 r21 r22 r23 r24 r25 r26 r27 r28 r29 r30 r31 a0 a1 a2 a3 a4 a5 a6 a7 a8 a9 a10 a11 a12 a13 a14 a15 tA tB sN st =
      (st |> einj1024 a0 a1 a2 a3 a4 a5 a6 a7 a8 a9 a10 a11 a12 (a13 + tA) (a14 + tB) (a15 + sN)
          |> mix1024_0_1 r0
          |> mix1024_2_3 r1
          |> mix1024_4_5 r2
          |> mix1024_6_7 r3
          |> mix1024_8_9 r4
          |> mix1024_10_11 r5
          |> mix1024_12_13 r6
          |> mix1024_14_15 r7
          |> mix1024_0_9 r8
          |> mix1024_2_13 r9
          |> mix1024_6_11 r10
          |> mix1024_4_15 r11
          |> mix1024_10_7 r12
          |> mix1024_12_3 r13
          |> mix1024_14_5 r14
          |> mix1024_8_1 r15
          |> mix1024_0_7 r16
          |> mix1024_2_5 r17
          |> mix1024_4_3 r18
          |> mix1024_6_1 r19
          |> mix1024_12_15 r20
          |> mix1024_14_13 r21
          |> mix1024_8_11 r22
          |> mix1024_10_9 r23
          |> mix1024_0_15 r24
          |> mix1024_2_11 r25
          |> mix1024_6_13 r26
          |> mix1024_4_9 r27
          |> mix1024_14_1 r28
          |> mix1024_8_5 r29
          |> mix1024_10_3 r30
          |> mix1024_12_7 r31) := by
  simp only [cyc1024, imix1024_0_1_addp, imix1024_2_3_addp, imix1024_4_5_addp, imix1024_6_7_addp, imix1024_8_9_addp, imix1024_10_11_addp, imix1024_12_13_addp, imix1024_14_15_addp, addp1024_2_3_mix01, addp1024_4_5_mix01, addp1024_4_5_mix23, addp1024_6_7_mix01, addp1024_6_7_mix23, addp1024_6_7_mix45, addp1024_8_9_mix01, addp1024_8_9_mix23, addp1024_8_9_mix45, addp1024_8_9_mix67, addp1024_10_11_mix01, addp1024_10_11_mix23, addp1024_10_11_mix45, addp1024_10_11_mix67, addp1024_10_11_mix89, addp1024_12_13_mix01, addp1024_12_13_mix23, addp1024_12_13_mix45, addp1024_12_13_mix67, addp1024_12_13_mix89, addp1024_12_13_mix1011, addp1024_14_15_mix01, addp1024_14_15_mix23, addp1024_14_15_mix45, addp1024_14_15_mix67, addp1024_14_15_mix89, addp1024_14_15_mix1011, addp1024_14_15_mix1213, addp1024_merge]

/-- The amended subkey-injection formula for threefish1024 at cycle index s:
word i receives expandedKey[(s + i) mod 17]; additionally word 13
receives expandedTweak[s mod 3], word 14 receives
expandedTweak[(s + 1) mod 3], and word 15 receives the cycle index s. -/
def injectAmended1024 (tf : threefish1024) (s : Nat) : S16 → S16 :=
  einj1024 (tf.expanedKey.getD (s % 17) 0)
    (tf.expanedKey.getD ((s + 1) % 17) 0)
    (tf.expanedKey.getD ((s + 2) % 17) 0)
    (tf.expanedKey.getD ((s + 3) % 17) 0)
    (tf.expanedKey.getD ((s + 4) % 17) 0)
    (tf.expanedKey.getD ((s + 5) % 17) 0)
    (tf.expanedKey.getD ((s + 6) % 17) 0)
    (tf.expanedKey.getD ((s + 7) % 17) 0)
    (tf.expanedKey.getD ((s + 8) % 17) 0)
    (tf.expanedKey.getD ((s + 9) % 17) 0)
    (tf.expanedKey.getD ((s + 10) % 17) 0)
    (tf.expanedKey.getD ((s + 11) % 17) 0)
    (tf.expanedKey.getD ((s + 12) % 17) 0)
    (tf.expanedKey.getD ((s + 13) % 17) 0 + tf.expanedTweak.getD (s % 3) 0)
    (tf.expanedKey.getD ((s + 14) % 17) 0 + tf.expanedTweak.getD ((s + 1) % 3) 0)
    (tf.expanedKey.getD ((s + 15) % 17) 0 + (s : Word))

/-- threefish1024.encrypt in the spec presentation: a whole-state subkey
injection at the start of every 4th round (cycle index s = d / 4) and
once more after the final round, plain MIX rounds between. -/
def specEncrypt1024 (tf : threefish1024) (p : S16) : S16 :=
  p
    |> injectAmended1024 tf 0
    |> mix1024_0_1 24 |> mix1024_2_3 13 |> mix1024_4_5 8 |> mix1024_6_7 47 |> mix1024_8_9 8 |> mix1024_10_11 17 |> mix1024_12_13 22 |> mix1024_14_15 37
    |> mix1024_0_9 38 |> mix1024_2_13 19 |> mix1024_6_11 10 |> mix1024_4_15 55 |> mix1024_10_7 49 |> mix1024_12_3 18 |> mix1024_14_5 23 |> mix1024_8_1 52
    |> mix1024_0_7 33 |> mix1024_2_5 4 |> mix1024_4_3 51 |> mix1024_6_1 13 |> mix1024_12_15 34 |> mix1024_14_13 41 |> mix1024_8_11 59 |> mix1024_10_9 17
    |> mix1024_0_15 5 |> mix1024_2_11 20 |> mix1024_6_13 48 |> mix1024_4_9 41 |> mix1024_14_1 47 |> mix1024_8_5 28 |> mix1024_10_3 16 |> mix1024_12_7 25
    |> injectAmended1024 tf 1
    |> mix1024_0_1 41 |> mix1024_2_3 9 |> mix1024_4_5 37 |> mix1024_6_7 31 |> mix1024_8_9 12 |> mix1024_10_11 47 |> mix1024_12_13 44 |> mix1024_14_15 30
    |> mix1024_0_9 16 |> mix1024_2_13 34 |> mix1024_6_11 56 |> mix1024_4_15 51 |> mix1024_10_7 4 |> mix1024_12_3 53 |> mix1024_14_5 42 |> mix1024_8_1 41
    |> mix1024_0_7 31 |> mix1024_2_5 44 |> mix1024_4_3 47 |> mix1024_6_1 46 |> mix1024_12_15 19 |> mix1024_14_13 42 |> mix1024_8_11 44 |> mix1024_10_9 25
    |> mix1024_0_15 9 |> mix1024_2_11 48 |> mix1024_6_13 35 |> mix1024_4_9 52 |> mix1024_14_1 23 |> mix1024_8_5 31 |> mix1024_10_3 37 |> mix1024_12_7 20
    |> injectAmended1024 tf 2
    |> mix1024_0_1 24 |> mix1024_2_3 13 |> mix1024_4_5 8 |> mix1024_6_7 47 |> mix1024_8_9 8 |> mix1024_10_11 17 |> mix1024_12_13 22 |> mix1024_14_15 37
    |> mix1024_0_9 38 |> mix1024_2_13 19 |> mix1024_6_11 10 |> mix1024_4_15 55 |> mix1024_10_7 49 |> mix1024_12_3 18 |> mix1024_14_5 23 |> mix1024_8_1 52
    |> mix1024_0_7 33 |> mix1024_2_5 4 |> mix1024_4_3 51 |> mix1024_6_1 13 |> mix1024_12_15 34 |> mix1024_14_13 41 |> mix1024_8_11 59 |> mix1024_10_9 17
    |> mix1024_0_15 5 |> mix1024_2_11 20 |> mix1024_6_13 48 |> mix1024_4_9 41 |> mix1024_14_1 47 |> mix1024_8_5 28 |> mix1024_10_3 16 |> mix1024_12_7 25
    |> injectAmended1024 tf 3
    |> mix1024_0_1 41 |> mix1024_2_3 9 |> mix1024_4_5 37 |> mix1024_6_7 31 |> mix1024_8_9 12 |> mix1024_10_11 47 |> mix1024_12_13 44 |> mix1024_14_15 30
    |> mix1024_0_9 16 |> mix1024_2_13 34 |> mix1024_6_11 56 |> mix1024_4_15 51 |> mix1024_10_7 4 |> mix1024_12_3 53 |> mix1024_14_5 42 |> mix1024_8_1 41
    |> mix1024_0_7 31 |> mix1024_2_5 44 |> mix1024_4_3 47 |> mix1024_6_1 46 |> mix1024_12_15 19 |> mix1024_14_13 42 |> mix1024_8_11 44 |> mix1024_10_9 25
    |> mix1024_0_15 9 |> mix1024_2_11 48 |> mix1024_6_13 35 |> mix1024_4_9 52 |> mix1024_14_1 23 |> mix1024_8_5 31 |> mix1024_10_3 37 |> mix1024_12_7 20
    |> injectAmended1024 tf 4
    |> mix1024_0_1 24 |> mix1024_2_3 13 |> mix1024_4_5 8 |> mix1024_6_7 47 |> mix1024_8_9 8 |> mix1024_10_11 17 |> mix1024_12_13 22 |> mix1024_14_15 37
    |> mix1024_0_9 38 |> mix1024_2_13 19 |> mix1024_6_11 10 |> mix1024_4_15 55 |> mix1024_10_7 49 |> mix1024_12_3 18 |> mix1024_14_5 23 |> mix1024_8_1 52
    |> mix1024_0_7 33 |> mix1024_2_5 4 |> mix1024_4_3 51 |> mix1024_6_1 13 |> mix1024_12_15 34 |> mix1024_14_13 41 |> mix1024_8_11 59 |> mix1024_10_9 17
    |> mix1024_0_15 5 |> mix1024_2_11 20 |> mix1024_6_13 48 |> mix1024_4_9 41 |> mix1024_14_1 47 |> mix1024_8_5 28 |> mix1024_10_3 16 |> mix1024_12_7 25
    |> injectAmended1024 tf 5
    |> mix1024_0_1 41 |> mix1024_2_3 9 |> mix1024_4_5 37 |> mix1024_6_7 31 |> mix1024_8_9 12 |> mix1024_10_11 47 |> mix1024_12_13 44 |> mix1024_14_15 30
    |> mix1024_0_9 16 |> mix1024_2_13 34 |> mix1024_6_11 56 |> mix1024_4_15 51 |> mix1024_10_7 4 |> mix1024_12_3 53 |> mix1024_14_5 42 |> mix1024_8_1 41
    |> mix1024_0_7 31 |> mix1024_2_5 44 |> mix1024_4_3 47 |> mix1024_6_1 46 |> mix1024_12_15 19 |> mix1024_14_13 42 |> mix1024_8_11 44 |> mix1024_10_9 25
    |> mix1024_0_15 9 |> mix1024_2_11 48 |> mix1024_6_13 35 |> mix1024_4_9 52 |> mix1024_14_1 23 |> mix1024_8_5 31 |> mix1024_10_3 37 |> mix1024_12_7 20
    |> injectAmended1024 tf 6
    |> mix1024_0_1 24 |> mix1024_2_3 13 |> mix1024_4_5 8 |> mix1024_6_7 47 |> mix1024_8_9 8 |> mix1024_10_11 17 |> mix1024_12_13 22 |> mix1024_14_15 37
    |> mix1024_0_9 38 |> mix1024_2_13 19 |> mix1024_6_11 10 |> mix1024_4_15 55 |> mix1024_10_7 49 |> mix1024_12_3 18 |> mix1024_14_5 23 |> mix1024_8_1 52
    |> mix1024_0_7 33 |> mix1024_2_5 4 |> mix1024_4_3 51 |> mix1024_6_1 13 |> mix1024_12_15 34 |> mix1024_14_13 41 |> mix1024_8_11 59 |> mix1024_10_9 17
    |> mix1024_0_15 5 |> mix1024_2_11 20 |> mix1024_6_13 48 |> mix1024_4_9 41 |> mix1024_14_1 47 |> mix1024_8_5 28 |> mix1024_10_3 16 |> mix1024_12_7 25
    |> injectAmended1024 tf 7
    |> mix1024_0_1 41 |> mix1024_2_3 9 |> mix1024_4_5 37 |> mix1024_6_7 31 |> mix1024_8_9 12 |> mix1024_10_11 47 |> mix1024_12_13 44 |> mix1024_14_15 30
    |> mix1024_0_9 16 |> mix1024_2_13 34 |> mix1024_6_11 56 |> mix1024_4_15 51 |> mix1024_10_7 4 |> mix1024_12_3 53 |> mix1024_14_5 42 |> mix1024_8_1 41
    |> mix1024_0_7 31 |> mix1024_2_5 44 |> mix1024_4_3 47 |> mix1024_6_1 46 |> mix1024_12_15 19 |> mix1024_14_13 42 |> mix1024_8_11 44 |> mix1024_10_9 25
    |> mix1024_0_15 9 |> mix1024_2_11 48 |> mix1024_6_13 35 |> mix1024_4_9 52 |> mix1024_14_1 23 |> mix1024_8_5 31 |> mix1024_10_3 37 |> mix1024_12_7 20
    |> injectAmended1024 tf 8
    |> mix1024_0_1 24 |> mix1024_2_3 13 |> mix1024_4_5 8 |> mix1024_6_7 47 |> mix1024_8_9 8 |> mix1024_10_11 17 |> mix1024_12_13 22 |> mix1024_14_15 37
    |> mix1024_0_9 38 |> mix1024_2_13 19 |> mix1024_6_11 10 |> mix1024_4_15 55 |> mix1024_10_7 49 |> mix1024_12_3 18 |> mix1024_14_5 23 |> mix1024_8_1 52
    |> mix1024_0_7 33 |> mix1024_2_5 4 |> mix1024_4_3 51 |> mix1024_6_1 13 |> mix1024_12_15 34 |> mix1024_14_13 41 |> mix1024_8_11 59 |> mix1024_10_9 17
    |> mix1024_0_15 5 |> mix1024_2_11 20 |> mix1024_6_13 48 |> mix1024_4_9 41 |> mix1024_14_1 47 |> mix1024_8_5 28 |> mix1024_10_3 16 |> mix1024_12_7 25
    |> injectAmended1024 tf 9
    |> mix1024_0_1 41 |> mix1024_2_3 9 |> mix1024_4_5 37 |> mix1024_6_7 31 |> mix1024_8_9 12 |> mix1024_10_11 47 |> mix1024_12_13 44 |> mix1024_14_15 30
    |> mix1024_0_9 16 |> mix1024_2_13 34 |> mix1024_6_11 56 |> mix1024_4_15 51 |> mix1024_10_7 4 |> mix1024_12_3 53 |> mix1024_14_5 42 |> mix1024_8_1 41
    |> mix1024_0_7 31 |> mix1024_2_5 44 |> mix1024_4_3 47 |> mix1024_6_1 46 |> mix1024_12_15 19 |> mix1024_14_13 42 |> mix1024_8_11 44 |> mix1024_10_9 25
    |> mix1024_0_15 9 |> mix1024_2_11 48 |> mix1024_6_13 35 |> mix1024_4_9 52 |> mix1024_14_1 23 |> mix1024_8_5 31 |> mix1024_10_3 37 |> mix1024_12_7 20
    |> injectAmended1024 tf 10
    |> mix1024_0_1 24 |> mix1024_2_3 13 |> mix1024_4_5 8 |> mix1024_6_7 47 |> mix1024_8_9 8 |> mix1024_10_11 17 |> mix1024_12_13 22 |> mix1024_14_15 37
    |> mix1024_0_9 38 |> mix1024_2_13 19 |> mix1024_6_11 10 |> mix1024_4_15 55 |> mix1024_10_7 49 |> mix1024_12_3 18 |> mix1024_14_5 23 |> mix1024_8_1 52
    |> mix1024_0_7 33 |> mix1024_2_5 4 |> mix1024_4_3 51 |> mix1024_6_1 13 |> mix1024_12_15 34 |> mix1024_14_13 41 |> mix1024_8_11 59 |> mix1024_10_9 17
    |> mix1024_0_15 5 |> mix1024_2_11 20 |> mix1024_6_13 48 |> mix1024_4_9 41 |> mix1024_14_1 47 |> mix1024_8_5 28 |> mix1024_10_3 16 |> mix1024_12_7 25
    |> injectAmended1024 tf 11
    |> mix1024_0_1 41 |> mix1024_2_3 9 |> mix1024_4_5 37 |> mix1024_6_7 31 |> mix1024_8_9 12 |> mix1024_10_11 47 |> mix1024_12_13 44 |> mix1024_14_15 30
    |> mix1024_0_9 16 |> mix1024_2_13 34 |> mix1024_6_11 56 |> mix1024_4_15 51 |> mix1024_10_7 4 |> mix1024_12_3 53 |> mix1024_14_5 42 |> mix1024_8_1 41
    |> mix1024_0_7 31 |> mix1024_2_5 44 |> mix1024_4_3 47 |> mix1024_6_1 46 |> mix1024_12_15 19 |> mix1024_14_13 42 |> mix1024_8_11 44 |> mix1024_10_9 25
    |> mix1024_0_15 9 |> mix1024_2_11 48 |> mix1024_6_13 35 |> mix1024_4_9 52 |> mix1024_14_1 23 |> mix1024_8_5 31 |> mix1024_10_3 37 |> mix1024_12_7 20
    |> injectAmended1024 tf 12
    |> mix1024_0_1 24 |> mix1024_2_3 13 |> mix1024_4_5 8 |> mix1024_6_7 47 |> mix1024_8_9 8 |> mix1024_10_11 17 |> mix1024_12_13 22 |> mix1024_14_15 37
    |> mix1024_0_9 38 |> mix1024_2_13 19 |> mix1024_6_11 10 |> mix1024_4_15 55 |> mix1024_10_7 49 |> mix1024_12_3 18 |> mix1024_14_5 23 |> mix1024_8_1 52
    |> mix1024_0_7 33 |> mix1024_2_5 4 |> mix1024_4_3 51 |> mix1024_6_1 13 |> mix1024_12_15 34 |> mix1024_14_13 41 |> mix1024_8_11 59 |> mix1024_10_9 17
    |> mix1024_0_15 5 |> mix1024_2_11 20 |> mix1024_6_13 48 |> mix1024_4_9 41 |> mix1024_14_1 47 |> mix1024_8_5 28 |> mix1024_10_3 16 |> mix1024_12_7 25
    |> injectAmended1024 tf 13
    |> mix1024_0_1 41 |> mix1024_2_3 9 |> mix1024_4_5 37 |> mix1024_6_7 31 |> mix1024_8_9 12 |> mix1024_10_11 47 |> mix1024_12_13 44 |> mix1024_14_15 30
    |> mix1024_0_9 16 |> mix1024_2_13 34 |> mix1024_6_11 56 |> mix1024_4_15 51 |> mix1024_10_7 4 |> mix1024_12_3 53 |> mix1024_14_5 42 |> mix1024_8_1 41
    |> mix1024_0_7 31 |> mix1024_2_5 44 |> mix1024_4_3 47 |> mix1024_6_1 46 |> mix1024_12_15 19 |> mix1024_14_13 42 |> mix1024_8_11 44 |> mix1024_10_9 25
    |> mix1024_0_15 9 |> mix1024_2_11 48 |> mix1024_6_13 35 |> mix1024_4_9 52 |> mix1024_14_1 23 |> mix1024_8_5 31 |> mix1024_10_3 37 |> mix1024_12_7 20
    |> injectAmended1024 tf 14
    |> mix1024_0_1 24 |> mix1024_2_3 13 |> mix1024_4_5 8 |> mix1024_6_7 47 |> mix1024_8_9 8 |> mix1024_10_11 17 |> mix1024_12_13 22 |> mix1024_14_15 37
    |> mix1024_0_9 38 |> mix1024_2_13 19 |> mix1024_6_11 10 |> mix1024_4_15 55 |> mix1024_10_7 49 |> mix1024_12_3 18 |> mix1024_14_5 23 |> mix1024_8_1 52
    |> mix1024_0_7 33 |> mix1024_2_5 4 |> mix1024_4_3 51 |> mix1024_6_1 13 |> mix1024_12_15 34 |> mix1024_14_13 41 |> mix1024_8_11 59 |> mix1024_10_9 17
    |> mix1024_0_15 5 |> mix1024_2_11 20 |> mix1024_6_13 48 |> mix1024_4_9 41 |> mix1024_14_1 47 |> mix1024_8_5 28 |> mix1024_10_3 16 |> mix1024_12_7 25
    |> injectAmended1024 tf 15
    |> mix1024_0_1 41 |> mix1024_2_3 9 |> mix1024_4_5 37 |> mix1024_6_7 31 |> mix1024_8_9 12 |> mix1024_10_11 47 |> mix1024_12_13 44 |> mix1024_14_15 30
    |> mix1024_0_9 16 |> mix1024_2_13 34 |> mix1024_6_11 56 |> mix1024_4_15 51 |> mix1024_10_7 4 |> mix1024_12_3 53 |> mix1024_14_5 42 |> mix1024_8_1 41
    |> mix1024_0_7 31 |> mix1024_2_5 44 |> mix1024_4_3 47 |> mix1024_6_1 46 |> mix1024_12_15 19 |> mix1024_14_13 42 |> mix1024_8_11 44 |> mix1024_10_9 25
    |> mix1024_0_15 9 |> mix1024_2_11 48 |> mix1024_6_13 35 |> mix1024_4_9 52 |> mix1024_14_1 23 |> mix1024_8_5 31 |> mix1024_10_3 37 |> mix1024_12_7 20
    |> injectAmended1024 tf 16
    |> mix1024_0_1 24 |> mix1024_2_3 13 |> mix1024_4_5 8 |> mix1024_6_7 47 |> mix1024_8_9 8 |> mix1024_10_11 17 |> mix1024_12_13 22 |> mix1024_14_15 37
    |> mix1024_0_9 38 |> mix1024_2_13 19 |> mix1024_6_11 10 |> mix1024_4_15 55 |> mix1024_10_7 49 |> mix1024_12_3 18 |> mix1024_14_5 23 |> mix1024_8_1 52
    |> mix1024_0_7 33 |> mix1024_2_5 4 |> mix1024_4_3 51 |> mix1024_6_1 13 |> mix1024_12_15 34 |> mix1024_14_13 41 |> mix1024_8_11 59 |> mix1024_10_9 17
    |> mix1024_0_15 5 |> mix1024_2_11 20 |> mix1024_6_13 48 |> mix1024_4_9 41 |> mix1024_14_1 47 |> mix1024_8_5 28 |> mix1024_10_3 16 |> mix1024_12_7 25
    |> injectAmended1024 tf 17
    |> mix1024_0_1 41 |> mix1024_2_3 9 |> mix1024_4_5 37 |> mix1024_6_7 31 |> mix1024_8_9 12 |> mix1024_10_11 47 |> mix1024_12_13 44 |> mix1024_14_15 30
    |> mix1024_0_9 16 |> mix1024_2_13 34 |> mix1024_6_11 56 |> mix1024_4_15 51 |> mix1024_10_7 4 |> mix1024_12_3 53 |> mix1024_14_5 42 |> mix1024_8_1 41
    |> mix1024_0_7 31 |> mix1024_2_5 44 |> mix1024_4_3 47 |> mix1024_6_1 46 |> mix1024_12_15 19 |> mix1024_14_13 42 |> mix1024_8_11 44 |> mix1024_10_9 25
    |> mix1024_0_15 9 |> mix1024_2_11 48 |> mix1024_6_13 35 |> mix1024_4_9 52 |> mix1024_14_1 23 |> mix1024_8_5 31 |> mix1024_10_3 37 |> mix1024_12_7 20
    |> injectAmended1024 tf 18
    |> mix1024_0_1 24 |> mix1024_2_3 13 |> mix1024_4_5 8 |> mix1024_6_7 47 |> mix1024_8_9 8 |> mix1024_10_11 17 |> mix1024_12_13 22 |> mix1024_14_15 37
    |> mix1024_0_9 38 |> mix1024_2_13 19 |> mix1024_6_11 10 |> mix1024_4_15 55 |> mix1024_10_7 49 |> mix1024_12_3 18 |> mix1024_14_5 23 |> mix1024_8_1 52
    |> mix1024_0_7 33 |> mix1024_2_5 4 |> mix1024_4_3 51 |> mix1024_6_1 13 |> mix1024_12_15 34 |> mix1024_14_13 41 |> mix1024_8_11 59 |> mix1024_10_9 17
    |> mix1024_0_15 5 |> mix1024_2_11 20 |> mix1024_6_13 48 |> mix1024_4_9 41 |> mix1024_14_1 47 |> mix1024_8_5 28 |> mix1024_10_3 16 |> mix1024_12_7 25
    |> injectAmended1024 tf 19
    |> mix1024_0_1 41 |> mix1024_2_3 9 |> mix1024_4_5 37 |> mix1024_6_7 31 |> mix1024_8_9 12 |> mix1024_10_11 47 |> mix1024_12_13 44 |> mix1024_14_15 30
    |> mix1024_0_9 16 |> mix1024_2_13 34 |> mix1024_6_11 56 |> mix1024_4_15 51 |> mix1024_10_7 4 |> mix1024_12_3 53 |> mix1024_14_5 42 |> mix1024_8_1 41
    |> mix1024_0_7 31 |> mix1024_2_5 44 |> mix1024_4_3 47 |> mix1024_6_1 46 |> mix1024_12_15 19 |> mix1024_14_13 42 |> mix1024_8_11 44 |> mix1024_10_9 25
    |> mix1024_0_15 9 |> mix1024_2_11 48 |> mix1024_6_13 35 |> mix1024_4_9 52 |> mix1024_14_1 23 |> mix1024_8_5 31 |> mix1024_10_3 37 |> mix1024_12_7 20
    |> injectAmended1024 tf 20

/-- The unrolled threefish1024.encrypt agrees with the injection-formula
pipeline for every cipher state and block. -/
theorem threefish1024.encrypt_spec_1024 (tf : threefish1024) (p : S16) :
    threefish1024.encrypt tf p = specEncrypt1024 tf p := by
  simp only [threefish1024.encrypt, specEncrypt1024, injectAmended1024, cyc1024_spec]
  norm_num [Nat.cast_ofNat]


/-- The injection formula exactly as claim C2 states it for N = 4: word 2j
receives expandedKey[(s + 2j) mod 5]; word 2j + 1 receives
expandedKey[(s + 2j + 1) mod 5] plus a tweak injection, which for the
second-to-last pair is expandedTweak[s mod 3] and for the last pair is
expandedTweak[(s + 1) mod 3] plus the cycle index s. -/
def injectClaimed256 (tf : threefish256) (s : Nat) : S4 → S4 :=
  einj256 (tf.expanedKey.getD (s % 5) 0)
    (tf.expanedKey.getD ((s + 1) % 5) 0 + tf.expanedTweak.getD (s % 3) 0)
    (tf.expanedKey.getD ((s + 2) % 5) 0)
    (tf.expanedKey.getD ((s + 3) % 5) 0 +
      (tf.expanedTweak.getD ((s + 1) % 3) 0 + (s : Word)))

/-- The encryption pipeline claim C2 describes (claimed injection formula,
same rounds). -/

def specEncryptClaimed256 (tf : threefish256) (p : S4) : S4 :=
  p
    |> injectClaimed256 tf 0
    |> mix256_0_1 14 |> mix256_2_3 16
    |> mix256_0_3 52 |> mix256_2_1 57
    |> mix256_0_1 23 |> mix256_2_3 40
    |> mix256_0_3 5 |> mix256_2_1 37
    |> injectClaimed256 tf 1
    |> mix256_0_1 25 |> mix256_2_3 33
    |> mix256_0_3 46 |> mix256_2_1 12
    |> mix256_0_1 58 |> mix256_2_3 22
    |> mix256_0_3 32 |> mix256_2_1 32
    |> injectClaimed256 tf 2
    |> mix256_0_1 14 |> mix256_2_3 16
    |> mix256_0_3 52 |> mix256_2_1 57
    |> mix256_0_1 23 |> mix256_2_3 40
    |> mix256_0_3 5 |> mix256_2_1 37
    |> injectClaimed256 tf 3
    |> mix256_0_1 25 |> mix256_2_3 33
    |> mix256_0_3 46 |> mix256_2_1 12
    |> mix256_0_1 58 |> mix256_2_3 22
    |> mix256_0_3 32 |> mix256_2_1 32
    |> injectClaimed256 tf 4
    |> mix256_0_1 14 |> mix256_2_3 16
    |> mix256_0_3 52 |> mix256_2_1 57
    |> mix256_0_1 23 |> mix256_2_3 40
    |> mix256_0_3 5 |> mix256_2_1 37
    |> injectClaimed256 tf 5
    |> mix256_0_1 25 |> mix256_2_3 33
    |> mix256_0_3 46 |> mix256_2_1 12
    |> mix256_0_1 58 |> mix256_2_3 22
    |> mix256_0_3 32 |> mix256_2_1 32
    |> injectClaimed256 tf 6
    |> mix256_0_1 14 |> mix256_2_3 16
    |> mix256_0_3 52 |> mix256_2_1 57
    |> mix256_0_1 23 |> mix256_2_3 40
    |> mix256_0_3 5 |> mix256_2_1 37
    |> injectClaimed256 tf 7
    |> mix256_0_1 25 |> mix256_2_3 33
    |> mix256_0_3 46 |> mix256_2_1 12
    |> mix256_0_1 58 |> mix256_2_3 22
    |> mix256_0_3 32 |> mix256_2_1 32
    |> injectClaimed256 tf 8
    |> mix256_0_1 14 |> mix256_2_3 16
    |> mix256_0_3 52 |> mix256_2_1 57
    |> mix256_0_1 23 |> mix256_2_3 40
    |> mix256_0_3 5 |> mix256_2_1 37
    |> injectClaimed256 tf 9
    |> mix256_0_1 25 |> mix256_2_3 33
    |> mix256_0_3 46 |> mix256_2_1 12
    |> mix256_0_1 58 |> mix256_2_3 22
    |> mix256_0_3 32 |> mix256_2_1 32
    |> injectClaimed256 tf 10
    |> mix256_0_1 14 |> mix256_2_3 16
    |> mix256_0_3 52 |> mix256_2_1 57
    |> mix256_0_1 23 |> mix256_2_3 40
    |> mix256_0_3 5 |> mix256_2_1 37
    |> injectClaimed256 tf 11
    |> mix256_0_1 25 |> mix256_2_3 33
    |> mix256_0_3 46 |> mix256_2_1 12
    |> mix256_0_1 58 |> mix256_2_3 22
    |> mix256_0_3 32 |> mix256_2_1 32
    |> injectClaimed256 tf 12
    |> mix256_0_1 14 |> mix256_2_3 16
    |> mix256_0_3 52 |> mix256_2_1 57
    |> mix256_0_1 23 |> mix256_2_3 40
    |> mix256_0_3 5 |> mix256_2_1 37
    |> injectClaimed256 tf 13
    |> mix256_0_1 25 |> mix256_2_3 33
    |> mix256_0_3 46 |> mix256_2_1 12
    |> mix256_0_1 58 |> mix256_2_3 22
    |> mix256_0_3 32 |> mix256_2_1 32
    |> injectClaimed256 tf 14
    |> mix256_0_1 14 |> mix256_2_3 16
    |> mix256_0_3 52 |> mix256_2_1 57
    |> mix256_0_1 23 |> mix256_2_3 40
    |> mix256_0_3 5 |> mix256_2_1 37
    |> injectClaimed256 tf 15
    |> mix256_0_1 25 |> mix256_2_3 33
    |> mix256_0_3 46 |> mix256_2_1 12
    |> mix256_0_1 58 |> mix256_2_3 22
    |> mix256_0_3 32 |> mix256_2_1 32
    |> injectClaimed256 tf 16
    |> mix256_0_1 14 |> mix256_2_3 16
    |> mix256_0_3 52 |> mix256_2_1 57
    |> mix256_0_1 23 |> mix256_2_3 40
    |> mix256_0_3 5 |> mix256_2_1 37
    |> injectClaimed256 tf 17
    |> mix256_0_1 25 |> mix256_2_3 33
    |> mix256_0_3 46 |> mix256_2_1 12
    |> mix256_0_1 58 |> mix256_2_3 22
    |> mix256_0_3 32 |> mix256_2_1 32
    |> injectClaimed256 tf 18



/-- A 256-bit cipher with the zero key and tweak [1, 2], used to separate
the claimed injection schedule from the implemented one. -/
def cexCipher256 : threefish256 := newThreefish256_64 [0, 0, 0, 0] (some [1, 2])

/-- C2 counterexample: the injection schedule as claimed (the last pair's
odd word receiving expandedTweak[(s + 1) mod 3] plus s, its even word only
the key word) does not reproduce threefish256.encrypt: the code adds
expandedTweak[(s + 1) mod 3] to the even word N - 2 and only the cycle
index to the odd word N - 1.  The two pipelines differ on the zero block
already. -/
theorem claim_C2_counterexample :
    specEncryptClaimed256 cexCipher256 ⟨0, 0, 0, 0⟩ ≠
      threefish256.encrypt cexCipher256 ⟨0, 0, 0, 0⟩ := by
  decide

/-- C2 amended: at every subkey injection with cycle index s (start of every
4th round and once after the final round), word i receives
expandedKey[(s + i) mod (N + 1)]; additionally word N - 3 (the odd word of
the second-to-last pair) receives expandedTweak[s mod 3], word N - 2 (the
even word of the last pair) receives expandedTweak[(s + 1) mod 3], and
word N - 1 receives the cycle index s; this holds for every
N in {4, 8, 16}. -/
theorem claim_C2_amended :
    (∀ (tf : threefish256) (p : S4),
        threefish256.encrypt tf p = specEncrypt256 tf p) ∧
    (∀ (tf : threefish512) (p : S8),
        threefish512.encrypt tf p = specEncrypt512 tf p) ∧
    (∀ (tf : threefish1024) (p : S16),
        threefish1024.encrypt tf p = specEncrypt1024 tf p) :=
  ⟨threefish256.encrypt_spec_256, threefish512.encrypt_spec_512, threefish1024.encrypt_spec_1024⟩

/-! Claim C3: the key-schedule invariant across construction and call
sequences. -/

/-- The parity formula of the spec: KEY_SCHEDULE_CONST xor key[0] xor ...
xor key[n-1]. -/
def keyParity (key : List Word) (n : Nat) : Word :=
  ((List.range n).map (fun i => key.getD i 0)).foldl wxor KEY_SCHEDULE_CONST

/-- The expanded key ek is the expansion of key: ek[i] = key[i] for i < n
and ek[n] is the parity word. -/
def KeyScheduleOK (ek key : List Word) (n : Nat) : Prop :=
  (∀ i < n, ek.getD i 0 = key.getD i 0) ∧ ek.getD n 0 = keyParity key n

/-- The output of the Go setKey helper satisfies the spec formula. -/
theorem setKeyGo_ok (key : List Word) (n : Nat) :
    KeyScheduleOK (setKeyGo key n) key n := by
  constructor
  · intro i hi
    simp [setKeyGo, List.getD_eq_getElem?_getD, List.getElem?_append,
      List.getElem?_map, List.getElem?_range, hi]
  · simp [setKeyGo, keyParity, List.getD_eq_getElem?_getD,
      List.getElem?_append]

/-- One facade operation of the sequences claim C3 quantifies over. -/
inductive CipherOp where
  | opSetKey (key : List Word)
  | opSetTweak (tweak : Option (List Word))
  | opEncrypt
  | opDecrypt
deriving DecidableEq

/-- Validity of an operation argument for a variant with n words: a rekey
must supply exactly n words (the claimed valid length); the other
operations carry no length constraint relevant to the key schedule. -/
def KeyOpLen (n : Nat) : CipherOp → Prop
  | .opSetKey k => k.length = n
  | _ => True

/-- Applying one operation.  Go Encrypt/Decrypt (byte or word form) write
only the scratch buffers and the output, never the expanded key or tweak,
so they leave the modelled state unchanged; SetKey faults (none) on short
keys. -/
def Cipher.applyOp (c : Cipher) : CipherOp → Option Cipher
  | .opSetKey k => c.SetKey k
  | .opSetTweak t => some (c.SetTweak t)
  | .opEncrypt => some c
  | .opDecrypt => some c

def Cipher.applyOps (c : Cipher) (ops : List CipherOp) : Option Cipher :=
  ops.foldlM Cipher.applyOp c

/-- The most recently supplied key: the last opSetKey payload, else the
initial key material. -/
def lastKey (k0 : List Word) (ops : List CipherOp) : List Word :=
  ops.foldl (fun acc op => match op with | .opSetKey k => k | _ => acc) k0

/-- c was produced by one of the three constructors, with initial key
words k0 (decoded from bytes for NewCipher; all-zero for NewCipherSize). -/
def InitKey (c : Cipher) (k0 : List Word) : Prop :=
  (∃ key tweak, NewCipher key tweak = .ok c ∧ k0 = loadWords key c.words) ∨
  (∃ key tweak, NewCipher64 key tweak = .ok c ∧ k0 = key) ∨
  (∃ size, NewCipherSize size = .ok c ∧ k0 = List.replicate c.words 0)

theorem Cipher.SetKey_spec (c : Cipher) (key : List Word)
    (h : c.words ≤ key.length) :
    c.SetKey key = some
      { c with internal :=
          match c.internal with
          | .tf256 tf => .tf256 { tf with expanedKey := setKeyGo key 4 }
          | .tf512 tf => .tf512 { tf with expanedKey := setKeyGo key 8 }
          | .tf1024 tf => .tf1024 { tf with expanedKey := setKeyGo key 16 } } := by
  obtain ⟨ss, ci⟩ := c
  cases ci <;>
    simp_all [Cipher.SetKey, Cipher.words, cipherInternal.words,
      threefish256.setKey, threefish512.setKey, threefish1024.setKey]

theorem Cipher.SetTweak_expKey (c : Cipher) (t : Option (List Word)) :
    (c.SetTweak t).expKey = c.expKey ∧ (c.SetTweak t).words = c.words := by
  obtain ⟨ss, ci⟩ := c
  cases ci <;> exact ⟨rfl, rfl⟩

/-- Running any valid operation sequence from a state whose expanded key is
setKeyGo of some key keeps that shape, with the key replaced by the last
one supplied. -/
theorem applyOps_key (ops : List CipherOp) :
    ∀ (c : Cipher) (k : List Word),
      c.expKey = setKeyGo k c.words →
      (∀ op ∈ ops, KeyOpLen c.words op) →
      ∃ cx, c.applyOps ops = some cx ∧ cx.words = c.words ∧
        cx.expKey = setKeyGo (lastKey k ops) c.words := by
  induction ops with
  | nil => exact fun c k hk _ => ⟨c, rfl, rfl, hk⟩
  | cons op ops ih =>
    intro c k hk hv
    match op with
    | .opSetKey knew =>
        have hlen : knew.length = c.words := hv (.opSetKey knew) (by simp)
        have hstep := c.SetKey_spec knew (le_of_eq hlen.symm)
        set c2 : Cipher :=
          { c with internal :=
              match c.internal with
              | .tf256 tf => .tf256 { tf with expanedKey := setKeyGo knew 4 }
              | .tf512 tf => .tf512 { tf with expanedKey := setKeyGo knew 8 }
              | .tf1024 tf => .tf1024 { tf with expanedKey := setKeyGo knew 16 } } with hc2
        have hw : c2.words = c.words := by
          obtain ⟨ss, ci⟩ := c
          cases ci <;> rfl
        have hek : c2.expKey = setKeyGo knew c.words := by
          obtain ⟨ss, ci⟩ := c
          cases ci <;> simp [hc2, Cipher.expKey, cipherInternal.expKey,
            Cipher.words, cipherInternal.words]
        obtain ⟨cx, hx, hxw, hxe⟩ := ih c2 knew (by rw [hek, hw])
          (by intro o ho; have := hv o (by simp [ho]); rwa [hw])
        refine ⟨cx, ?_, by rw [hxw, hw], ?_⟩
        · show (c.applyOp (.opSetKey knew)) >>= (fun c3 => c3.applyOps ops) = some cx
          rw [show c.applyOp (.opSetKey knew) = c.SetKey knew from rfl, hstep]
          exact hx
        · rw [hxe, hw]
          rfl
    | .opSetTweak t =>
        obtain ⟨he, hw⟩ := c.SetTweak_expKey t
        obtain ⟨cx, hx, hxw, hxe⟩ := ih (c.SetTweak t) k (by rw [he, hw, hk])
          (by intro o ho; have := hv o (by simp [ho]); rwa [hw])
        refine ⟨cx, hx, by rw [hxw, hw], ?_⟩
        rw [hxe, hw]
        rfl
    | .opEncrypt =>
        obtain ⟨cx, hx, hxw, hxe⟩ := ih c k hk
          (fun o ho => hv o (by simp [ho]))
        exact ⟨cx, hx, hxw, hxe⟩
    | .opDecrypt =>
        obtain ⟨cx, hx, hxw, hxe⟩ := ih c k hk
          (fun o ho => hv o (by simp [ho]))
        exact ⟨cx, hx, hxw, hxe⟩

/-- C3: for every cipher reachable by construction (any of the three
constructors) and any sequence of SetKey/SetTweak/encrypt/decrypt calls
with valid-length arguments, the run succeeds and the expanded key
satisfies expandedKey[i] = key[i] for i < N and expandedKey[N] =
0x1BD11BDAA9FC1A22 xor (key[0] xor ... xor key[N-1]), where key is the
most recently supplied key (the construction key, or all-zero when the
size-only constructor supplied none). -/
theorem claim_C3_key_schedule (c0 : Cipher) (k0 : List Word)
    (ops : List CipherOp) (hinit : InitKey c0 k0)
    (hval : ∀ op ∈ ops, KeyOpLen c0.words op) :
    ∃ cx, c0.applyOps ops = some cx ∧
      KeyScheduleOK cx.expKey (lastKey k0 ops) c0.words := by
  have hbase : c0.expKey = setKeyGo k0 c0.words := by
    rcases hinit with ⟨key, tweak, hok, hk0⟩ | ⟨key, tweak, hok, hk0⟩ | ⟨size, hok, hk0⟩
    · rw [NewCipher] at hok
      split_ifs at hok with h1 h2 h3 <;>
        first
          | exact Except.noConfusion hok
          | (cases hok
             subst hk0
             cases key <;> rfl)
    · rw [NewCipher64] at hok
      split_ifs at hok with h1 h2 h3 <;>
        first
          | exact Except.noConfusion hok
          | (cases hok
             subst hk0
             rfl)
    · rw [NewCipherSize] at hok
      split_ifs at hok with h1 h2 h3 <;>
        first
          | exact Except.noConfusion hok
          | (cases hok
             subst hk0
             simp only [Cipher.expKey, Cipher.words, cipherInternal.expKey,
               cipherInternal.words]
             decide)
  obtain ⟨cx, hx, hw, he⟩ := applyOps_key ops c0 k0 hbase hval
  refine ⟨cx, hx, ?_⟩
  rw [he]
  exact setKeyGo_ok _ _

/-- C3 witness: a cipher built by NewCipherSize 256, rekeyed with
[5, 6, 7, 8] and then used to encrypt, carries the expansion of
[5, 6, 7, 8]. -/
theorem claim_C3_key_schedule_w :
    ∃ cx, (Cipher.mk 256 (.tf256 (newThreefish256 none none))).applyOps
        [.opSetKey [5, 6, 7, 8], .opEncrypt] = some cx ∧
      KeyScheduleOK cx.expKey
        (lastKey (List.replicate 4 0) [.opSetKey [5, 6, 7, 8], .opEncrypt]) 4 :=
  claim_C3_key_schedule (Cipher.mk 256 (.tf256 (newThreefish256 none none)))
    (List.replicate 4 0) [.opSetKey [5, 6, 7, 8], .opEncrypt]
    (Or.inr (Or.inr ⟨256, rfl, rfl⟩))
    (by
      intro op hop
      rcases List.mem_cons.mp hop with rfl | hop
      · show ([5, 6, 7, 8] : List Word).length =
          (Cipher.mk 256 (.tf256 (newThreefish256 none none))).words
        rfl
      · rcases List.mem_singleton.mp hop with rfl
        trivial)

/-! Claim C10: the byte-oriented facade agrees with the word engines. -/

/-- Concatenated little-endian encodings of a word list. -/
def storeWords : List Word → List Byte
  | [] => []
  | w :: ws => store64 w ++ storeWords ws

theorem writeBytes_eq (bs : List Byte) : ∀ (dst : List Byte) (off : Nat),
    off + bs.length ≤ dst.length →
    writeBytes dst off bs = dst.take off ++ bs ++ dst.drop (off + bs.length) := by
  induction bs with
  | nil =>
    intro dst off h
    simp [writeBytes, List.take_append_drop]
  | cons b bs ih =>
    intro dst off h
    have hlen : b :: bs ≠ [] := by simp
    have hoff : off < dst.length := by
      simp only [List.length_cons] at h
      omega
    have hT : (dst.take off).length = off := by
      rw [List.length_take]
      omega
    have step1 :
        (dst.take off ++ b :: dst.drop (off + 1)).take (off + 1) =
          dst.take off ++ [b] := by
      rw [show off + 1 = (dst.take off).length + 1 by rw [hT], List.take_append]
      rfl
    have step2 :
        (dst.take off ++ b :: dst.drop (off + 1)).drop (off + 1 + bs.length) =
          dst.drop (off + 1 + bs.length) := by
      rw [show off + 1 + bs.length = (dst.take off).length + (bs.length + 1) by
            rw [hT]; omega,
        List.drop_append, List.drop_succ_cons, List.drop_drop]
      congr 1
      omega
    calc writeBytes dst off (b :: bs)
        = writeBytes (dst.set off b) (off + 1) bs := rfl
      _ = (dst.set off b).take (off + 1) ++ bs ++
            (dst.set off b).drop (off + 1 + bs.length) := by
          refine ih _ _ ?_
          rw [List.length_set]
          simp only [List.length_cons] at h
          omega
      _ = (dst.take off ++ [b]) ++ bs ++ dst.drop (off + 1 + bs.length) := by
          rw [List.set_eq_take_cons_drop b hoff, step1, step2]
      _ = dst.take off ++ b :: bs ++ dst.drop (off + (b :: bs).length) := by
          simp only [List.append_assoc, List.singleton_append, List.length_cons]
          rw [show off + 1 + bs.length = off + (bs.length + 1) by omega]

theorem putWords_eq (ws : List Word) : ∀ (dst : List Byte) (off : Nat),
    off + 8 * ws.length ≤ dst.length →
    putWords dst off ws = dst.take off ++ storeWords ws ++
      dst.drop (off + 8 * ws.length) := by
  induction ws with
  | nil =>
    intro dst off h
    simp [putWords, storeWords, List.take_append_drop]
  | cons w ws ih =>
    intro dst off h
    have h8 : (store64 w).length = 8 := by simp [store64]
    have hlen : off + 8 ≤ dst.length := by
      simp only [List.length_cons] at h
      omega
    have hwb := writeBytes_eq (store64 w) dst off (by rw [h8]; omega)
    rw [h8] at hwb
    have hwbl : (writeBytes dst off (store64 w)).length = dst.length := by
      rw [hwb]
      simp only [List.length_append, List.length_take, List.length_drop, h8]
      omega
    have hT : (dst.take off).length = off := by
      rw [List.length_take]
      omega
    have e1 : (dst.take off ++ store64 w ++ dst.drop (off + 8)).take (off + 8) =
        dst.take off ++ store64 w := by
      rw [List.append_assoc,
        show off + 8 = (dst.take off).length + 8 by rw [hT],
        List.take_append,
        show (8 : Nat) = (store64 w).length from h8.symm, List.take_left]
    have e2 : (dst.take off ++ store64 w ++ dst.drop (off + 8)).drop
          (off + 8 + 8 * ws.length) =
        dst.drop (off + 8 + 8 * ws.length) := by
      rw [List.append_assoc,
        show off + 8 + 8 * ws.length =
          (dst.take off).length + (8 + 8 * ws.length) by rw [hT]; omega,
        List.drop_append,
        show 8 + 8 * ws.length = (store64 w).length + 8 * ws.length by rw [h8],
        List.drop_append, List.drop_drop]
      congr 1
      omega
    calc putWords dst off (w :: ws)
        = putWords (writeBytes dst off (store64 w)) (off + 8) ws := rfl
      _ = (writeBytes dst off (store64 w)).take (off + 8) ++ storeWords ws ++
            (writeBytes dst off (store64 w)).drop (off + 8 + 8 * ws.length) := by
          refine ih _ _ ?_
          rw [hwbl]
          simp only [List.length_cons] at h
          omega
      _ = (dst.take off ++ store64 w) ++ storeWords ws ++
            dst.drop (off + 8 + 8 * ws.length) := by
          rw [hwb, e1, e2]
      _ = dst.take off ++ storeWords (w :: ws) ++
            dst.drop (off + 8 * (w :: ws).length) := by
          simp only [storeWords, List.append_assoc, List.length_cons]
          rw [show off + 8 + 8 * ws.length = off + 8 * (ws.length + 1) by omega]
/-! Claim C10: the byte-oriented Cipher.Encrypt/Decrypt refine the
word-oriented engines. -/

theorem getD_take {α : Type} {l : List α} {n i : Nat} (h : i < n) (d : α) :
    (l.take n).getD i d = l.getD i d := by
  rw [List.getD_eq_getElem?_getD, List.getD_eq_getElem?_getD, List.getElem?_take,
    if_pos h]

/-- Reading a word from the first n bytes of a buffer touches only bytes
below n, so the truncation is invisible. -/
theorem load64_take {src : List Byte} {n off : Nat} (h : off + 8 ≤ n) :
    load64 (src.take n) off = load64 src off := by
  apply Fin.ext
  simp only [load64, show List.range 8 = [0, 1, 2, 3, 4, 5, 6, 7] from rfl,
    List.foldl_cons, List.foldl_nil]
  rw [getD_take (show off + 0 < n by omega),
    getD_take (show off + 1 < n by omega),
    getD_take (show off + 2 < n by omega),
    getD_take (show off + 3 < n by omega),
    getD_take (show off + 4 < n by omega),
    getD_take (show off + 5 < n by omega),
    getD_take (show off + 6 < n by omega),
    getD_take (show off + 7 < n by omega)]

/-- Byte-level Encrypt/Decrypt on a Threefish-256 cipher write exactly the
little-endian encoding (storeWords) of the word engine (Encrypt64/Decrypt64)
applied to the little-endian decoding (loadWords) of the first 32 bytes of
src, and keep dst unchanged from byte 32 on. -/
theorem bytes256 (tf : threefish256) (dst src : List Byte)
    (h : 32 ≤ dst.length) :
    (Cipher.mk 256 (.tf256 tf)).Encrypt dst src =
      storeWords ((Cipher.mk 256 (.tf256 tf)).Encrypt64 (loadWords (src.take 32) 4)) ++
        dst.drop 32 ∧
    (Cipher.mk 256 (.tf256 tf)).Decrypt dst src =
      storeWords ((Cipher.mk 256 (.tf256 tf)).Decrypt64 (loadWords (src.take 32) 4)) ++
        dst.drop 32 := by
  refine ⟨?_, ?_⟩
  · simp only [Cipher.Encrypt, Cipher.Encrypt64, cipherInternal.encrypt]
    rw [show loadWords (src.take 32) 4 =
      [load64 (src.take 32) 0, load64 (src.take 32) 8, load64 (src.take 32) 16, load64 (src.take 32) 24] from rfl]
    rw [load64_take (show 0 + 8 ≤ 32 by omega),
      load64_take (show 8 + 8 ≤ 32 by omega),
      load64_take (show 16 + 8 ≤ 32 by omega),
      load64_take (show 24 + 8 ≤ 32 by omega)]
    rw [show ((List.range (256 / 64)).map (fun i => load64 src (8 * i))) =
      [load64 src 0, load64 src 8, load64 src 16, load64 src 24] from rfl]
    have hlen : (tf.encrypt (S4.ofList
      [load64 src 0, load64 src 8, load64 src 16, load64 src 24])).toList.length = 4 := rfl
    generalize hE : (tf.encrypt (S4.ofList
      [load64 src 0, load64 src 8, load64 src 16, load64 src 24])).toList = L at hlen ⊢
    rw [show (256 : Nat) / 64 = 4 from rfl,
      List.take_of_length_le (le_of_eq hlen)]
    rw [putWords_eq L dst 0 (by omega)]
    rw [hlen, List.take_zero, List.nil_append]
  · simp only [Cipher.Decrypt, Cipher.Decrypt64, cipherInternal.decrypt]
    rw [show loadWords (src.take 32) 4 =
      [load64 (src.take 32) 0, load64 (src.take 32) 8, load64 (src.take 32) 16, load64 (src.take 32) 24] from rfl]
    rw [load64_take (show 0 + 8 ≤ 32 by omega),
      load64_take (show 8 + 8 ≤ 32 by omega),
      load64_take (show 16 + 8 ≤ 32 by omega),
      load64_take (show 24 + 8 ≤ 32 by omega)]
    rw [show ((List.range (256 / 64)).map (fun i => load64 src (8 * i))) =
      [load64 src 0, load64 src 8, load64 src 16, load64 src 24] from rfl]
    have hlen : (tf.decrypt (S4.ofList
      [load64 src 0, load64 src 8, load64 src 16, load64 src 24])).toList.length = 4 := rfl
    generalize hE : (tf.decrypt (S4.ofList
      [load64 src 0, load64 src 8, load64 src 16, load64 src 24])).toList = L at hlen ⊢
    rw [show (256 : Nat) / 64 = 4 from rfl,
      List.take_of_length_le (le_of_eq hlen)]
    rw [putWords_eq L dst 0 (by omega)]
    rw [hlen, List.take_zero, List.nil_append]

/-- Byte-level Encrypt/Decrypt on a Threefish-512 cipher write exactly the
little-endian encoding (storeWords) of the word engine (Encrypt64/Decrypt64)
applied to the little-endian decoding (loadWords) of the first 64 bytes of
src, and keep dst unchanged from byte 64 on. -/
theorem bytes512 (tf : threefish512) (dst src : List Byte)
    (h : 64 ≤ dst.length) :
    (Cipher.mk 512 (.tf512 tf)).Encrypt dst src =
      storeWords ((Cipher.mk 512 (.tf512 tf)).Encrypt64 (loadWords (src.take 64) 8)) ++
        dst.drop 64 ∧
    (Cipher.mk 512 (.tf512 tf)).Decrypt dst src =
      storeWords ((Cipher.mk 512 (.tf512 tf)).Decrypt64 (loadWords (src.take 64) 8)) ++
        dst.drop 64 := by
  refine ⟨?_, ?_⟩
  · simp only [Cipher.Encrypt, Cipher.Encrypt64, cipherInternal.encrypt]
    rw [show loadWords (src.take 64) 8 =
      [load64 (src.take 64) 0, load64 (src.take 64) 8, load64 (src.take 64) 16, load64 (src.take 64) 24,
       load64 (src.take 64) 32, load64 (src.take 64) 40, load64 (src.take 64) 48, load64 (src.take 64) 56] from rfl]
    rw [load64_take (show 0 + 8 ≤ 64 by omega),
      load64_take (show 8 + 8 ≤ 64 by omega),
      load64_take (show 16 + 8 ≤ 64 by omega),
      load64_take (show 24 + 8 ≤ 64 by omega),
      load64_take (show 32 + 8 ≤ 64 by omega),
      load64_take (show 40 + 8 ≤ 64 by omega),
      load64_take (show 48 + 8 ≤ 64 by omega),
      load64_take (show 56 + 8 ≤ 64 by omega)]
    rw [show ((List.range (512 / 64)).map (fun i => load64 src (8 * i))) =
      [load64 src 0, load64 src 8, load64 src 16, load64 src 24,
      load64 src 32, load64 src 40, load64 src 48, load64 src 56] from rfl]
    have hlen : (tf.encrypt (S8.ofList
      [load64 src 0, load64 src 8, load64 src 16, load64 src 24,
      load64 src 32, load64 src 40, load64 src 48, load64 src 56])).toList.length = 8 := rfl
    generalize hE : (tf.encrypt (S8.ofList
      [load64 src 0, load64 src 8, load64 src 16, load64 src 24,
      load64 src 32, load64 src 40, load64 src 48, load64 src 56])).toList = L at hlen ⊢
    rw [show (512 : Nat) / 64 = 8 from rfl,
      List.take_of_length_le (le_of_eq hlen)]
    rw [putWords_eq L dst 0 (by omega)]
    rw [hlen, List.take_zero, List.nil_append]
  · simp only [Cipher.Decrypt, Cipher.Decrypt64, cipherInternal.decrypt]
    rw [show loadWords (src.take 64) 8 =
      [load64 (src.take 64) 0, load64 (src.take 64) 8, load64 (src.take 64) 16, load64 (src.take 64) 24,
       load64 (src.take 64) 32, load64 (src.take 64) 40, load64 (src.take 64) 48, load64 (src.take 64) 56] from rfl]
    rw [load64_take (show 0 + 8 ≤ 64 by omega),
      load64_take (show 8 + 8 ≤ 64 by omega),
      load64_take (show 16 + 8 ≤ 64 by omega),
      load64_take (show 24 + 8 ≤ 64 by omega),
      load64_take (show 32 + 8 ≤ 64 by omega),
      load64_take (show 40 + 8 ≤ 64 by omega),
      load64_take (show 48 + 8 ≤ 64 by omega),
      load64_take (show 56 + 8 ≤ 64 by omega)]
    rw [show ((List.range (512 / 64)).map (fun i => load64 src (8 * i))) =
      [load64 src 0, load64 src 8, load64 src 16, load64 src 24,
      load64 src 32, load64 src 40, load64 src 48, load64 src 56] from rfl]
    have hlen : (tf.decrypt (S8.ofList
      [load64 src 0, load64 src 8, load64 src 16, load64 src 24,
      load64 src 32, load64 src 40, load64 src 48, load64 src 56])).toList.length = 8 := rfl
    generalize hE : (tf.decrypt (S8.ofList
      [load64 src 0, load64 src 8, load64 src 16, load64 src 24,
      load64 src 32, load64 src 40, load64 src 48, load64 src 56])).toList = L at hlen ⊢
    rw [show (512 : Nat) / 64 = 8 from rfl,
      List.take_of_length_le (le_of_eq hlen)]
    rw [putWords_eq L dst 0 (by omega)]
    rw [hlen, List.take_zero, List.nil_append]

/-- Byte-level Encrypt/Decrypt on a Threefish-1024 cipher write exactly the
little-endian encoding (storeWords) of the word engine (Encrypt64/Decrypt64)
applied to the little-endian decoding (loadWords) of the first 128 bytes of
src, and keep dst unchanged from byte 128 on. -/
theorem bytes1024 (tf : threefish1024) (dst src : List Byte)
    (h : 128 ≤ dst.length) :
    (Cipher.mk 1024 (.tf1024 tf)).Encrypt dst src =
      storeWords ((Cipher.mk 1024 (.tf1024 tf)).Encrypt64 (loadWords (src.take 128) 16)) ++
        dst.drop 128 ∧
    (Cipher.mk 1024 (.tf1024 tf)).Decrypt dst src =
      storeWords ((Cipher.mk 1024 (.tf1024 tf)).Decrypt64 (loadWords (src.take 128) 16)) ++
        dst.drop 128 := by
  refine ⟨?_, ?_⟩
  · simp only [Cipher.Encrypt, Cipher.Encrypt64, cipherInternal.encrypt]
    rw [show loadWords (src.take 128) 16 =
      [load64 (src.take 128) 0, load64 (src.take 128) 8, load64 (src.take 128) 16, load64 (src.take 128) 24,
       load64 (src.take 128) 32, load64 (src.take 128) 40, load64 (src.take 128) 48, load64 (src.take 128) 56,
       load64 (src.take 128) 64, load64 (src.take 128) 72, load64 (src.take 128) 80, load64 (src.take 128) 88,
       load64 (src.take 128) 96, load64 (src.take 128) 104, load64 (src.take 128) 112, load64 (src.take 128) 120] from rfl]
    rw [load64_take (show 0 + 8 ≤ 128 by omega),
      load64_take (show 8 + 8 ≤ 128 by omega),
      load64_take (show 16 + 8 ≤ 128 by omega),
      load64_take (show 24 + 8 ≤ 128 by omega),
      load64_take (show 32 + 8 ≤ 128 by omega),
      load64_take (show 40 + 8 ≤ 128 by omega),
      load64_take (show 48 + 8 ≤ 128 by omega),
      load64_take (show 56 + 8 ≤ 128 by omega),
      load64_take (show 64 + 8 ≤ 128 by omega),
      load64_take (show 72 + 8 ≤ 128 by omega),
      load64_take (show 80 + 8 ≤ 128 by omega),
      load64_take (show 88 + 8 ≤ 128 by omega),
      load64_take (show 96 + 8 ≤ 128 by omega),
      load64_take (show 104 + 8 ≤ 128 by omega),
      load64_take (show 112 + 8 ≤ 128 by omega),
      load64_take (show 120 + 8 ≤ 128 by omega)]
    rw [show ((List.range (1024 / 64)).map (fun i => load64 src (8 * i))) =
      [load64 src 0, load64 src 8, load64 src 16, load64 src 24,
      load64 src 32, load64 src 40, load64 src 48, load64 src 56,
      load64 src 64, load64 src 72, load64 src 80, load64 src 88,
      load64 src 96, load64 src 104, load64 src 112, load64 src 120] from rfl]
    have hlen : (tf.encrypt (S16.ofList
      [load64 src 0, load64 src 8, load64 src 16, load64 src 24,
      load64 src 32, load64 src 40, load64 src 48, load64 src 56,
      load64 src 64, load64 src 72, load64 src 80, load64 src 88,
      load64 src 96, load64 src 104, load64 src 112, load64 src 120])).toList.length = 16 := rfl
    generalize hE : (tf.encrypt (S16.ofList
      [load64 src 0, load64 src 8, load64 src 16, load64 src 24,
      load64 src 32, load64 src 40, load64 src 48, load64 src 56,
      load64 src 64, load64 src 72, load64 src 80, load64 src 88,
      load64 src 96, load64 src 104, load64 src 112, load64 src 120])).toList = L at hlen ⊢
    rw [show (1024 : Nat) / 64 = 16 from rfl,
      List.take_of_length_le (le_of_eq hlen)]
    rw [putWords_eq L dst 0 (by omega)]
    rw [hlen, List.take_zero, List.nil_append]
  · simp only [Cipher.Decrypt, Cipher.Decrypt64, cipherInternal.decrypt]
    rw [show loadWords (src.take 128) 16 =
      [load64 (src.take 128) 0, load64 (src.take 128) 8, load64 (src.take 128) 16, load64 (src.take 128) 24,
       load64 (src.take 128) 32, load64 (src.take 128) 40, load64 (src.take 128) 48, load64 (src.take 128) 56,
       load64 (src.take 128) 64, load64 (src.take 128) 72, load64 (src.take 128) 80, load64 (src.take 128) 88,
       load64 (src.take 128) 96, load64 (src.take 128) 104, load64 (src.take 128) 112, load64 (src.take 128) 120] from rfl]
    rw [load64_take (show 0 + 8 ≤ 128 by omega),
      load64_take (show 8 + 8 ≤ 128 by omega),
      load64_take (show 16 + 8 ≤ 128 by omega),
      load64_take (show 24 + 8 ≤ 128 by omega),
      load64_take (show 32 + 8 ≤ 128 by omega),
      load64_take (show 40 + 8 ≤ 128 by omega),
      load64_take (show 48 + 8 ≤ 128 by omega),
      load64_take (show 56 + 8 ≤ 128 by omega),
      load64_take (show 64 + 8 ≤ 128 by omega),
      load64_take (show 72 + 8 ≤ 128 by omega),
      load64_take (show 80 + 8 ≤ 128 by omega),
      load64_take (show 88 + 8 ≤ 128 by omega),
      load64_take (show 96 + 8 ≤ 128 by omega),
      load64_take (show 104 + 8 ≤ 128 by omega),
      load64_take (show 112 + 8 ≤ 128 by omega),
      load64_take (show 120 + 8 ≤ 128 by omega)]
    rw [show ((List.range (1024 / 64)).map (fun i => load64 src (8 * i))) =
      [load64 src 0, load64 src 8, load64 src 16, load64 src 24,
      load64 src 32, load64 src 40, load64 src 48, load64 src 56,
      load64 src 64, load64 src 72, load64 src 80, load64 src 88,
      load64 src 96, load64 src 104, load64 src 112, load64 src 120] from rfl]
    have hlen : (tf.decrypt (S16.ofList
      [load64 src 0, load64 src 8, load64 src 16, load64 src 24,
      load64 src 32, load64 src 40, load64 src 48, load64 src 56,
      load64 src 64, load64 src 72, load64 src 80, load64 src 88,
      load64 src 96, load64 src 104, load64 src 112, load64 src 120])).toList.length = 16 := rfl
    generalize hE : (tf.decrypt (S16.ofList
      [load64 src 0, load64 src 8, load64 src 16, load64 src 24,
      load64 src 32, load64 src 40, load64 src 48, load64 src 56,
      load64 src 64, load64 src 72, load64 src 80, load64 src 88,
      load64 src 96, load64 src 104, load64 src 112, load64 src 120])).toList = L at hlen ⊢
    rw [show (1024 : Nat) / 64 = 16 from rfl,
      List.take_of_length_le (le_of_eq hlen)]
    rw [putWords_eq L dst 0 (by omega)]
    rw [hlen, List.take_zero, List.nil_append]

theorem Cipher.BlockSize_mk (n : Nat) (i : cipherInternal) :
    (Cipher.mk n i).BlockSize = n / 8 := rfl

/-- C10: for every cipher built by NewCipher from a valid byte key, and
every dst holding at least BlockSize bytes, the byte-oriented
Cipher.Encrypt writes into dst[0..BlockSize) exactly the per-word
little-endian encoding (storeWords) of the word-oriented encryption
(Cipher.Encrypt64) of the per-word little-endian decoding (loadWords) of
src[0..BlockSize), leaves dst unchanged from byte BlockSize on, and
ignores src from byte BlockSize on (only src.take BlockSize enters);
Cipher.Decrypt agrees likewise with the word-oriented decryption. -/
theorem claim_C10_byte_refinement (key : List Byte) (tweak : Option (List Word))
    (c : Cipher) (hc : NewCipher key tweak = .ok c)
    (dst src : List Byte) (hdst : c.BlockSize ≤ dst.length) :
    c.Encrypt dst src =
      storeWords (c.Encrypt64 (loadWords (src.take c.BlockSize)
        (c.BlockSize / 8))) ++ dst.drop c.BlockSize ∧
    c.Decrypt dst src =
      storeWords (c.Decrypt64 (loadWords (src.take c.BlockSize)
        (c.BlockSize / 8))) ++ dst.drop c.BlockSize := by
  unfold NewCipher at hc
  by_cases h32 : key.length = 32
  · rw [if_pos h32] at hc
    injection hc with h
    subst h
    rw [h32] at hdst ⊢
    simp only [Cipher.BlockSize_mk] at hdst ⊢
    norm_num at hdst ⊢
    exact bytes256 (newThreefish256 (some key) tweak) dst src hdst
  · rw [if_neg h32] at hc
    by_cases h64 : key.length = 64
    · rw [if_pos h64] at hc
      injection hc with h
      subst h
      rw [h64] at hdst ⊢
      simp only [Cipher.BlockSize_mk] at hdst ⊢
      norm_num at hdst ⊢
      exact bytes512 (newThreefish512 (some key) tweak) dst src hdst
    · rw [if_neg h64] at hc
      by_cases h128 : key.length = 128
      · rw [if_pos h128] at hc
        injection hc with h
        subst h
        rw [h128] at hdst ⊢
        simp only [Cipher.BlockSize_mk] at hdst ⊢
        norm_num at hdst ⊢
        exact bytes1024 (newThreefish1024 (some key) tweak) dst src hdst
      · rw [if_neg h128] at hc
        exact Except.noConfusion hc

theorem claim_C10_byte_refinement_w :
    ((Cipher.mk 256 (.tf256 (newThreefish256
          (some (List.replicate 32 (0 : Byte))) none))).Encrypt
        (List.replicate 33 0) (List.replicate 7 1) =
      storeWords ((Cipher.mk 256 (.tf256 (newThreefish256
            (some (List.replicate 32 (0 : Byte))) none))).Encrypt64
          (loadWords ((List.replicate 7 (1 : Byte)).take 32) 4)) ++
        (List.replicate 33 (0 : Byte)).drop 32) ∧
    ((Cipher.mk 256 (.tf256 (newThreefish256
          (some (List.replicate 32 (0 : Byte))) none))).Decrypt
        (List.replicate 33 0) (List.replicate 7 1) =
      storeWords ((Cipher.mk 256 (.tf256 (newThreefish256
            (some (List.replicate 32 (0 : Byte))) none))).Decrypt64
          (loadWords ((List.replicate 7 (1 : Byte)).take 32) 4)) ++
        (List.replicate 33 (0 : Byte)).drop 32) :=
  claim_C10_byte_refinement (List.replicate 32 0) none
    (Cipher.mk 256 (.tf256 (newThreefish256
      (some (List.replicate 32 (0 : Byte))) none))) rfl
    (List.replicate 33 0) (List.replicate 7 1) (by decide)
